import Mathlib

/-
Verification of the i8080 emulator core (cpu.rs, memory.rs) against its
natural-language specification.  The Rust code is shallowly embedded:
machine integers are Nat with explicit wrap-around, memory is a function
from addresses to bytes, and the panics of the source (the
unimplemented arm of fetch_instruction, out-of-order slice indexing in
load_file) are modelled as the value none.
-/

namespace I8080

/-- Wrap-around to 8 bits, modelling u8 arithmetic. -/
def wrap8 (x : Nat) : Nat := x % 256

/-- Wrap-around to 16 bits, modelling u16 arithmetic. -/
def wrap16 (x : Nat) : Nat := x % 65536

/-- Model of u16 from_le_bytes applied to two bytes. -/
def fromLeBytes (lo hi : Nat) : Nat := 256 * hi + lo

/-- Model of ((x AND 0xFF00) shifted right by 8), the high byte of a u16. -/
def highByte (x : Nat) : Nat := (x &&& 0xFF00) >>> 8

/-- Model of (x AND 0x00FF), the low byte of a u16. -/
def lowByte (x : Nat) : Nat := x &&& 0x00FF

/-- Model of the u8 bitwise complement. -/
def complement8 (x : Nat) : Nat := 255 ^^^ x

/-- Model of u8 count_ones, the population count of a byte. -/
def countOnes8 (n : Nat) : Nat :=
  n % 2 + n / 2 % 2 + n / 4 % 2 + n / 8 % 2 +
  n / 16 % 2 + n / 32 % 2 + n / 64 % 2 + n / 128 % 2

/-- Bit of the Carry condition flag. -/
def CARRY : Nat := 0x01

/-- Bit 1 of the flags byte, always one. -/
def ALWAYS_ONE : Nat := 0x02

/-- Bit of the Parity condition flag. -/
def PARITY : Nat := 0x04

/-- Bit of the Auxiliary Carry condition flag. -/
def AUX_CARRY : Nat := 0x10

/-- Bit of the Zero condition flag. -/
def ZERO : Nat := 0x40

/-- Bit of the Sign condition flag. -/
def SIGN : Nat := 0x80

/-- Model of bitflags contains for a flags byte. -/
def containsF (f flag : Nat) : Bool := f &&& flag == flag

/-- Model of bitflags insert for a flags byte. -/
def insertF (f flag : Nat) : Nat := f ||| flag

/-- Model of bitflags remove (bits AND NOT other on u8). -/
def removeF (f flag : Nat) : Nat := f &&& (255 ^^^ flag)

/-- Model of bitflags toggle. -/
def toggleF (f flag : Nat) : Nat := f ^^^ flag

/-- Model of bitflags set: insert when the condition holds, else remove. -/
def setF (f flag : Nat) (b : Bool) : Nat := if b then insertF f flag else removeF f flag

/-- Model of ConditionFlags from_bits_truncate: keep only the defined bits
0x01, 0x02, 0x04, 0x10, 0x40, 0x80 (mask 0xD7). -/
def fromBitsTruncate (bits : Nat) : Nat := bits &&& 0xD7

/-- A 64 KiB memory, as a function from addresses to bytes. -/
def Mem : Type := Nat → Nat

/-- Write one byte into memory. -/
def mwrite (m : Mem) (addr v : Nat) : Mem := fun x => if x = addr then v else m x

/-- Read one byte from memory (the Rust Index on u16 addresses). -/
def mread (m : Mem) (addr : Nat) : Nat := m addr

/-- A 3-byte instruction tuple; bytes past the natural length are zero. -/
structure Instruction where
  b0 : Nat
  b1 : Nat
  b2 : Nat
deriving DecidableEq

/-- The three-state interrupt latch of the CPU. -/
inductive Interruptable where
  | disabled
  | enabling
  | enabled
deriving DecidableEq

/-- The CPU state: registers, program counter, stack pointer, flags byte,
interrupt latch and halt flag. -/
structure Cpu where
  pc : Nat
  sp : Nat
  b : Nat
  c : Nat
  d : Nat
  e : Nat
  h : Nat
  l : Nat
  a : Nat
  f : Nat
  interruptable : Interruptable
  isHalted : Bool
deriving DecidableEq

/-- The Default CPU: all fields zero, flags byte 0x02, latch Disabled. -/
def Cpu.initial : Cpu :=
  { pc := 0, sp := 0, b := 0, c := 0, d := 0, e := 0, h := 0, l := 0, a := 0,
    f := ALWAYS_ONE, interruptable := .disabled, isHalted := false }

/-- Model of update_parity_zero_sign_flags. -/
def Cpu.update_parity_zero_sign_flags (cpu : Cpu) (result : Nat) : Cpu :=
  let f1 := setF cpu.f PARITY (countOnes8 result % 2 == 0)
  let f2 := setF f1 ZERO (result == 0)
  let f3 := setF f2 SIGN (decide (0 < result &&& 0x80))
  { cpu with f := f3 }

/-- Model of the flag-engine helper add: sets Auxiliary Carry from the low
nibbles, computes the wrapped sum, sets Parity, Zero and Sign, and returns
the result with the carry-out. -/
def Cpu.add (cpu : Cpu) (x y : Nat) (carry_in : Bool) : Cpu × Nat × Bool :=
  let aux : Bool :=
    if carry_in then decide (0x0F ≤ (x &&& 0x0F) + (y &&& 0x0F))
    else decide (0x0F < (x &&& 0x0F) + (y &&& 0x0F))
  let cpu := { cpu with f := setF cpu.f AUX_CARRY aux }
  let result := if carry_in then wrap8 (x + y + 1) else wrap8 (x + y)
  let cpu := cpu.update_parity_zero_sign_flags result
  (cpu, result, if carry_in then decide (0xFF - y ≤ x) else decide (0xFF - y < x))

/-- Model of the flag-engine helper subtract: add with the complemented
subtrahend and inverted borrow, with the borrow-out inverted back. -/
def Cpu.subtract (cpu : Cpu) (x y : Nat) (borrow_in : Bool) : Cpu × Nat × Bool :=
  let t := cpu.add x (complement8 y) (!borrow_in)
  (t.1, t.2.1, !t.2.2)

/-- Model of logical_and: clears Carry, sets Auxiliary Carry to bit 3 of the
OR of the operands, stores the AND into A and updates Parity, Zero, Sign. -/
def Cpu.logical_and (cpu : Cpu) (byte : Nat) : Cpu :=
  let cpu1 := { cpu with f := removeF cpu.f CARRY }
  let cpu2 := { cpu1 with f := setF cpu1.f AUX_CARRY (decide (0 < (cpu1.a ||| byte) &&& 0x08)) }
  let result := cpu2.a &&& byte
  let cpu3 := cpu2.update_parity_zero_sign_flags result
  { cpu3 with a := result }

/-- Model of logical_or: clears Carry and Auxiliary Carry, stores the OR
into A and updates Parity, Zero, Sign. -/
def Cpu.logical_or (cpu : Cpu) (byte : Nat) : Cpu :=
  let cpu1 := { cpu with f := removeF cpu.f CARRY }
  let cpu2 := { cpu1 with f := removeF cpu1.f AUX_CARRY }
  let result := cpu2.a ||| byte
  let cpu3 := cpu2.update_parity_zero_sign_flags result
  { cpu3 with a := result }

/-- Model of logical_xor: clears Carry and Auxiliary Carry, stores the XOR
into A and updates Parity, Zero, Sign. -/
def Cpu.logical_xor (cpu : Cpu) (byte : Nat) : Cpu :=
  let cpu1 := { cpu with f := removeF cpu.f CARRY }
  let cpu2 := { cpu1 with f := removeF cpu1.f AUX_CARRY }
  let result := cpu2.a ^^^ byte
  let cpu3 := cpu2.update_parity_zero_sign_flags result
  { cpu3 with a := result }

/-- Model of call: push the program counter (high byte at SP-1, low byte at
SP-2), decrement SP by two, jump to the little-endian operand. -/
def Cpu.call (cpu : Cpu) (ins : Instruction) (m : Mem) : Cpu × Mem :=
  let m1 := mwrite m (wrap16 (cpu.sp + 65535)) (highByte cpu.pc)
  let m2 := mwrite m1 (wrap16 (cpu.sp + 65534)) (lowByte cpu.pc)
  ({ cpu with sp := wrap16 (cpu.sp + 65534), pc := fromLeBytes ins.b1 ins.b2 }, m2)

/-- Model of restart: push the program counter and jump to opcode AND 0x38. -/
def Cpu.restart (cpu : Cpu) (opcode : Nat) (m : Mem) : Cpu × Mem :=
  let m1 := mwrite m (wrap16 (cpu.sp + 65535)) (highByte cpu.pc)
  let m2 := mwrite m1 (wrap16 (cpu.sp + 65534)) (lowByte cpu.pc)
  ({ cpu with sp := wrap16 (cpu.sp + 65534), pc := opcode &&& 0x38 }, m2)

/-- Model of ret: pop the program counter (low byte at SP, high byte at
SP+1) and increment SP by two. -/
def Cpu.ret (cpu : Cpu) (m : Mem) : Cpu :=
  { cpu with pc := fromLeBytes (mread m cpu.sp) (mread m (wrap16 (cpu.sp + 1))),
             sp := wrap16 (cpu.sp + 2) }

/-- Arms of the execute_instruction dispatch for opcodes 0x00 to 0x0F,
verbatim from the source match. -/
def Cpu.exeRow0 (cpu : Cpu) (ins : Instruction) (m : Mem) : Cpu × Mem × Nat :=
  match ins.b0 with
  -- DAD B (Add contents of B and C to H and L)
  | 0x09 =>
    let sum := fromLeBytes cpu.l cpu.h + fromLeBytes cpu.c cpu.b
    let result := wrap16 sum
    let carry_out := decide (65536 ≤ sum)
    ({ cpu with f := setF cpu.f CARRY carry_out, h := highByte result, l := lowByte result }, m, 10)
  -- DCR B (Decrement B)
  | 0x05 =>
    let t := cpu.subtract cpu.b 1 false
    ({ t.1 with b := t.2.1 }, m, 5)
  -- DCR C (Decrement C)
  | 0x0D =>
    let t := cpu.subtract cpu.c 1 false
    ({ t.1 with c := t.2.1 }, m, 5)
  -- DCX B (Decrement BC by one)
  | 0x0B =>
    let result := wrap16 (fromLeBytes cpu.c cpu.b + 65535)
    ({ cpu with b := highByte result, c := lowByte result }, m, 5)
  -- INR B (Increment B)
  | 0x04 =>
    let t := cpu.add cpu.b 1 false
    ({ t.1 with b := t.2.1 }, m, 5)
  -- INR C (Increment C)
  | 0x0C =>
    let t := cpu.add cpu.c 1 false
    ({ t.1 with c := t.2.1 }, m, 5)
  -- INX B (Increment BC by one)
  | 0x03 =>
    let result := wrap16 (fromLeBytes cpu.c cpu.b + 1)
    ({ cpu with b := highByte result, c := lowByte result }, m, 5)
  -- LDAX B (Load A from address in B and C)
  | 0x0A =>
    let address := fromLeBytes cpu.c cpu.b
    ({ cpu with a := mread m address }, m, 7)
  -- LXI B (Load immediate register pair B and C)
  | 0x01 => ({ cpu with b := ins.b2, c := ins.b1 }, m, 10)
  -- MVI B (Move immediate to B)
  | 0x06 => ({ cpu with b := ins.b1 }, m, 7)
  -- MVI C (Move immediate to C)
  | 0x0E => ({ cpu with c := ins.b1 }, m, 7)
  -- NOP (No operation)
  | 0x00 => (cpu, m, 4)
  -- NOP (No operation, undocumented)
  | 0x08 => (cpu, m, 4)
  -- RLC (Rotate A left): u8 rotate_left 1 is the wrapped shift joined with
  -- the bit shifted out
  | 0x07 =>
    let cpu1 := { cpu with f := setF cpu.f CARRY (decide (0 < cpu.a &&& 0x80)) }
    ({ cpu1 with a := wrap8 (cpu.a <<< 1) ||| cpu.a >>> 7 }, m, 4)
  -- RRC (Rotate A right): u8 rotate_right 1 is the shift joined with the
  -- bit shifted out moved to the top
  | 0x0F =>
    let cpu1 := { cpu with f := setF cpu.f CARRY (decide (0 < cpu.a &&& 0x01)) }
    ({ cpu1 with a := (cpu.a >>> 1) ||| wrap8 (cpu.a <<< 7) }, m, 4)
  -- STAX B (Store A in address in B and C)
  | 0x02 => (cpu, mwrite m (fromLeBytes cpu.c cpu.b) cpu.a, 7)
  -- unreachable: all opcodes of this row are matched above
  | _ => (cpu, m, 0)

/-- Arms of the execute_instruction dispatch for opcodes 0x10 to 0x1F,
verbatim from the source match. -/
def Cpu.exeRow1 (cpu : Cpu) (ins : Instruction) (m : Mem) : Cpu × Mem × Nat :=
  match ins.b0 with
  -- DAD D (Add contents of D and E to H and L)
  | 0x19 =>
    let sum := fromLeBytes cpu.l cpu.h + fromLeBytes cpu.e cpu.d
    let result := wrap16 sum
    let carry_out := decide (65536 ≤ sum)
    ({ cpu with f := setF cpu.f CARRY carry_out, h := highByte result, l := lowByte result }, m, 10)
  -- DCR D (Decrement D)
  | 0x15 =>
    let t := cpu.subtract cpu.d 1 false
    ({ t.1 with d := t.2.1 }, m, 5)
  -- DCR E (Decrement E)
  | 0x1D =>
    let t := cpu.subtract cpu.e 1 false
    ({ t.1 with e := t.2.1 }, m, 5)
  -- DCX D (Decrement DE by one)
  | 0x1B =>
    let result := wrap16 (fromLeBytes cpu.e cpu.d + 65535)
    ({ cpu with d := highByte result, e := lowByte result }, m, 5)
  -- INR D (Increment D)
  | 0x14 =>
    let t := cpu.add cpu.d 1 false
    ({ t.1 with d := t.2.1 }, m, 5)
  -- INR E (Increment E)
  | 0x1C =>
    let t := cpu.add cpu.e 1 false
    ({ t.1 with e := t.2.1 }, m, 5)
  -- INX D (Increment DE by one)
  | 0x13 =>
    let result := wrap16 (fromLeBytes cpu.e cpu.d + 1)
    ({ cpu with d := highByte result, e := lowByte result }, m, 5)
  -- LDAX D (Load A from address in D and E)
  | 0x1A =>
    let address := fromLeBytes cpu.e cpu.d
    ({ cpu with a := mread m address }, m, 7)
  -- LXI D (Load immediate register pair D and E)
  | 0x11 => ({ cpu with d := ins.b2, e := ins.b1 }, m, 10)
  -- MVI D (Move immediate to D)
  | 0x16 => ({ cpu with d := ins.b1 }, m, 7)
  -- MVI E (Move immediate to E)
  | 0x1E => ({ cpu with e := ins.b1 }, m, 7)
  -- NOP (No operation, undocumented)
  | 0x10 | 0x18 => (cpu, m, 4)
  -- RAL (Rotate left through carry)
  | 0x17 =>
    let carry := containsF cpu.f CARRY
    let cpu1 := { cpu with f := setF cpu.f CARRY (decide (0 < cpu.a &&& 0x80)) }
    let a1 := if carry then wrap8 (cpu.a <<< 1) ||| 0x01 else wrap8 (cpu.a <<< 1)
    ({ cpu1 with a := a1 }, m, 4)
  -- RAR (Rotate right through carry)
  | 0x1F =>
    let carry := containsF cpu.f CARRY
    let cpu1 := { cpu with f := setF cpu.f CARRY (decide (0 < cpu.a &&& 0x01)) }
    let a1 := if carry then (cpu.a >>> 1) ||| 0x80 else cpu.a >>> 1
    ({ cpu1 with a := a1 }, m, 4)
  -- STAX D (Store A in address in D and E)
  | 0x12 => (cpu, mwrite m (fromLeBytes cpu.e cpu.d) cpu.a, 7)
  -- unreachable: all opcodes of this row are matched above
  | _ => (cpu, m, 0)

/-- Arms of the execute_instruction dispatch for opcodes 0x20 to 0x2F,
verbatim from the source match. -/
def Cpu.exeRow2 (cpu : Cpu) (ins : Instruction) (m : Mem) : Cpu × Mem × Nat :=
  match ins.b0 with
  -- CMA (Complement A)
  | 0x2F => ({ cpu with a := complement8 cpu.a }, m, 4)
  -- DAA (Decimal adjust A)
  | 0x27 =>
    let cpu1 :=
      if decide (0x09 < cpu.a &&& 0x0F) || containsF cpu.f AUX_CARRY then
        let result := wrap8 (cpu.a + 0x06)
        let carry := decide (256 ≤ cpu.a + 0x06)
        let cpuA := if carry then { cpu with f := insertF cpu.f CARRY } else cpu
        let cpuB := { cpuA with f := setF cpuA.f AUX_CARRY (decide (0x0F < (cpu.a &&& 0x0F) + 0x06)) }
        { cpuB with a := result }
      else cpu
    let cpu2 :=
      if decide (0x90 < cpu1.a &&& 0xF0) || containsF cpu1.f CARRY then
        { cpu1 with a := wrap8 (cpu1.a + 0x60), f := insertF cpu1.f CARRY }
      else cpu1
    (cpu2.update_parity_zero_sign_flags cpu2.a, m, 4)
  -- DAD H (Add contents of H and L to H and L)
  | 0x29 =>
    let sum := fromLeBytes cpu.l cpu.h + fromLeBytes cpu.l cpu.h
    let result := wrap16 sum
    let carry_out := decide (65536 ≤ sum)
    ({ cpu with f := setF cpu.f CARRY carry_out, h := highByte result, l := lowByte result }, m, 10)
  -- DCR H (Decrement H)
  | 0x25 =>
    let t := cpu.subtract cpu.h 1 false
    ({ t.1 with h := t.2.1 }, m, 5)
  -- DCR L (Decrement L)
  | 0x2D =>
    let t := cpu.subtract cpu.l 1 false
    ({ t.1 with l := t.2.1 }, m, 5)
  -- DCX H (Decrement HL by one)
  | 0x2B =>
    let result := wrap16 (fromLeBytes cpu.l cpu.h + 65535)
    ({ cpu with h := highByte result, l := lowByte result }, m, 5)
  -- INR H (Increment H)
  | 0x24 =>
    let t := cpu.add cpu.h 1 false
    ({ t.1 with h := t.2.1 }, m, 5)
  -- INR L (Increment L)
  | 0x2C =>
    let t := cpu.add cpu.l 1 false
    ({ t.1 with l := t.2.1 }, m, 5)
  -- INX H (Increment HL by one)
  | 0x23 =>
    let result := wrap16 (fromLeBytes cpu.l cpu.h + 1)
    ({ cpu with h := highByte result, l := lowByte result }, m, 5)
  -- LHLD (Load H and L direct)
  | 0x2A =>
    let address := fromLeBytes ins.b1 ins.b2
    ({ cpu with l := mread m address, h := mread m (wrap16 (address + 1)) }, m, 16)
  -- LXI H (Load immediate register pair H and L)
  | 0x21 => ({ cpu with h := ins.b2, l := ins.b1 }, m, 10)
  -- MVI H (Move immediate to H)
  | 0x26 => ({ cpu with h := ins.b1 }, m, 7)
  -- MVI L (Move immediate to L)
  | 0x2E => ({ cpu with l := ins.b1 }, m, 7)
  -- NOP (No operation, undocumented)
  | 0x20 | 0x28 => (cpu, m, 4)
  -- SHLD (Store H and L direct)
  | 0x22 =>
    let address := fromLeBytes ins.b1 ins.b2
    let m1 := mwrite m address cpu.l
    let m2 := mwrite m1 (wrap16 (address + 1)) cpu.h
    (cpu, m2, 16)
  -- unreachable: all opcodes of this row are matched above
  | _ => (cpu, m, 0)

/-- Arms of the execute_instruction dispatch for opcodes 0x30 to 0x3F,
verbatim from the source match. -/
def Cpu.exeRow3 (cpu : Cpu) (ins : Instruction) (m : Mem) : Cpu × Mem × Nat :=
  match ins.b0 with
  -- CMC (Complement carry flag)
  | 0x3F => ({ cpu with f := toggleF cpu.f CARRY }, m, 4)
  -- DAD SP (Add contents of SP to H and L)
  | 0x39 =>
    let sum := fromLeBytes cpu.l cpu.h + cpu.sp
    let result := wrap16 sum
    let carry_out := decide (65536 ≤ sum)
    ({ cpu with f := setF cpu.f CARRY carry_out, h := highByte result, l := lowByte result }, m, 10)
  -- DCR M (Decrement memory)
  | 0x35 =>
    let address := fromLeBytes cpu.l cpu.h
    let t := cpu.subtract (mread m address) 1 false
    (t.1, mwrite m address t.2.1, 10)
  -- DCR A (Decrement A): the source re-sets Sign from the result after the
  -- subtract helper already did so
  | 0x3D =>
    let t := cpu.subtract cpu.a 1 false
    let cpu1 := { t.1 with f := setF t.1.f SIGN (decide (0 < t.2.1 &&& 0x80)) }
    ({ cpu1 with a := t.2.1 }, m, 5)
  -- DCX SP (Decrement SP by one)
  | 0x3B => ({ cpu with sp := wrap16 (cpu.sp + 65535) }, m, 5)
  -- INR M (Increment memory)
  | 0x34 =>
    let address := fromLeBytes cpu.l cpu.h
    let t := cpu.add (mread m address) 1 false
    (t.1, mwrite m address t.2.1, 10)
  -- INR A (Increment A)
  | 0x3C =>
    let t := cpu.add cpu.a 1 false
    ({ t.1 with a := t.2.1 }, m, 5)
  -- INX SP (Increment SP by one)
  | 0x33 => ({ cpu with sp := wrap16 (cpu.sp + 1) }, m, 5)
  -- LDA (Load A direct)
  | 0x3A =>
    let address := fromLeBytes ins.b1 ins.b2
    ({ cpu with a := mread m address }, m, 13)
  -- LXI SP (Load immediate stack pointer)
  | 0x31 => ({ cpu with sp := fromLeBytes ins.b1 ins.b2 }, m, 10)
  -- MVI M (Move immediate to memory)
  | 0x36 => (cpu, mwrite m (fromLeBytes cpu.l cpu.h) ins.b1, 10)
  -- MVI A (Move immediate to A)
  | 0x3E => ({ cpu with a := ins.b1 }, m, 7)
  -- NOP (No operation, undocumented)
  | 0x30 | 0x38 => (cpu, m, 4)
  -- STA (Store A direct)
  | 0x32 => (cpu, mwrite m (fromLeBytes ins.b1 ins.b2) cpu.a, 13)
  -- STC (Set carry flag)
  | 0x37 => ({ cpu with f := insertF cpu.f CARRY }, m, 4)
  -- unreachable: all opcodes of this row are matched above
  | _ => (cpu, m, 0)

/-- Arms of the execute_instruction dispatch for opcodes 0x40 to 0x4F,
verbatim from the source match. -/
def Cpu.exeRow4 (cpu : Cpu) (ins : Instruction) (m : Mem) : Cpu × Mem × Nat :=
  match ins.b0 with
  -- MOV B,M (Move memory to B)
  | 0x46 => ({ cpu with b := mread m (fromLeBytes cpu.l cpu.h) }, m, 7)
  -- MOV C,M (Move memory to C)
  | 0x4E => ({ cpu with c := mread m (fromLeBytes cpu.l cpu.h) }, m, 7)
  -- MOV B,B (Move B to B)
  | 0x40 => (cpu, m, 5)
  -- MOV B,C (Move C to B)
  | 0x41 => ({ cpu with b := cpu.c }, m, 5)
  -- MOV B,D (Move D to B)
  | 0x42 => ({ cpu with b := cpu.d }, m, 5)
  -- MOV B,E (Move E to B)
  | 0x43 => ({ cpu with b := cpu.e }, m, 5)
  -- MOV B,H (Move H to B)
  | 0x44 => ({ cpu with b := cpu.h }, m, 5)
  -- MOV B,L (Move L to B)
  | 0x45 => ({ cpu with b := cpu.l }, m, 5)
  -- MOV B,A (Move A to B)
  | 0x47 => ({ cpu with b := cpu.a }, m, 5)
  -- MOV C,B (Move B to C)
  | 0x48 => ({ cpu with c := cpu.b }, m, 5)
  -- MOV C,C (Move C to C)
  | 0x49 => (cpu, m, 5)
  -- MOV C,D (Move D to C)
  | 0x4A => ({ cpu with c := cpu.d }, m, 5)
  -- MOV C,E (Move E to C)
  | 0x4B => ({ cpu with c := cpu.e }, m, 5)
  -- MOV C,H (Move H to C)
  | 0x4C => ({ cpu with c := cpu.h }, m, 5)
  -- MOV C,L (Move L to C)
  | 0x4D => ({ cpu with c := cpu.l }, m, 5)
  -- MOV C,A (Move A to C)
  | 0x4F => ({ cpu with c := cpu.a }, m, 5)
  -- unreachable: all opcodes of this row are matched above
  | _ => (cpu, m, 0)

/-- Arms of the execute_instruction dispatch for opcodes 0x50 to 0x5F,
verbatim from the source match. -/
def Cpu.exeRow5 (cpu : Cpu) (ins : Instruction) (m : Mem) : Cpu × Mem × Nat :=
  match ins.b0 with
  -- MOV D,M (Move memory to D)
  | 0x56 => ({ cpu with d := mread m (fromLeBytes cpu.l cpu.h) }, m, 7)
  -- MOV E,M (Move memory to E)
  | 0x5E => ({ cpu with e := mread m (fromLeBytes cpu.l cpu.h) }, m, 7)
  -- MOV D,B (Move B to D)
  | 0x50 => ({ cpu with d := cpu.b }, m, 5)
  -- MOV D,C (Move C to D)
  | 0x51 => ({ cpu with d := cpu.c }, m, 5)
  -- MOV D,D (Move D to D)
  | 0x52 => (cpu, m, 5)
  -- MOV D,E (Move E to D)
  | 0x53 => ({ cpu with d := cpu.e }, m, 5)
  -- MOV D,H (Move H to D)
  | 0x54 => ({ cpu with d := cpu.h }, m, 5)
  -- MOV D,L (Move L to D)
  | 0x55 => ({ cpu with d := cpu.l }, m, 5)
  -- MOV D,A (Move A to D)
  | 0x57 => ({ cpu with d := cpu.a }, m, 5)
  -- MOV E,B (Move B to E)
  | 0x58 => ({ cpu with e := cpu.b }, m, 5)
  -- MOV E,C (Move C to E)
  | 0x59 => ({ cpu with e := cpu.c }, m, 5)
  -- MOV E,D (Move D to E)
  | 0x5A => ({ cpu with e := cpu.d }, m, 5)
  -- MOV E,E (Move E to E)
  | 0x5B => (cpu, m, 5)
  -- MOV E,H (Move H to E)
  | 0x5C => ({ cpu with e := cpu.h }, m, 5)
  -- MOV E,L (Move L to E)
  | 0x5D => ({ cpu with e := cpu.l }, m, 5)
  -- MOV E,A (Move A to E)
  | 0x5F => ({ cpu with e := cpu.a }, m, 5)
  -- unreachable: all opcodes of this row are matched above
  | _ => (cpu, m, 0)

/-- Arms of the execute_instruction dispatch for opcodes 0x60 to 0x6F,
verbatim from the source match. -/
def Cpu.exeRow6 (cpu : Cpu) (ins : Instruction) (m : Mem) : Cpu × Mem × Nat :=
  match ins.b0 with
  -- MOV H,M (Move memory to H)
  | 0x66 => ({ cpu with h := mread m (fromLeBytes cpu.l cpu.h) }, m, 7)
  -- MOV L,M (Move memory to L)
  | 0x6E => ({ cpu with l := mread m (fromLeBytes cpu.l cpu.h) }, m, 7)
  -- MOV H,B (Move B to H)
  | 0x60 => ({ cpu with h := cpu.b }, m, 5)
  -- MOV H,C (Move C to H)
  | 0x61 => ({ cpu with h := cpu.c }, m, 5)
  -- MOV H,D (Move D to H)
  | 0x62 => ({ cpu with h := cpu.d }, m, 5)
  -- MOV H,E (Move E to H)
  | 0x63 => ({ cpu with h := cpu.e }, m, 5)
  -- MOV H,H (Move H to H)
  | 0x64 => (cpu, m, 5)
  -- MOV H,L (Move L to H)
  | 0x65 => ({ cpu with h := cpu.l }, m, 5)
  -- MOV H,A (Move A to H)
  | 0x67 => ({ cpu with h := cpu.a }, m, 5)
  -- MOV L,B (Move B to L)
  | 0x68 => ({ cpu with l := cpu.b }, m, 5)
  -- MOV L,C (Move C to L)
  | 0x69 => ({ cpu with l := cpu.c }, m, 5)
  -- MOV L,D (Move D to L)
  | 0x6A => ({ cpu with l := cpu.d }, m, 5)
  -- MOV L,E (Move E to L)
  | 0x6B => ({ cpu with l := cpu.e }, m, 5)
  -- MOV L,H (Move H to L)
  | 0x6C => ({ cpu with l := cpu.h }, m, 5)
  -- MOV L,L (Move L to L)
  | 0x6D => (cpu, m, 5)
  -- MOV L,A (Move A to L)
  | 0x6F => ({ cpu with l := cpu.a }, m, 5)
  -- unreachable: all opcodes of this row are matched above
  | _ => (cpu, m, 0)

/-- Arms of the execute_instruction dispatch for opcodes 0x70 to 0x7F,
verbatim from the source match. -/
def Cpu.exeRow7 (cpu : Cpu) (ins : Instruction) (m : Mem) : Cpu × Mem × Nat :=
  match ins.b0 with
  -- HLT (Halt)
  | 0x76 => ({ cpu with isHalted := true }, m, 7)
  -- MOV A,M (Move memory to A)
  | 0x7E => ({ cpu with a := mread m (fromLeBytes cpu.l cpu.h) }, m, 7)
  -- MOV A,B (Move B to A)
  | 0x78 => ({ cpu with a := cpu.b }, m, 5)
  -- MOV A,C (Move C to A)
  | 0x79 => ({ cpu with a := cpu.c }, m, 5)
  -- MOV A,D (Move D to A)
  | 0x7A => ({ cpu with a := cpu.d }, m, 5)
  -- MOV A,E (Move E to A)
  | 0x7B => ({ cpu with a := cpu.e }, m, 5)
  -- MOV A,H (Move H to A)
  | 0x7C => ({ cpu with a := cpu.h }, m, 5)
  -- MOV A,L (Move L to A)
  | 0x7D => ({ cpu with a := cpu.l }, m, 5)
  -- MOV A,A (Move A to A)
  | 0x7F => (cpu, m, 5)
  -- MOV M,B (Move B to memory)
  | 0x70 => (cpu, mwrite m (fromLeBytes cpu.l cpu.h) cpu.b, 7)
  -- MOV M,C (Move C to memory)
  | 0x71 => (cpu, mwrite m (fromLeBytes cpu.l cpu.h) cpu.c, 7)
  -- MOV M,D (Move D to memory)
  | 0x72 => (cpu, mwrite m (fromLeBytes cpu.l cpu.h) cpu.d, 7)
  -- MOV M,E (Move E to memory)
  | 0x73 => (cpu, mwrite m (fromLeBytes cpu.l cpu.h) cpu.e, 7)
  -- MOV M,H (Move H to memory)
  | 0x74 => (cpu, mwrite m (fromLeBytes cpu.l cpu.h) cpu.h, 7)
  -- MOV M,L (Move L to memory)
  | 0x75 => (cpu, mwrite m (fromLeBytes cpu.l cpu.h) cpu.l, 7)
  -- MOV M,A (Move A to memory)
  | 0x77 => (cpu, mwrite m (fromLeBytes cpu.l cpu.h) cpu.a, 7)
  -- unreachable: all opcodes of this row are matched above
  | _ => (cpu, m, 0)

/-- Arms of the execute_instruction dispatch for opcodes 0x80 to 0x8F,
verbatim from the source match. -/
def Cpu.exeRow8 (cpu : Cpu) (ins : Instruction) (m : Mem) : Cpu × Mem × Nat :=
  match ins.b0 with
  -- ADC M (Add memory to A with carry)
  | 0x8E =>
    let address := fromLeBytes cpu.l cpu.h
    let carry_in := containsF cpu.f CARRY
    let t := cpu.add cpu.a (mread m address) carry_in
    ({ t.1 with f := setF t.1.f CARRY t.2.2, a := t.2.1 }, m, 7)
  -- ADC B (Add B to A with carry)
  | 0x88 =>
    let carry_in := containsF cpu.f CARRY
    let t := cpu.add cpu.a cpu.b carry_in
    ({ t.1 with f := setF t.1.f CARRY t.2.2, a := t.2.1 }, m, 4)
  -- ADC C (Add C to A with carry)
  | 0x89 =>
    let carry_in := containsF cpu.f CARRY
    let t := cpu.add cpu.a cpu.c carry_in
    ({ t.1 with f := setF t.1.f CARRY t.2.2, a := t.2.1 }, m, 4)
  -- ADC D (Add D to A with carry)
  | 0x8A =>
    let carry_in := containsF cpu.f CARRY
    let t := cpu.add cpu.a cpu.d carry_in
    ({ t.1 with f := setF t.1.f CARRY t.2.2, a := t.2.1 }, m, 4)
  -- ADC E (Add E to A with carry)
  | 0x8B =>
    let carry_in := containsF cpu.f CARRY
    let t := cpu.add cpu.a cpu.e carry_in
    ({ t.1 with f := setF t.1.f CARRY t.2.2, a := t.2.1 }, m, 4)
  -- ADC H (Add H to A with carry)
  | 0x8C =>
    let carry_in := containsF cpu.f CARRY
    let t := cpu.add cpu.a cpu.h carry_in
    ({ t.1 with f := setF t.1.f CARRY t.2.2, a := t.2.1 }, m, 4)
  -- ADC L (Add L to A with carry)
  | 0x8D =>
    let carry_in := containsF cpu.f CARRY
    let t := cpu.add cpu.a cpu.l carry_in
    ({ t.1 with f := setF t.1.f CARRY t.2.2, a := t.2.1 }, m, 4)
  -- ADC A (Add A to A with carry)
  | 0x8F =>
    let carry_in := containsF cpu.f CARRY
    let t := cpu.add cpu.a cpu.a carry_in
    ({ t.1 with f := setF t.1.f CARRY t.2.2, a := t.2.1 }, m, 4)
  -- ADD M (Add memory to A)
  | 0x86 =>
    let address := fromLeBytes cpu.l cpu.h
    let t := cpu.add cpu.a (mread m address) false
    ({ t.1 with f := setF t.1.f CARRY t.2.2, a := t.2.1 }, m, 7)
  -- ADD B (Add B to A)
  | 0x80 =>
    let t := cpu.add cpu.a cpu.b false
    ({ t.1 with f := setF t.1.f CARRY t.2.2, a := t.2.1 }, m, 4)
  -- ADD C (Add C to A)
  | 0x81 =>
    let t := cpu.add cpu.a cpu.c false
    ({ t.1 with f := setF t.1.f CARRY t.2.2, a := t.2.1 }, m, 4)
  -- ADD D (Add D to A)
  | 0x82 =>
    let t := cpu.add cpu.a cpu.d false
    ({ t.1 with f := setF t.1.f CARRY t.2.2, a := t.2.1 }, m, 4)
  -- ADD E (Add E to A)
  | 0x83 =>
    let t := cpu.add cpu.a cpu.e false
    ({ t.1 with f := setF t.1.f CARRY t.2.2, a := t.2.1 }, m, 4)
  -- ADD H (Add H to A)
  | 0x84 =>
    let t := cpu.add cpu.a cpu.h false
    ({ t.1 with f := setF t.1.f CARRY t.2.2, a := t.2.1 }, m, 4)
  -- ADD L (Add L to A)
  | 0x85 =>
    let t := cpu.add cpu.a cpu.l false
    ({ t.1 with f := setF t.1.f CARRY t.2.2, a := t.2.1 }, m, 4)
  -- ADD A (Add A to A)
  | 0x87 =>
    let t := cpu.add cpu.a cpu.a false
    ({ t.1 with f := setF t.1.f CARRY t.2.2, a := t.2.1 }, m, 4)
  -- unreachable: all opcodes of this row are matched above
  | _ => (cpu, m, 0)

/-- Arms of the execute_instruction dispatch for opcodes 0x90 to 0x9F,
verbatim from the source match. -/
def Cpu.exeRow9 (cpu : Cpu) (ins : Instruction) (m : Mem) : Cpu × Mem × Nat :=
  match ins.b0 with
  -- SBB M (Subtract memory from A with borrow)
  | 0x9E =>
    let address := fromLeBytes cpu.l cpu.h
    let borrow_in := containsF cpu.f CARRY
    let t := cpu.subtract cpu.a (mread m address) borrow_in
    ({ t.1 with f := setF t.1.f CARRY t.2.2, a := t.2.1 }, m, 7)
  -- SBB B (Subtract B from A with borrow)
  | 0x98 =>
    let borrow_in := containsF cpu.f CARRY
    let t := cpu.subtract cpu.a cpu.b borrow_in
    ({ t.1 with f := setF t.1.f CARRY t.2.2, a := t.2.1 }, m, 4)
  -- SBB C (Subtract C from A with borrow)
  | 0x99 =>
    let borrow_in := containsF cpu.f CARRY
    let t := cpu.subtract cpu.a cpu.c borrow_in
    ({ t.1 with f := setF t.1.f CARRY t.2.2, a := t.2.1 }, m, 4)
  -- SBB D (Subtract D from A with borrow)
  | 0x9A =>
    let borrow_in := containsF cpu.f CARRY
    let t := cpu.subtract cpu.a cpu.d borrow_in
    ({ t.1 with f := setF t.1.f CARRY t.2.2, a := t.2.1 }, m, 4)
  -- SBB E (Subtract E from A with borrow)
  | 0x9B =>
    let borrow_in := containsF cpu.f CARRY
    let t := cpu.subtract cpu.a cpu.e borrow_in
    ({ t.1 with f := setF t.1.f CARRY t.2.2, a := t.2.1 }, m, 4)
  -- SBB H (Subtract H from A with borrow)
  | 0x9C =>
    let borrow_in := containsF cpu.f CARRY
    let t := cpu.subtract cpu.a cpu.h borrow_in
    ({ t.1 with f := setF t.1.f CARRY t.2.2, a := t.2.1 }, m, 4)
  -- SBB L (Subtract L from A with borrow)
  | 0x9D =>
    let borrow_in := containsF cpu.f CARRY
    let t := cpu.subtract cpu.a cpu.l borrow_in
    ({ t.1 with f := setF t.1.f CARRY t.2.2, a := t.2.1 }, m, 4)
  -- SBB A (Subtract A from A with borrow)
  | 0x9F =>
    let borrow_in := containsF cpu.f CARRY
    let t := cpu.subtract cpu.a cpu.a borrow_in
    ({ t.1 with f := setF t.1.f CARRY t.2.2, a := t.2.1 }, m, 4)
  -- SUB M (Subtract memory from A)
  | 0x96 =>
    let address := fromLeBytes cpu.l cpu.h
    let t := cpu.subtract cpu.a (mread m address) false
    ({ t.1 with f := setF t.1.f CARRY t.2.2, a := t.2.1 }, m, 7)
  -- SUB B (Subtract B from A)
  | 0x90 =>
    let t := cpu.subtract cpu.a cpu.b false
    ({ t.1 with f := setF t.1.f CARRY t.2.2, a := t.2.1 }, m, 4)
  -- SUB C (Subtract C from A)
  | 0x91 =>
    let t := cpu.subtract cpu.a cpu.c false
    ({ t.1 with f := setF t.1.f CARRY t.2.2, a := t.2.1 }, m, 4)
  -- SUB D (Subtract D from A)
  | 0x92 =>
    let t := cpu.subtract cpu.a cpu.d false
    ({ t.1 with f := setF t.1.f CARRY t.2.2, a := t.2.1 }, m, 4)
  -- SUB E (Subtract E from A)
  | 0x93 =>
    let t := cpu.subtract cpu.a cpu.e false
    ({ t.1 with f := setF t.1.f CARRY t.2.2, a := t.2.1 }, m, 4)
  -- SUB H (Subtract H from A)
  | 0x94 =>
    let t := cpu.subtract cpu.a cpu.h false
    ({ t.1 with f := setF t.1.f CARRY t.2.2, a := t.2.1 }, m, 4)
  -- SUB L (Subtract L from A)
  | 0x95 =>
    let t := cpu.subtract cpu.a cpu.l false
    ({ t.1 with f := setF t.1.f CARRY t.2.2, a := t.2.1 }, m, 4)
  -- SUB A (Subtract A from A)
  | 0x97 =>
    let t := cpu.subtract cpu.a cpu.a false
    ({ t.1 with f := setF t.1.f CARRY t.2.2, a := t.2.1 }, m, 4)
  -- unreachable: all opcodes of this row are matched above
  | _ => (cpu, m, 0)

/-- Arms of the execute_instruction dispatch for opcodes 0xA0 to 0xAF,
verbatim from the source match. -/
def Cpu.exeRowA (cpu : Cpu) (ins : Instruction) (m : Mem) : Cpu × Mem × Nat :=
  match ins.b0 with
  -- ANA M (And memory with A)
  | 0xA6 =>
    let address := fromLeBytes cpu.l cpu.h
    (cpu.logical_and (mread m address), m, 7)
  -- ANA B (And B with A)
  | 0xA0 => (cpu.logical_and cpu.b, m, 4)
  -- ANA C (And C with A)
  | 0xA1 => (cpu.logical_and cpu.c, m, 4)
  -- ANA D (And D with A)
  | 0xA2 => (cpu.logical_and cpu.d, m, 4)
  -- ANA E (And E with A)
  | 0xA3 => (cpu.logical_and cpu.e, m, 4)
  -- ANA H (And H with A)
  | 0xA4 => (cpu.logical_and cpu.h, m, 4)
  -- ANA L (And L with A)
  | 0xA5 => (cpu.logical_and cpu.l, m, 4)
  -- ANA A (And A with A)
  | 0xA7 => (cpu.logical_and cpu.a, m, 4)
  -- XRA M (Exclusive Or memory with A)
  | 0xAE =>
    let address := fromLeBytes cpu.l cpu.h
    (cpu.logical_xor (mread m address), m, 7)
  -- XRA B (Exclusive Or B with A)
  | 0xA8 => (cpu.logical_xor cpu.b, m, 4)
  -- XRA C (Exclusive Or C with A)
  | 0xA9 => (cpu.logical_xor cpu.c, m, 4)
  -- XRA D (Exclusive Or D with A)
  | 0xAA => (cpu.logical_xor cpu.d, m, 4)
  -- XRA E (Exclusive Or E with A)
  | 0xAB => (cpu.logical_xor cpu.e, m, 4)
  -- XRA H (Exclusive Or H with A)
  | 0xAC => (cpu.logical_xor cpu.h, m, 4)
  -- XRA L (Exclusive Or L with A)
  | 0xAD => (cpu.logical_xor cpu.l, m, 4)
  -- XRA A (Exclusive Or A with A)
  | 0xAF => (cpu.logical_xor cpu.a, m, 4)
  -- unreachable: all opcodes of this row are matched above
  | _ => (cpu, m, 0)

/-- Arms of the execute_instruction dispatch for opcodes 0xB0 to 0xBF,
verbatim from the source match. -/
def Cpu.exeRowB (cpu : Cpu) (ins : Instruction) (m : Mem) : Cpu × Mem × Nat :=
  match ins.b0 with
  -- CMP M (Compare memory with A)
  | 0xBE =>
    let address := fromLeBytes cpu.l cpu.h
    let t := cpu.subtract cpu.a (mread m address) false
    ({ t.1 with f := setF t.1.f CARRY t.2.2 }, m, 7)
  -- CMP B (Compare B with A)
  | 0xB8 =>
    let t := cpu.subtract cpu.a cpu.b false
    ({ t.1 with f := setF t.1.f CARRY t.2.2 }, m, 4)
  -- CMP C (Compare C with A)
  | 0xB9 =>
    let t := cpu.subtract cpu.a cpu.c false
    ({ t.1 with f := setF t.1.f CARRY t.2.2 }, m, 4)
  -- CMP D (Compare D with A)
  | 0xBA =>
    let t := cpu.subtract cpu.a cpu.d false
    ({ t.1 with f := setF t.1.f CARRY t.2.2 }, m, 4)
  -- CMP E (Compare E with A)
  | 0xBB =>
    let t := cpu.subtract cpu.a cpu.e false
    ({ t.1 with f := setF t.1.f CARRY t.2.2 }, m, 4)
  -- CMP H (Compare H with A)
  | 0xBC =>
    let t := cpu.subtract cpu.a cpu.h false
    ({ t.1 with f := setF t.1.f CARRY t.2.2 }, m, 4)
  -- CMP L (Compare L with A)
  | 0xBD =>
    let t := cpu.subtract cpu.a cpu.l false
    ({ t.1 with f := setF t.1.f CARRY t.2.2 }, m, 4)
  -- CMP A (Compare A with A)
  | 0xBF =>
    let t := cpu.subtract cpu.a cpu.a false
    ({ t.1 with f := setF t.1.f CARRY t.2.2 }, m, 4)
  -- ORA M (Or memory with A)
  | 0xB6 =>
    let address := fromLeBytes cpu.l cpu.h
    (cpu.logical_or (mread m address), m, 7)
  -- ORA B (Or B with A)
  | 0xB0 => (cpu.logical_or cpu.b, m, 4)
  -- ORA C (Or C with A)
  | 0xB1 => (cpu.logical_or cpu.c, m, 4)
  -- ORA D (Or D with A)
  | 0xB2 => (cpu.logical_or cpu.d, m, 4)
  -- ORA E (Or E with A)
  | 0xB3 => (cpu.logical_or cpu.e, m, 4)
  -- ORA H (Or H with A)
  | 0xB4 => (cpu.logical_or cpu.h, m, 4)
  -- ORA L (Or L with A)
  | 0xB5 => (cpu.logical_or cpu.l, m, 4)
  -- ORA A (Or A with A)
  | 0xB7 => (cpu.logical_or cpu.a, m, 4)
  -- unreachable: all opcodes of this row are matched above
  | _ => (cpu, m, 0)

/-- Arms of the execute_instruction dispatch for opcodes 0xC0 to 0xCF,
verbatim from the source match. -/
def Cpu.exeRowC (cpu : Cpu) (ins : Instruction) (m : Mem) : Cpu × Mem × Nat :=
  match ins.b0 with
  -- ACI (Add immediate to A with carry)
  | 0xCE =>
    let carry_in := containsF cpu.f CARRY
    let t := cpu.add cpu.a ins.b1 carry_in
    ({ t.1 with f := setF t.1.f CARRY t.2.2, a := t.2.1 }, m, 7)
  -- ADI (Add immediate to A)
  | 0xC6 =>
    let t := cpu.add cpu.a ins.b1 false
    ({ t.1 with f := setF t.1.f CARRY t.2.2, a := t.2.1 }, m, 7)
  -- CALL (Call unconditional)
  | 0xCD =>
    let t := cpu.call ins m
    (t.1, t.2, 17)
  -- CNZ (Call on no zero)
  | 0xC4 =>
    if !(containsF cpu.f ZERO) then
      let t := cpu.call ins m
      (t.1, t.2, 17)
    else (cpu, m, 11)
  -- CZ (Call on zero)
  | 0xCC =>
    if containsF cpu.f ZERO then
      let t := cpu.call ins m
      (t.1, t.2, 17)
    else (cpu, m, 11)
  -- JMP (Jump unconditional)
  | 0xC3 => ({ cpu with pc := fromLeBytes ins.b1 ins.b2 }, m, 10)
  -- JMP (Jump unconditional, undocumented)
  | 0xCB => ({ cpu with pc := fromLeBytes ins.b1 ins.b2 }, m, 10)
  -- JNZ (Jump on no zero)
  | 0xC2 =>
    if !(containsF cpu.f ZERO) then ({ cpu with pc := fromLeBytes ins.b1 ins.b2 }, m, 10)
    else (cpu, m, 10)
  -- JZ (Jump on zero)
  | 0xCA =>
    if containsF cpu.f ZERO then ({ cpu with pc := fromLeBytes ins.b1 ins.b2 }, m, 10)
    else (cpu, m, 10)
  -- POP B (Pop register pair B and C off stack)
  | 0xC1 =>
    let c1 := mread m cpu.sp
    let b1 := mread m (wrap16 (cpu.sp + 1))
    ({ cpu with c := c1, b := b1, sp := wrap16 (cpu.sp + 2) }, m, 10)
  -- PUSH B (Push register pair B and C on stack)
  | 0xC5 =>
    let m1 := mwrite m (wrap16 (cpu.sp + 65535)) cpu.b
    let m2 := mwrite m1 (wrap16 (cpu.sp + 65534)) cpu.c
    ({ cpu with sp := wrap16 (cpu.sp + 65534) }, m2, 11)
  -- RET (Return)
  | 0xC9 => (cpu.ret m, m, 10)
  -- RNZ (Return on no zero)
  | 0xC0 =>
    if !(containsF cpu.f ZERO) then (cpu.ret m, m, 11) else (cpu, m, 5)
  -- RZ (Return on zero)
  | 0xC8 =>
    if containsF cpu.f ZERO then (cpu.ret m, m, 11) else (cpu, m, 5)
  -- RST n (Restart n)
  | 0xC7 | 0xCF =>
    let t := cpu.restart ins.b0 m
    (t.1, t.2, 11)
  -- unreachable: all opcodes of this row are matched above
  | _ => (cpu, m, 0)

/-- Arms of the execute_instruction dispatch for opcodes 0xD0 to 0xDF,
verbatim from the source match. -/
def Cpu.exeRowD (cpu : Cpu) (ins : Instruction) (m : Mem) : Cpu × Mem × Nat :=
  match ins.b0 with
  -- CALL (Call unconditional, undocumented)
  | 0xDD =>
    let t := cpu.call ins m
    (t.1, t.2, 17)
  -- CNC (Call on no carry)
  | 0xD4 =>
    if !(containsF cpu.f CARRY) then
      let t := cpu.call ins m
      (t.1, t.2, 17)
    else (cpu, m, 11)
  -- CC (Call on carry)
  | 0xDC =>
    if containsF cpu.f CARRY then
      let t := cpu.call ins m
      (t.1, t.2, 17)
    else (cpu, m, 11)
  -- IN port (Initiate input operation)
  | 0xDB => (cpu, m, 10)
  -- JNC (Jump on no carry)
  | 0xD2 =>
    if !(containsF cpu.f CARRY) then ({ cpu with pc := fromLeBytes ins.b1 ins.b2 }, m, 10)
    else (cpu, m, 10)
  -- JC (Jump on carry)
  | 0xDA =>
    if containsF cpu.f CARRY then ({ cpu with pc := fromLeBytes ins.b1 ins.b2 }, m, 10)
    else (cpu, m, 10)
  -- OUT port (Initiate output operation)
  | 0xD3 => (cpu, m, 10)
  -- POP D (Pop register pair D and E off stack)
  | 0xD1 =>
    let e1 := mread m cpu.sp
    let d1 := mread m (wrap16 (cpu.sp + 1))
    ({ cpu with e := e1, d := d1, sp := wrap16 (cpu.sp + 2) }, m, 10)
  -- PUSH D (Push register pair D and E on stack)
  | 0xD5 =>
    let m1 := mwrite m (wrap16 (cpu.sp + 65535)) cpu.d
    let m2 := mwrite m1 (wrap16 (cpu.sp + 65534)) cpu.e
    ({ cpu with sp := wrap16 (cpu.sp + 65534) }, m2, 11)
  -- RET (Return, undocumented)
  | 0xD9 => (cpu.ret m, m, 10)
  -- RNC (Return on no carry)
  | 0xD0 =>
    if !(containsF cpu.f CARRY) then (cpu.ret m, m, 11) else (cpu, m, 5)
  -- RC (Return on carry)
  | 0xD8 =>
    if containsF cpu.f CARRY then (cpu.ret m, m, 11) else (cpu, m, 5)
  -- RST n (Restart n)
  | 0xD7 | 0xDF =>
    let t := cpu.restart ins.b0 m
    (t.1, t.2, 11)
  -- SBI (Subtract immediate from A with borrow)
  | 0xDE =>
    let borrow_in := containsF cpu.f CARRY
    let t := cpu.subtract cpu.a ins.b1 borrow_in
    ({ t.1 with f := setF t.1.f CARRY t.2.2, a := t.2.1 }, m, 7)
  -- SUI (Subtract immediate from A)
  | 0xD6 =>
    let t := cpu.subtract cpu.a ins.b1 false
    ({ t.1 with f := setF t.1.f CARRY t.2.2, a := t.2.1 }, m, 7)
  -- unreachable: all opcodes of this row are matched above
  | _ => (cpu, m, 0)

/-- Arms of the execute_instruction dispatch for opcodes 0xE0 to 0xEF,
verbatim from the source match. -/
def Cpu.exeRowE (cpu : Cpu) (ins : Instruction) (m : Mem) : Cpu × Mem × Nat :=
  match ins.b0 with
  -- ANI (And immediate with A)
  | 0xE6 => (cpu.logical_and ins.b1, m, 7)
  -- CALL (Call unconditional, undocumented)
  | 0xED =>
    let t := cpu.call ins m
    (t.1, t.2, 17)
  -- CPO (Call on parity odd)
  | 0xE4 =>
    if !(containsF cpu.f PARITY) then
      let t := cpu.call ins m
      (t.1, t.2, 17)
    else (cpu, m, 11)
  -- CPE (Call on parity even)
  | 0xEC =>
    if containsF cpu.f PARITY then
      let t := cpu.call ins m
      (t.1, t.2, 17)
    else (cpu, m, 11)
  -- JPO (Jump on parity odd)
  | 0xE2 =>
    if !(containsF cpu.f PARITY) then ({ cpu with pc := fromLeBytes ins.b1 ins.b2 }, m, 10)
    else (cpu, m, 10)
  -- JPE (Jump on parity even)
  | 0xEA =>
    if containsF cpu.f PARITY then ({ cpu with pc := fromLeBytes ins.b1 ins.b2 }, m, 10)
    else (cpu, m, 10)
  -- PCHL (H and L to program counter)
  | 0xE9 => ({ cpu with pc := fromLeBytes cpu.l cpu.h }, m, 5)
  -- POP H (Pop register pair H and L off stack)
  | 0xE1 =>
    let l1 := mread m cpu.sp
    let h1 := mread m (wrap16 (cpu.sp + 1))
    ({ cpu with l := l1, h := h1, sp := wrap16 (cpu.sp + 2) }, m, 10)
  -- PUSH H (Push register pair H and L on stack)
  | 0xE5 =>
    let m1 := mwrite m (wrap16 (cpu.sp + 65535)) cpu.h
    let m2 := mwrite m1 (wrap16 (cpu.sp + 65534)) cpu.l
    ({ cpu with sp := wrap16 (cpu.sp + 65534) }, m2, 11)
  -- RPO (Return on parity odd)
  | 0xE0 =>
    if !(containsF cpu.f PARITY) then (cpu.ret m, m, 11) else (cpu, m, 5)
  -- RPE (Return on parity even)
  | 0xE8 =>
    if containsF cpu.f PARITY then (cpu.ret m, m, 11) else (cpu, m, 5)
  -- RST n (Restart n)
  | 0xE7 | 0xEF =>
    let t := cpu.restart ins.b0 m
    (t.1, t.2, 11)
  -- XCHG (Exchange D and E, H and L registers)
  | 0xEB => ({ cpu with h := cpu.d, d := cpu.h, l := cpu.e, e := cpu.l }, m, 4)
  -- XRI (Exclusive Or immediate with A)
  | 0xEE => (cpu.logical_xor ins.b1, m, 7)
  -- XTHL (Exchange top of stack with HL): two sequential swaps
  | 0xE3 =>
    let l0 := cpu.l
    let ml := mread m cpu.sp
    let m1 := mwrite m cpu.sp l0
    let cpu1 := { cpu with l := ml }
    let addr2 := wrap16 (cpu.sp + 1)
    let mh := mread m1 addr2
    let m2 := mwrite m1 addr2 cpu1.h
    ({ cpu1 with h := mh }, m2, 18)
  -- unreachable: the opcode is a byte and all 256 byte values are matched
  -- by the arms above
  -- unreachable: all opcodes of this row are matched above
  | _ => (cpu, m, 0)

/-- Arms of the execute_instruction dispatch for opcodes 0xF0 to 0xFF,
verbatim from the source match. -/
def Cpu.exeRowF (cpu : Cpu) (ins : Instruction) (m : Mem) : Cpu × Mem × Nat :=
  match ins.b0 with
  -- CALL (Call unconditional, undocumented)
  | 0xFD =>
    let t := cpu.call ins m
    (t.1, t.2, 17)
  -- CP (Call on positive)
  | 0xF4 =>
    if !(containsF cpu.f SIGN) then
      let t := cpu.call ins m
      (t.1, t.2, 17)
    else (cpu, m, 11)
  -- CM (Call on minus)
  | 0xFC =>
    if containsF cpu.f SIGN then
      let t := cpu.call ins m
      (t.1, t.2, 17)
    else (cpu, m, 11)
  -- CPI (Compare immediate with A)
  | 0xFE =>
    let t := cpu.subtract cpu.a ins.b1 false
    ({ t.1 with f := setF t.1.f CARRY t.2.2 }, m, 7)
  -- DI (Disable interrupt system)
  | 0xF3 => ({ cpu with interruptable := .disabled }, m, 4)
  -- EI (Enable interrupt system)
  | 0xFB =>
    let cpu1 := match cpu.interruptable with
      | .disabled => { cpu with interruptable := .enabling }
      | _ => cpu
    (cpu1, m, 4)
  -- JP (Jump on positive)
  | 0xF2 =>
    if !(containsF cpu.f SIGN) then ({ cpu with pc := fromLeBytes ins.b1 ins.b2 }, m, 10)
    else (cpu, m, 10)
  -- JM (Jump on minus)
  | 0xFA =>
    if containsF cpu.f SIGN then ({ cpu with pc := fromLeBytes ins.b1 ins.b2 }, m, 10)
    else (cpu, m, 10)
  -- ORI (Or immediate with A)
  | 0xF6 => (cpu.logical_or ins.b1, m, 7)
  -- POP PSW (Pop A and Flags off stack)
  | 0xF1 =>
    let f1 := fromBitsTruncate (mread m cpu.sp ||| ALWAYS_ONE)
    let a1 := mread m (wrap16 (cpu.sp + 1))
    ({ cpu with f := f1, a := a1, sp := wrap16 (cpu.sp + 2) }, m, 10)
  -- PUSH PSW (Push A and Flags on stack)
  | 0xF5 =>
    let m1 := mwrite m (wrap16 (cpu.sp + 65535)) cpu.a
    let m2 := mwrite m1 (wrap16 (cpu.sp + 65534)) cpu.f
    ({ cpu with sp := wrap16 (cpu.sp + 65534) }, m2, 11)
  -- RP (Return on positive)
  | 0xF0 =>
    if !(containsF cpu.f SIGN) then (cpu.ret m, m, 11) else (cpu, m, 5)
  -- RM (Return on minus)
  | 0xF8 =>
    if containsF cpu.f SIGN then (cpu.ret m, m, 11) else (cpu, m, 5)
  -- RST n (Restart n)
  | 0xF7 | 0xFF =>
    let t := cpu.restart ins.b0 m
    (t.1, t.2, 11)
  -- SPHL (Move contents of HL to SP)
  | 0xF9 => ({ cpu with sp := fromLeBytes cpu.l cpu.h }, m, 5)
  -- unreachable: all opcodes of this row are matched above
  | _ => (cpu, m, 0)

/-- Model of execute_instruction: a single dispatch over the opcode byte
which returns the updated CPU, the updated memory and the number of
states taken.  The 256-arm match of the source is split into sixteen
groups by the high nibble of the opcode, each group holding its arms
verbatim in the order of the source; the dispatch selects the group by
comparing the opcode byte. -/
def Cpu.execute_instruction (cpu : Cpu) (ins : Instruction) (m : Mem) : Cpu × Mem × Nat :=
  if ins.b0 < 0x10 then cpu.exeRow0 ins m
  else if ins.b0 < 0x20 then cpu.exeRow1 ins m
  else if ins.b0 < 0x30 then cpu.exeRow2 ins m
  else if ins.b0 < 0x40 then cpu.exeRow3 ins m
  else if ins.b0 < 0x50 then cpu.exeRow4 ins m
  else if ins.b0 < 0x60 then cpu.exeRow5 ins m
  else if ins.b0 < 0x70 then cpu.exeRow6 ins m
  else if ins.b0 < 0x80 then cpu.exeRow7 ins m
  else if ins.b0 < 0x90 then cpu.exeRow8 ins m
  else if ins.b0 < 0xA0 then cpu.exeRow9 ins m
  else if ins.b0 < 0xB0 then cpu.exeRowA ins m
  else if ins.b0 < 0xC0 then cpu.exeRowB ins m
  else if ins.b0 < 0xD0 then cpu.exeRowC ins m
  else if ins.b0 < 0xE0 then cpu.exeRowD ins m
  else if ins.b0 < 0xF0 then cpu.exeRowE ins m
  else cpu.exeRowF ins m


/-- The opcodes fetched as one-byte instructions (first group of the
fetch_instruction match, in its order). -/
def len1Opcodes : List Nat :=
  [0x00, 0x02, 0x03, 0x04, 0x05, 0x07, 0x09, 0x0A,
   0x0B, 0x0C, 0x0D, 0x0F, 0x12, 0x13, 0x14, 0x15,
   0x17, 0x19, 0x1A, 0x1B, 0x1C, 0x1D, 0x1F, 0x23,
   0x24, 0x25, 0x27, 0x29, 0x2B, 0x2C, 0x2D, 0x2F,
   0x33, 0x34, 0x35, 0x37, 0x39, 0x3B, 0x3C, 0x3D,
   0x3F, 0x40, 0x41, 0x42, 0x43, 0x44, 0x45, 0x46,
   0x47, 0x48, 0x49, 0x4A, 0x4B, 0x4C, 0x4D, 0x4E,
   0x4F, 0x50, 0x51, 0x52, 0x53, 0x54, 0x55, 0x56,
   0x57, 0x58, 0x59, 0x5A, 0x5B, 0x5C, 0x5D, 0x5E,
   0x5F, 0x60, 0x61, 0x62, 0x63, 0x64, 0x65, 0x66,
   0x67, 0x68, 0x69, 0x6A, 0x6B, 0x6C, 0x6D, 0x6E,
   0x6F, 0x70, 0x71, 0x72, 0x73, 0x74, 0x75, 0x76,
   0x77, 0x78, 0x79, 0x7A, 0x7B, 0x7C, 0x7D, 0x7E,
   0x7F, 0x80, 0x81, 0x82, 0x83, 0x84, 0x85, 0x86,
   0x87, 0x88, 0x89, 0x8A, 0x8B, 0x8C, 0x8D, 0x8E,
   0x8F, 0x90, 0x91, 0x92, 0x93, 0x94, 0x95, 0x96,
   0x97, 0x98, 0x99, 0x9A, 0x9B, 0x9C, 0x9D, 0x9E,
   0x9F, 0xA0, 0xA1, 0xA2, 0xA3, 0xA4, 0xA5, 0xA6,
   0xA7, 0xA8, 0xA9, 0xAA, 0xAB, 0xAC, 0xAD, 0xAE,
   0xAF, 0xB0, 0xB1, 0xB2, 0xB3, 0xB4, 0xB5, 0xB6,
   0xB7, 0xB8, 0xB9, 0xBA, 0xBB, 0xBC, 0xBD, 0xBE,
   0xBF, 0xC0, 0xC1, 0xC5, 0xC7, 0xC8, 0xC9, 0xCF,
   0xD0, 0xD1, 0xD5, 0xD7, 0xD8, 0xDF, 0xE0, 0xE1,
   0xE3, 0xE5, 0xE7, 0xE8, 0xE9, 0xEB, 0xEF, 0xF0,
   0xF1, 0xF3, 0xF5, 0xF7, 0xF8, 0xF9, 0xFB, 0xFF]

/-- The opcodes fetched as two-byte instructions (second group of the
fetch_instruction match, in its order). -/
def len2Opcodes : List Nat :=
  [0x06, 0x0E, 0x16, 0x1E, 0x26, 0x2E, 0x36, 0x3E,
   0xC6, 0xCE, 0xD3, 0xD6, 0xDB, 0xDE, 0xE6, 0xEE,
   0xF6, 0xFE]

/-- The opcodes fetched as three-byte instructions (third group of the
fetch_instruction match, in its order). -/
def len3Opcodes : List Nat :=
  [0x01, 0x11, 0x21, 0x22, 0x2A, 0x31, 0x32, 0x3A,
   0xC2, 0xC3, 0xC4, 0xCA, 0xCC, 0xCD, 0xD2, 0xD4,
   0xDA, 0xDC, 0xE2, 0xE4, 0xEA, 0xEC, 0xF2, 0xF4,
   0xFA, 0xFC]

/-- The twelve undocumented opcodes, on which fetch_instruction hits the
unimplemented arm. -/
def undocumentedOpcodes : List Nat :=
  [0x08, 0x10, 0x18, 0x20, 0x28, 0x30, 0x38, 0xCB, 0xD9, 0xDD, 0xED, 0xFD]

/-- Model of fetch_instruction: reads the byte at PC and classifies it by
the three groups of the source match, reading the operand bytes at PC+1
and PC+2 and advancing PC by the instruction length (u16 arithmetic,
modelled as wrap-around).  The unimplemented arm of the source, reached
on the twelve undocumented opcodes, panics: modelled as none. -/
def Cpu.fetch_instruction (cpu : Cpu) (m : Mem) : Option (Instruction × Cpu) :=
  let op := mread m cpu.pc
  if op ∈ len1Opcodes then
    some (⟨op, 0, 0⟩, { cpu with pc := wrap16 (cpu.pc + 1) })
  else if op ∈ len2Opcodes then
    some (⟨op, mread m (wrap16 (cpu.pc + 1)), 0⟩, { cpu with pc := wrap16 (cpu.pc + 2) })
  else if op ∈ len3Opcodes then
    some (⟨op, mread m (wrap16 (cpu.pc + 1)), mread m (wrap16 (cpu.pc + 2))⟩,
      { cpu with pc := wrap16 (cpu.pc + 3) })
  else none

/-- The error kinds of the CPU entry points. -/
inductive StepErr where
  | halted
  | interruptNotEnabled
deriving DecidableEq

/-- Model of fetch_execute_instruction: returns the outcome together with
the CPU and memory after the call.  The outcome none models the panic of
the unimplemented fetch arm; in that case the state components are the
state at the point of the panic (nothing had been mutated yet).  After a
successful execution, a latch that was Enabling before and is still
Enabling becomes Enabled. -/
def Cpu.fetch_execute_instruction (cpu : Cpu) (m : Mem) :
    Option (Except StepErr (Instruction × Nat)) × Cpu × Mem :=
  if cpu.isHalted then (some (.error .halted), cpu, m)
  else
    match cpu.fetch_instruction m with
    | none => (none, cpu, m)
    | some (ins, cpu1) =>
      let interruptable := cpu1.interruptable
      let t := cpu1.execute_instruction ins m
      let cpu2 := t.1
      let cpu3 :=
        match interruptable, cpu2.interruptable with
        | .enabling, .enabling => { cpu2 with interruptable := .enabled }
        | _, _ => cpu2
      (some (.ok (ins, t.2.2)), cpu3, t.2.1)

/-- Model of interrupt: if the latch is Enabled, clear the halt flag,
disable the latch and execute the given instruction without fetching;
otherwise fail with InterruptNotEnabled, leaving the state unchanged. -/
def Cpu.interrupt (cpu : Cpu) (ins : Instruction) (m : Mem) :
    Except StepErr Nat × Cpu × Mem :=
  match cpu.interruptable with
  | .enabled =>
    let t := ({ cpu with isHalted := false,
                         interruptable := .disabled }).execute_instruction ins m
    (.ok t.2.2, t.1, t.2.1)
  | _ => (.error .interruptNotEnabled, cpu, m)

/-- Write a list of bytes into memory at consecutive addresses. -/
def writeBytes (m : Mem) (start : Nat) : List Nat → Mem
  | [] => m
  | b :: rest => writeBytes (mwrite m start b) (start + 1) rest

/-- The error kind of the bulk loader. -/
inductive LoadErr where
  | tooLargeFile
deriving DecidableEq

/-- Model of the pure core of Memory::load_file, after the file has been
opened and its size read: bytes is the content of the file.  Fails with
TooLargeFile when start_address + size exceeds the memory size 65536.
Otherwise the source computes end_address = start_address + size in u16
arithmetic (modelled as wrap-around) and fills the slice from
start_address to end_address from the file: the slice holds
end_address - start_address bytes, so only that many bytes are copied.
When end_address is below start_address the slice indexing of the source
panics: modelled as none. -/
def load_file (m : Mem) (bytes : List Nat) (start_address : Nat) :
    Option (Except LoadErr (Nat × Mem)) :=
  let size := bytes.length
  if 65536 < start_address + size then some (.error .tooLargeFile)
  else
    let end_address := wrap16 (start_address + size)
    if start_address ≤ end_address then
      some (.ok (end_address,
        writeBytes m start_address (bytes.take (end_address - start_address))))
    else none

/-- The general DCR rule of the specification applied to register A:
A := A - 1 through the subtract helper (which updates Sign, Zero, Parity
and Auxiliary Carry and leaves Carry untouched), with no further flag
assignment.  This is the shape every other DCR register arm has. -/
def Cpu.dcrA_general (cpu : Cpu) (m : Mem) : Cpu × Mem × Nat :=
  let t := cpu.subtract cpu.a 1 false
  ({ t.1 with a := t.2.1 }, m, 5)

/-- The flags-byte invariant of the specification: bit 1 is one and bits 3
and 5 are zero (and the byte is a byte). -/
abbrev FlagsInv (f : Nat) : Prop := f < 256 ∧ f &&& 0x2A = 0x02

/-- The all-zero memory. -/
def memZero : Mem := fun _ => 0

/-- A memory whose byte at every address is the undocumented opcode 0x08. -/
def memUndoc : Mem := fun _ => 0x08

/-- A memory holding EI at address 0 and DI at address 1. -/
def memEIDI : Mem := fun x => if x = 0 then 0xFB else if x = 1 then 0xF3 else 0

/-- A memory filled with the undocumented opcode 0xFD. -/
def memUndocFD : Mem := fun _ => 0xFD

/-- A memory filled with EI opcodes. -/
def memEIEI : Mem := fun _ => 0xFB

/-- The operand byte of the AND instructions, per opcode: the named
register, memory at HL for ANA M, the immediate byte for ANI. -/
def anaOperand (cpu : Cpu) (ins : Instruction) (m : Mem) : Nat :=
  match ins.b0 with
  | 0xA0 => cpu.b
  | 0xA1 => cpu.c
  | 0xA2 => cpu.d
  | 0xA3 => cpu.e
  | 0xA4 => cpu.h
  | 0xA5 => cpu.l
  | 0xA6 => mread m (fromLeBytes cpu.l cpu.h)
  | 0xA7 => cpu.a
  | 0xE6 => ins.b1
  | _ => 0

/-- The operand of an INR or DCR instruction, per opcode: the named
register, or memory at HL for the M forms. -/
def incDecOperand (cpu : Cpu) (m : Mem) (op : Nat) : Nat :=
  match op with
  | 0x04 | 0x05 => cpu.b
  | 0x0C | 0x0D => cpu.c
  | 0x14 | 0x15 => cpu.d
  | 0x1C | 0x1D => cpu.e
  | 0x24 | 0x25 => cpu.h
  | 0x2C | 0x2D => cpu.l
  | 0x3C | 0x3D => cpu.a
  | 0x34 | 0x35 => mread m (fromLeBytes cpu.l cpu.h)
  | _ => 0

/-- The destination read back from the state after an INR or DCR
instruction, per opcode. -/
def incDecDest (t : Cpu × Mem × Nat) (cpu : Cpu) (op : Nat) : Nat :=
  match op with
  | 0x04 | 0x05 => t.1.b
  | 0x0C | 0x0D => t.1.c
  | 0x14 | 0x15 => t.1.d
  | 0x1C | 0x1D => t.1.e
  | 0x24 | 0x25 => t.1.h
  | 0x2C | 0x2D => t.1.l
  | 0x3C | 0x3D => t.1.a
  | 0x34 | 0x35 => mread t.2.1 (fromLeBytes cpu.l cpu.h)
  | _ => 0

deriving instance DecidableEq for Except

/-- Evaluation of the execute_instruction dispatch at opcode 0x00. -/
theorem exe00 (cpu : Cpu) (b1 b2 : Nat) (m : Mem) :
    Cpu.execute_instruction cpu ⟨0x00, b1, b2⟩ m =
      (cpu, m, 4) := rfl

/-- Evaluation of the execute_instruction dispatch at opcode 0x01. -/
theorem exe01 (cpu : Cpu) (b1 b2 : Nat) (m : Mem) :
    Cpu.execute_instruction cpu ⟨0x01, b1, b2⟩ m =
      ({ cpu with b := b2, c := b1 }, m, 10) := rfl

/-- Evaluation of the execute_instruction dispatch at opcode 0x02. -/
theorem exe02 (cpu : Cpu) (b1 b2 : Nat) (m : Mem) :
    Cpu.execute_instruction cpu ⟨0x02, b1, b2⟩ m =
      (cpu, mwrite m (fromLeBytes cpu.c cpu.b) cpu.a, 7) := rfl

/-- Evaluation of the execute_instruction dispatch at opcode 0x03. -/
theorem exe03 (cpu : Cpu) (b1 b2 : Nat) (m : Mem) :
    Cpu.execute_instruction cpu ⟨0x03, b1, b2⟩ m =
      (let result := wrap16 (fromLeBytes cpu.c cpu.b + 1)
       ({ cpu with b := highByte result, c := lowByte result }, m, 5)) := rfl

/-- Evaluation of the execute_instruction dispatch at opcode 0x04. -/
theorem exe04 (cpu : Cpu) (b1 b2 : Nat) (m : Mem) :
    Cpu.execute_instruction cpu ⟨0x04, b1, b2⟩ m =
      (let t := cpu.add cpu.b 1 false
       ({ t.1 with b := t.2.1 }, m, 5)) := rfl

/-- Evaluation of the execute_instruction dispatch at opcode 0x05. -/
theorem exe05 (cpu : Cpu) (b1 b2 : Nat) (m : Mem) :
    Cpu.execute_instruction cpu ⟨0x05, b1, b2⟩ m =
      (let t := cpu.subtract cpu.b 1 false
       ({ t.1 with b := t.2.1 }, m, 5)) := rfl

/-- Evaluation of the execute_instruction dispatch at opcode 0x06. -/
theorem exe06 (cpu : Cpu) (b1 b2 : Nat) (m : Mem) :
    Cpu.execute_instruction cpu ⟨0x06, b1, b2⟩ m =
      ({ cpu with b := b1 }, m, 7) := rfl

/-- Evaluation of the execute_instruction dispatch at opcode 0x07. -/
theorem exe07 (cpu : Cpu) (b1 b2 : Nat) (m : Mem) :
    Cpu.execute_instruction cpu ⟨0x07, b1, b2⟩ m =
      (let cpu1 := { cpu with f := setF cpu.f CARRY (decide (0 < cpu.a &&& 0x80)) }
       ({ cpu1 with a := wrap8 (cpu.a <<< 1) ||| cpu.a >>> 7 }, m, 4)) := rfl

/-- Evaluation of the execute_instruction dispatch at opcode 0x08. -/
theorem exe08 (cpu : Cpu) (b1 b2 : Nat) (m : Mem) :
    Cpu.execute_instruction cpu ⟨0x08, b1, b2⟩ m =
      (cpu, m, 4) := rfl

/-- Evaluation of the execute_instruction dispatch at opcode 0x09. -/
theorem exe09 (cpu : Cpu) (b1 b2 : Nat) (m : Mem) :
    Cpu.execute_instruction cpu ⟨0x09, b1, b2⟩ m =
      (let sum := fromLeBytes cpu.l cpu.h + fromLeBytes cpu.c cpu.b
       let result := wrap16 sum
       let carry_out := decide (65536 ≤ sum)
       ({ cpu with f := setF cpu.f CARRY carry_out, h := highByte result, l := lowByte result }, m, 10)) := rfl

/-- Evaluation of the execute_instruction dispatch at opcode 0x0A. -/
theorem exe0A (cpu : Cpu) (b1 b2 : Nat) (m : Mem) :
    Cpu.execute_instruction cpu ⟨0x0A, b1, b2⟩ m =
      (let address := fromLeBytes cpu.c cpu.b
       ({ cpu with a := mread m address }, m, 7)) := rfl

/-- Evaluation of the execute_instruction dispatch at opcode 0x0B. -/
theorem exe0B (cpu : Cpu) (b1 b2 : Nat) (m : Mem) :
    Cpu.execute_instruction cpu ⟨0x0B, b1, b2⟩ m =
      (let result := wrap16 (fromLeBytes cpu.c cpu.b + 65535)
       ({ cpu with b := highByte result, c := lowByte result }, m, 5)) := rfl

/-- Evaluation of the execute_instruction dispatch at opcode 0x0C. -/
theorem exe0C (cpu : Cpu) (b1 b2 : Nat) (m : Mem) :
    Cpu.execute_instruction cpu ⟨0x0C, b1, b2⟩ m =
      (let t := cpu.add cpu.c 1 false
       ({ t.1 with c := t.2.1 }, m, 5)) := rfl

/-- Evaluation of the execute_instruction dispatch at opcode 0x0D. -/
theorem exe0D (cpu : Cpu) (b1 b2 : Nat) (m : Mem) :
    Cpu.execute_instruction cpu ⟨0x0D, b1, b2⟩ m =
      (let t := cpu.subtract cpu.c 1 false
       ({ t.1 with c := t.2.1 }, m, 5)) := rfl

/-- Evaluation of the execute_instruction dispatch at opcode 0x0E. -/
theorem exe0E (cpu : Cpu) (b1 b2 : Nat) (m : Mem) :
    Cpu.execute_instruction cpu ⟨0x0E, b1, b2⟩ m =
      ({ cpu with c := b1 }, m, 7) := rfl

/-- Evaluation of the execute_instruction dispatch at opcode 0x0F. -/
theorem exe0F (cpu : Cpu) (b1 b2 : Nat) (m : Mem) :
    Cpu.execute_instruction cpu ⟨0x0F, b1, b2⟩ m =
      (let cpu1 := { cpu with f := setF cpu.f CARRY (decide (0 < cpu.a &&& 0x01)) }
       ({ cpu1 with a := (cpu.a >>> 1) ||| wrap8 (cpu.a <<< 7) }, m, 4)) := rfl

/-- Evaluation of the execute_instruction dispatch at opcode 0x10. -/
theorem exe10 (cpu : Cpu) (b1 b2 : Nat) (m : Mem) :
    Cpu.execute_instruction cpu ⟨0x10, b1, b2⟩ m =
      (cpu, m, 4) := rfl

/-- Evaluation of the execute_instruction dispatch at opcode 0x11. -/
theorem exe11 (cpu : Cpu) (b1 b2 : Nat) (m : Mem) :
    Cpu.execute_instruction cpu ⟨0x11, b1, b2⟩ m =
      ({ cpu with d := b2, e := b1 }, m, 10) := rfl

/-- Evaluation of the execute_instruction dispatch at opcode 0x12. -/
theorem exe12 (cpu : Cpu) (b1 b2 : Nat) (m : Mem) :
    Cpu.execute_instruction cpu ⟨0x12, b1, b2⟩ m =
      (cpu, mwrite m (fromLeBytes cpu.e cpu.d) cpu.a, 7) := rfl

/-- Evaluation of the execute_instruction dispatch at opcode 0x13. -/
theorem exe13 (cpu : Cpu) (b1 b2 : Nat) (m : Mem) :
    Cpu.execute_instruction cpu ⟨0x13, b1, b2⟩ m =
      (let result := wrap16 (fromLeBytes cpu.e cpu.d + 1)
       ({ cpu with d := highByte result, e := lowByte result }, m, 5)) := rfl

/-- Evaluation of the execute_instruction dispatch at opcode 0x14. -/
theorem exe14 (cpu : Cpu) (b1 b2 : Nat) (m : Mem) :
    Cpu.execute_instruction cpu ⟨0x14, b1, b2⟩ m =
      (let t := cpu.add cpu.d 1 false
       ({ t.1 with d := t.2.1 }, m, 5)) := rfl

/-- Evaluation of the execute_instruction dispatch at opcode 0x15. -/
theorem exe15 (cpu : Cpu) (b1 b2 : Nat) (m : Mem) :
    Cpu.execute_instruction cpu ⟨0x15, b1, b2⟩ m =
      (let t := cpu.subtract cpu.d 1 false
       ({ t.1 with d := t.2.1 }, m, 5)) := rfl

/-- Evaluation of the execute_instruction dispatch at opcode 0x16. -/
theorem exe16 (cpu : Cpu) (b1 b2 : Nat) (m : Mem) :
    Cpu.execute_instruction cpu ⟨0x16, b1, b2⟩ m =
      ({ cpu with d := b1 }, m, 7) := rfl

/-- Evaluation of the execute_instruction dispatch at opcode 0x17. -/
theorem exe17 (cpu : Cpu) (b1 b2 : Nat) (m : Mem) :
    Cpu.execute_instruction cpu ⟨0x17, b1, b2⟩ m =
      (let carry := containsF cpu.f CARRY
       let cpu1 := { cpu with f := setF cpu.f CARRY (decide (0 < cpu.a &&& 0x80)) }
       let a1 := if carry then wrap8 (cpu.a <<< 1) ||| 0x01 else wrap8 (cpu.a <<< 1)
       ({ cpu1 with a := a1 }, m, 4)) := rfl

/-- Evaluation of the execute_instruction dispatch at opcode 0x18. -/
theorem exe18 (cpu : Cpu) (b1 b2 : Nat) (m : Mem) :
    Cpu.execute_instruction cpu ⟨0x18, b1, b2⟩ m =
      (cpu, m, 4) := rfl

/-- Evaluation of the execute_instruction dispatch at opcode 0x19. -/
theorem exe19 (cpu : Cpu) (b1 b2 : Nat) (m : Mem) :
    Cpu.execute_instruction cpu ⟨0x19, b1, b2⟩ m =
      (let sum := fromLeBytes cpu.l cpu.h + fromLeBytes cpu.e cpu.d
       let result := wrap16 sum
       let carry_out := decide (65536 ≤ sum)
       ({ cpu with f := setF cpu.f CARRY carry_out, h := highByte result, l := lowByte result }, m, 10)) := rfl

/-- Evaluation of the execute_instruction dispatch at opcode 0x1A. -/
theorem exe1A (cpu : Cpu) (b1 b2 : Nat) (m : Mem) :
    Cpu.execute_instruction cpu ⟨0x1A, b1, b2⟩ m =
      (let address := fromLeBytes cpu.e cpu.d
       ({ cpu with a := mread m address }, m, 7)) := rfl

/-- Evaluation of the execute_instruction dispatch at opcode 0x1B. -/
theorem exe1B (cpu : Cpu) (b1 b2 : Nat) (m : Mem) :
    Cpu.execute_instruction cpu ⟨0x1B, b1, b2⟩ m =
      (let result := wrap16 (fromLeBytes cpu.e cpu.d + 65535)
       ({ cpu with d := highByte result, e := lowByte result }, m, 5)) := rfl

/-- Evaluation of the execute_instruction dispatch at opcode 0x1C. -/
theorem exe1C (cpu : Cpu) (b1 b2 : Nat) (m : Mem) :
    Cpu.execute_instruction cpu ⟨0x1C, b1, b2⟩ m =
      (let t := cpu.add cpu.e 1 false
       ({ t.1 with e := t.2.1 }, m, 5)) := rfl

/-- Evaluation of the execute_instruction dispatch at opcode 0x1D. -/
theorem exe1D (cpu : Cpu) (b1 b2 : Nat) (m : Mem) :
    Cpu.execute_instruction cpu ⟨0x1D, b1, b2⟩ m =
      (let t := cpu.subtract cpu.e 1 false
       ({ t.1 with e := t.2.1 }, m, 5)) := rfl

/-- Evaluation of the execute_instruction dispatch at opcode 0x1E. -/
theorem exe1E (cpu : Cpu) (b1 b2 : Nat) (m : Mem) :
    Cpu.execute_instruction cpu ⟨0x1E, b1, b2⟩ m =
      ({ cpu with e := b1 }, m, 7) := rfl

/-- Evaluation of the execute_instruction dispatch at opcode 0x1F. -/
theorem exe1F (cpu : Cpu) (b1 b2 : Nat) (m : Mem) :
    Cpu.execute_instruction cpu ⟨0x1F, b1, b2⟩ m =
      (let carry := containsF cpu.f CARRY
       let cpu1 := { cpu with f := setF cpu.f CARRY (decide (0 < cpu.a &&& 0x01)) }
       let a1 := if carry then (cpu.a >>> 1) ||| 0x80 else cpu.a >>> 1
       ({ cpu1 with a := a1 }, m, 4)) := rfl

/-- Evaluation of the execute_instruction dispatch at opcode 0x20. -/
theorem exe20 (cpu : Cpu) (b1 b2 : Nat) (m : Mem) :
    Cpu.execute_instruction cpu ⟨0x20, b1, b2⟩ m =
      (cpu, m, 4) := rfl

/-- Evaluation of the execute_instruction dispatch at opcode 0x21. -/
theorem exe21 (cpu : Cpu) (b1 b2 : Nat) (m : Mem) :
    Cpu.execute_instruction cpu ⟨0x21, b1, b2⟩ m =
      ({ cpu with h := b2, l := b1 }, m, 10) := rfl

/-- Evaluation of the execute_instruction dispatch at opcode 0x22. -/
theorem exe22 (cpu : Cpu) (b1 b2 : Nat) (m : Mem) :
    Cpu.execute_instruction cpu ⟨0x22, b1, b2⟩ m =
      (let address := fromLeBytes b1 b2
       let m1 := mwrite m address cpu.l
       let m2 := mwrite m1 (wrap16 (address + 1)) cpu.h
       (cpu, m2, 16)) := rfl

/-- Evaluation of the execute_instruction dispatch at opcode 0x23. -/
theorem exe23 (cpu : Cpu) (b1 b2 : Nat) (m : Mem) :
    Cpu.execute_instruction cpu ⟨0x23, b1, b2⟩ m =
      (let result := wrap16 (fromLeBytes cpu.l cpu.h + 1)
       ({ cpu with h := highByte result, l := lowByte result }, m, 5)) := rfl

/-- Evaluation of the execute_instruction dispatch at opcode 0x24. -/
theorem exe24 (cpu : Cpu) (b1 b2 : Nat) (m : Mem) :
    Cpu.execute_instruction cpu ⟨0x24, b1, b2⟩ m =
      (let t := cpu.add cpu.h 1 false
       ({ t.1 with h := t.2.1 }, m, 5)) := rfl

/-- Evaluation of the execute_instruction dispatch at opcode 0x25. -/
theorem exe25 (cpu : Cpu) (b1 b2 : Nat) (m : Mem) :
    Cpu.execute_instruction cpu ⟨0x25, b1, b2⟩ m =
      (let t := cpu.subtract cpu.h 1 false
       ({ t.1 with h := t.2.1 }, m, 5)) := rfl

/-- Evaluation of the execute_instruction dispatch at opcode 0x26. -/
theorem exe26 (cpu : Cpu) (b1 b2 : Nat) (m : Mem) :
    Cpu.execute_instruction cpu ⟨0x26, b1, b2⟩ m =
      ({ cpu with h := b1 }, m, 7) := rfl

/-- Evaluation of the execute_instruction dispatch at opcode 0x27. -/
theorem exe27 (cpu : Cpu) (b1 b2 : Nat) (m : Mem) :
    Cpu.execute_instruction cpu ⟨0x27, b1, b2⟩ m =
      (let cpu1 :=
         if decide (0x09 < cpu.a &&& 0x0F) || containsF cpu.f AUX_CARRY then
           let result := wrap8 (cpu.a + 0x06)
           let carry := decide (256 ≤ cpu.a + 0x06)
           let cpuA := if carry then { cpu with f := insertF cpu.f CARRY } else cpu
           let cpuB := { cpuA with f := setF cpuA.f AUX_CARRY (decide (0x0F < (cpu.a &&& 0x0F) + 0x06)) }
           { cpuB with a := result }
         else cpu
       let cpu2 :=
         if decide (0x90 < cpu1.a &&& 0xF0) || containsF cpu1.f CARRY then
           { cpu1 with a := wrap8 (cpu1.a + 0x60), f := insertF cpu1.f CARRY }
         else cpu1
       (cpu2.update_parity_zero_sign_flags cpu2.a, m, 4)) := rfl

/-- Evaluation of the execute_instruction dispatch at opcode 0x28. -/
theorem exe28 (cpu : Cpu) (b1 b2 : Nat) (m : Mem) :
    Cpu.execute_instruction cpu ⟨0x28, b1, b2⟩ m =
      (cpu, m, 4) := rfl

/-- Evaluation of the execute_instruction dispatch at opcode 0x29. -/
theorem exe29 (cpu : Cpu) (b1 b2 : Nat) (m : Mem) :
    Cpu.execute_instruction cpu ⟨0x29, b1, b2⟩ m =
      (let sum := fromLeBytes cpu.l cpu.h + fromLeBytes cpu.l cpu.h
       let result := wrap16 sum
       let carry_out := decide (65536 ≤ sum)
       ({ cpu with f := setF cpu.f CARRY carry_out, h := highByte result, l := lowByte result }, m, 10)) := rfl

/-- Evaluation of the execute_instruction dispatch at opcode 0x2A. -/
theorem exe2A (cpu : Cpu) (b1 b2 : Nat) (m : Mem) :
    Cpu.execute_instruction cpu ⟨0x2A, b1, b2⟩ m =
      (let address := fromLeBytes b1 b2
       ({ cpu with l := mread m address, h := mread m (wrap16 (address + 1)) }, m, 16)) := rfl

/-- Evaluation of the execute_instruction dispatch at opcode 0x2B. -/
theorem exe2B (cpu : Cpu) (b1 b2 : Nat) (m : Mem) :
    Cpu.execute_instruction cpu ⟨0x2B, b1, b2⟩ m =
      (let result := wrap16 (fromLeBytes cpu.l cpu.h + 65535)
       ({ cpu with h := highByte result, l := lowByte result }, m, 5)) := rfl

/-- Evaluation of the execute_instruction dispatch at opcode 0x2C. -/
theorem exe2C (cpu : Cpu) (b1 b2 : Nat) (m : Mem) :
    Cpu.execute_instruction cpu ⟨0x2C, b1, b2⟩ m =
      (let t := cpu.add cpu.l 1 false
       ({ t.1 with l := t.2.1 }, m, 5)) := rfl

/-- Evaluation of the execute_instruction dispatch at opcode 0x2D. -/
theorem exe2D (cpu : Cpu) (b1 b2 : Nat) (m : Mem) :
    Cpu.execute_instruction cpu ⟨0x2D, b1, b2⟩ m =
      (let t := cpu.subtract cpu.l 1 false
       ({ t.1 with l := t.2.1 }, m, 5)) := rfl

/-- Evaluation of the execute_instruction dispatch at opcode 0x2E. -/
theorem exe2E (cpu : Cpu) (b1 b2 : Nat) (m : Mem) :
    Cpu.execute_instruction cpu ⟨0x2E, b1, b2⟩ m =
      ({ cpu with l := b1 }, m, 7) := rfl

/-- Evaluation of the execute_instruction dispatch at opcode 0x2F. -/
theorem exe2F (cpu : Cpu) (b1 b2 : Nat) (m : Mem) :
    Cpu.execute_instruction cpu ⟨0x2F, b1, b2⟩ m =
      ({ cpu with a := complement8 cpu.a }, m, 4) := rfl

/-- Evaluation of the execute_instruction dispatch at opcode 0x30. -/
theorem exe30 (cpu : Cpu) (b1 b2 : Nat) (m : Mem) :
    Cpu.execute_instruction cpu ⟨0x30, b1, b2⟩ m =
      (cpu, m, 4) := rfl

/-- Evaluation of the execute_instruction dispatch at opcode 0x31. -/
theorem exe31 (cpu : Cpu) (b1 b2 : Nat) (m : Mem) :
    Cpu.execute_instruction cpu ⟨0x31, b1, b2⟩ m =
      ({ cpu with sp := fromLeBytes b1 b2 }, m, 10) := rfl

/-- Evaluation of the execute_instruction dispatch at opcode 0x32. -/
theorem exe32 (cpu : Cpu) (b1 b2 : Nat) (m : Mem) :
    Cpu.execute_instruction cpu ⟨0x32, b1, b2⟩ m =
      (cpu, mwrite m (fromLeBytes b1 b2) cpu.a, 13) := rfl

/-- Evaluation of the execute_instruction dispatch at opcode 0x33. -/
theorem exe33 (cpu : Cpu) (b1 b2 : Nat) (m : Mem) :
    Cpu.execute_instruction cpu ⟨0x33, b1, b2⟩ m =
      ({ cpu with sp := wrap16 (cpu.sp + 1) }, m, 5) := rfl

/-- Evaluation of the execute_instruction dispatch at opcode 0x34. -/
theorem exe34 (cpu : Cpu) (b1 b2 : Nat) (m : Mem) :
    Cpu.execute_instruction cpu ⟨0x34, b1, b2⟩ m =
      (let address := fromLeBytes cpu.l cpu.h
       let t := cpu.add (mread m address) 1 false
       (t.1, mwrite m address t.2.1, 10)) := rfl

/-- Evaluation of the execute_instruction dispatch at opcode 0x35. -/
theorem exe35 (cpu : Cpu) (b1 b2 : Nat) (m : Mem) :
    Cpu.execute_instruction cpu ⟨0x35, b1, b2⟩ m =
      (let address := fromLeBytes cpu.l cpu.h
       let t := cpu.subtract (mread m address) 1 false
       (t.1, mwrite m address t.2.1, 10)) := rfl

/-- Evaluation of the execute_instruction dispatch at opcode 0x36. -/
theorem exe36 (cpu : Cpu) (b1 b2 : Nat) (m : Mem) :
    Cpu.execute_instruction cpu ⟨0x36, b1, b2⟩ m =
      (cpu, mwrite m (fromLeBytes cpu.l cpu.h) b1, 10) := rfl

/-- Evaluation of the execute_instruction dispatch at opcode 0x37. -/
theorem exe37 (cpu : Cpu) (b1 b2 : Nat) (m : Mem) :
    Cpu.execute_instruction cpu ⟨0x37, b1, b2⟩ m =
      ({ cpu with f := insertF cpu.f CARRY }, m, 4) := rfl

/-- Evaluation of the execute_instruction dispatch at opcode 0x38. -/
theorem exe38 (cpu : Cpu) (b1 b2 : Nat) (m : Mem) :
    Cpu.execute_instruction cpu ⟨0x38, b1, b2⟩ m =
      (cpu, m, 4) := rfl

/-- Evaluation of the execute_instruction dispatch at opcode 0x39. -/
theorem exe39 (cpu : Cpu) (b1 b2 : Nat) (m : Mem) :
    Cpu.execute_instruction cpu ⟨0x39, b1, b2⟩ m =
      (let sum := fromLeBytes cpu.l cpu.h + cpu.sp
       let result := wrap16 sum
       let carry_out := decide (65536 ≤ sum)
       ({ cpu with f := setF cpu.f CARRY carry_out, h := highByte result, l := lowByte result }, m, 10)) := rfl

/-- Evaluation of the execute_instruction dispatch at opcode 0x3A. -/
theorem exe3A (cpu : Cpu) (b1 b2 : Nat) (m : Mem) :
    Cpu.execute_instruction cpu ⟨0x3A, b1, b2⟩ m =
      (let address := fromLeBytes b1 b2
       ({ cpu with a := mread m address }, m, 13)) := rfl

/-- Evaluation of the execute_instruction dispatch at opcode 0x3B. -/
theorem exe3B (cpu : Cpu) (b1 b2 : Nat) (m : Mem) :
    Cpu.execute_instruction cpu ⟨0x3B, b1, b2⟩ m =
      ({ cpu with sp := wrap16 (cpu.sp + 65535) }, m, 5) := rfl

/-- Evaluation of the execute_instruction dispatch at opcode 0x3C. -/
theorem exe3C (cpu : Cpu) (b1 b2 : Nat) (m : Mem) :
    Cpu.execute_instruction cpu ⟨0x3C, b1, b2⟩ m =
      (let t := cpu.add cpu.a 1 false
       ({ t.1 with a := t.2.1 }, m, 5)) := rfl

/-- Evaluation of the execute_instruction dispatch at opcode 0x3D. -/
theorem exe3D (cpu : Cpu) (b1 b2 : Nat) (m : Mem) :
    Cpu.execute_instruction cpu ⟨0x3D, b1, b2⟩ m =
      (let t := cpu.subtract cpu.a 1 false
       let cpu1 := { t.1 with f := setF t.1.f SIGN (decide (0 < t.2.1 &&& 0x80)) }
       ({ cpu1 with a := t.2.1 }, m, 5)) := rfl

/-- Evaluation of the execute_instruction dispatch at opcode 0x3E. -/
theorem exe3E (cpu : Cpu) (b1 b2 : Nat) (m : Mem) :
    Cpu.execute_instruction cpu ⟨0x3E, b1, b2⟩ m =
      ({ cpu with a := b1 }, m, 7) := rfl

/-- Evaluation of the execute_instruction dispatch at opcode 0x3F. -/
theorem exe3F (cpu : Cpu) (b1 b2 : Nat) (m : Mem) :
    Cpu.execute_instruction cpu ⟨0x3F, b1, b2⟩ m =
      ({ cpu with f := toggleF cpu.f CARRY }, m, 4) := rfl

/-- Evaluation of the execute_instruction dispatch at opcode 0x40. -/
theorem exe40 (cpu : Cpu) (b1 b2 : Nat) (m : Mem) :
    Cpu.execute_instruction cpu ⟨0x40, b1, b2⟩ m =
      (cpu, m, 5) := rfl

/-- Evaluation of the execute_instruction dispatch at opcode 0x41. -/
theorem exe41 (cpu : Cpu) (b1 b2 : Nat) (m : Mem) :
    Cpu.execute_instruction cpu ⟨0x41, b1, b2⟩ m =
      ({ cpu with b := cpu.c }, m, 5) := rfl

/-- Evaluation of the execute_instruction dispatch at opcode 0x42. -/
theorem exe42 (cpu : Cpu) (b1 b2 : Nat) (m : Mem) :
    Cpu.execute_instruction cpu ⟨0x42, b1, b2⟩ m =
      ({ cpu with b := cpu.d }, m, 5) := rfl

/-- Evaluation of the execute_instruction dispatch at opcode 0x43. -/
theorem exe43 (cpu : Cpu) (b1 b2 : Nat) (m : Mem) :
    Cpu.execute_instruction cpu ⟨0x43, b1, b2⟩ m =
      ({ cpu with b := cpu.e }, m, 5) := rfl

/-- Evaluation of the execute_instruction dispatch at opcode 0x44. -/
theorem exe44 (cpu : Cpu) (b1 b2 : Nat) (m : Mem) :
    Cpu.execute_instruction cpu ⟨0x44, b1, b2⟩ m =
      ({ cpu with b := cpu.h }, m, 5) := rfl

/-- Evaluation of the execute_instruction dispatch at opcode 0x45. -/
theorem exe45 (cpu : Cpu) (b1 b2 : Nat) (m : Mem) :
    Cpu.execute_instruction cpu ⟨0x45, b1, b2⟩ m =
      ({ cpu with b := cpu.l }, m, 5) := rfl

/-- Evaluation of the execute_instruction dispatch at opcode 0x46. -/
theorem exe46 (cpu : Cpu) (b1 b2 : Nat) (m : Mem) :
    Cpu.execute_instruction cpu ⟨0x46, b1, b2⟩ m =
      ({ cpu with b := mread m (fromLeBytes cpu.l cpu.h) }, m, 7) := rfl

/-- Evaluation of the execute_instruction dispatch at opcode 0x47. -/
theorem exe47 (cpu : Cpu) (b1 b2 : Nat) (m : Mem) :
    Cpu.execute_instruction cpu ⟨0x47, b1, b2⟩ m =
      ({ cpu with b := cpu.a }, m, 5) := rfl

/-- Evaluation of the execute_instruction dispatch at opcode 0x48. -/
theorem exe48 (cpu : Cpu) (b1 b2 : Nat) (m : Mem) :
    Cpu.execute_instruction cpu ⟨0x48, b1, b2⟩ m =
      ({ cpu with c := cpu.b }, m, 5) := rfl

/-- Evaluation of the execute_instruction dispatch at opcode 0x49. -/
theorem exe49 (cpu : Cpu) (b1 b2 : Nat) (m : Mem) :
    Cpu.execute_instruction cpu ⟨0x49, b1, b2⟩ m =
      (cpu, m, 5) := rfl

/-- Evaluation of the execute_instruction dispatch at opcode 0x4A. -/
theorem exe4A (cpu : Cpu) (b1 b2 : Nat) (m : Mem) :
    Cpu.execute_instruction cpu ⟨0x4A, b1, b2⟩ m =
      ({ cpu with c := cpu.d }, m, 5) := rfl

/-- Evaluation of the execute_instruction dispatch at opcode 0x4B. -/
theorem exe4B (cpu : Cpu) (b1 b2 : Nat) (m : Mem) :
    Cpu.execute_instruction cpu ⟨0x4B, b1, b2⟩ m =
      ({ cpu with c := cpu.e }, m, 5) := rfl

/-- Evaluation of the execute_instruction dispatch at opcode 0x4C. -/
theorem exe4C (cpu : Cpu) (b1 b2 : Nat) (m : Mem) :
    Cpu.execute_instruction cpu ⟨0x4C, b1, b2⟩ m =
      ({ cpu with c := cpu.h }, m, 5) := rfl

/-- Evaluation of the execute_instruction dispatch at opcode 0x4D. -/
theorem exe4D (cpu : Cpu) (b1 b2 : Nat) (m : Mem) :
    Cpu.execute_instruction cpu ⟨0x4D, b1, b2⟩ m =
      ({ cpu with c := cpu.l }, m, 5) := rfl

/-- Evaluation of the execute_instruction dispatch at opcode 0x4E. -/
theorem exe4E (cpu : Cpu) (b1 b2 : Nat) (m : Mem) :
    Cpu.execute_instruction cpu ⟨0x4E, b1, b2⟩ m =
      ({ cpu with c := mread m (fromLeBytes cpu.l cpu.h) }, m, 7) := rfl

/-- Evaluation of the execute_instruction dispatch at opcode 0x4F. -/
theorem exe4F (cpu : Cpu) (b1 b2 : Nat) (m : Mem) :
    Cpu.execute_instruction cpu ⟨0x4F, b1, b2⟩ m =
      ({ cpu with c := cpu.a }, m, 5) := rfl

/-- Evaluation of the execute_instruction dispatch at opcode 0x50. -/
theorem exe50 (cpu : Cpu) (b1 b2 : Nat) (m : Mem) :
    Cpu.execute_instruction cpu ⟨0x50, b1, b2⟩ m =
      ({ cpu with d := cpu.b }, m, 5) := rfl

/-- Evaluation of the execute_instruction dispatch at opcode 0x51. -/
theorem exe51 (cpu : Cpu) (b1 b2 : Nat) (m : Mem) :
    Cpu.execute_instruction cpu ⟨0x51, b1, b2⟩ m =
      ({ cpu with d := cpu.c }, m, 5) := rfl

/-- Evaluation of the execute_instruction dispatch at opcode 0x52. -/
theorem exe52 (cpu : Cpu) (b1 b2 : Nat) (m : Mem) :
    Cpu.execute_instruction cpu ⟨0x52, b1, b2⟩ m =
      (cpu, m, 5) := rfl

/-- Evaluation of the execute_instruction dispatch at opcode 0x53. -/
theorem exe53 (cpu : Cpu) (b1 b2 : Nat) (m : Mem) :
    Cpu.execute_instruction cpu ⟨0x53, b1, b2⟩ m =
      ({ cpu with d := cpu.e }, m, 5) := rfl

/-- Evaluation of the execute_instruction dispatch at opcode 0x54. -/
theorem exe54 (cpu : Cpu) (b1 b2 : Nat) (m : Mem) :
    Cpu.execute_instruction cpu ⟨0x54, b1, b2⟩ m =
      ({ cpu with d := cpu.h }, m, 5) := rfl

/-- Evaluation of the execute_instruction dispatch at opcode 0x55. -/
theorem exe55 (cpu : Cpu) (b1 b2 : Nat) (m : Mem) :
    Cpu.execute_instruction cpu ⟨0x55, b1, b2⟩ m =
      ({ cpu with d := cpu.l }, m, 5) := rfl

/-- Evaluation of the execute_instruction dispatch at opcode 0x56. -/
theorem exe56 (cpu : Cpu) (b1 b2 : Nat) (m : Mem) :
    Cpu.execute_instruction cpu ⟨0x56, b1, b2⟩ m =
      ({ cpu with d := mread m (fromLeBytes cpu.l cpu.h) }, m, 7) := rfl

/-- Evaluation of the execute_instruction dispatch at opcode 0x57. -/
theorem exe57 (cpu : Cpu) (b1 b2 : Nat) (m : Mem) :
    Cpu.execute_instruction cpu ⟨0x57, b1, b2⟩ m =
      ({ cpu with d := cpu.a }, m, 5) := rfl

/-- Evaluation of the execute_instruction dispatch at opcode 0x58. -/
theorem exe58 (cpu : Cpu) (b1 b2 : Nat) (m : Mem) :
    Cpu.execute_instruction cpu ⟨0x58, b1, b2⟩ m =
      ({ cpu with e := cpu.b }, m, 5) := rfl

/-- Evaluation of the execute_instruction dispatch at opcode 0x59. -/
theorem exe59 (cpu : Cpu) (b1 b2 : Nat) (m : Mem) :
    Cpu.execute_instruction cpu ⟨0x59, b1, b2⟩ m =
      ({ cpu with e := cpu.c }, m, 5) := rfl

/-- Evaluation of the execute_instruction dispatch at opcode 0x5A. -/
theorem exe5A (cpu : Cpu) (b1 b2 : Nat) (m : Mem) :
    Cpu.execute_instruction cpu ⟨0x5A, b1, b2⟩ m =
      ({ cpu with e := cpu.d }, m, 5) := rfl

/-- Evaluation of the execute_instruction dispatch at opcode 0x5B. -/
theorem exe5B (cpu : Cpu) (b1 b2 : Nat) (m : Mem) :
    Cpu.execute_instruction cpu ⟨0x5B, b1, b2⟩ m =
      (cpu, m, 5) := rfl

/-- Evaluation of the execute_instruction dispatch at opcode 0x5C. -/
theorem exe5C (cpu : Cpu) (b1 b2 : Nat) (m : Mem) :
    Cpu.execute_instruction cpu ⟨0x5C, b1, b2⟩ m =
      ({ cpu with e := cpu.h }, m, 5) := rfl

/-- Evaluation of the execute_instruction dispatch at opcode 0x5D. -/
theorem exe5D (cpu : Cpu) (b1 b2 : Nat) (m : Mem) :
    Cpu.execute_instruction cpu ⟨0x5D, b1, b2⟩ m =
      ({ cpu with e := cpu.l }, m, 5) := rfl

/-- Evaluation of the execute_instruction dispatch at opcode 0x5E. -/
theorem exe5E (cpu : Cpu) (b1 b2 : Nat) (m : Mem) :
    Cpu.execute_instruction cpu ⟨0x5E, b1, b2⟩ m =
      ({ cpu with e := mread m (fromLeBytes cpu.l cpu.h) }, m, 7) := rfl

/-- Evaluation of the execute_instruction dispatch at opcode 0x5F. -/
theorem exe5F (cpu : Cpu) (b1 b2 : Nat) (m : Mem) :
    Cpu.execute_instruction cpu ⟨0x5F, b1, b2⟩ m =
      ({ cpu with e := cpu.a }, m, 5) := rfl

/-- Evaluation of the execute_instruction dispatch at opcode 0x60. -/
theorem exe60 (cpu : Cpu) (b1 b2 : Nat) (m : Mem) :
    Cpu.execute_instruction cpu ⟨0x60, b1, b2⟩ m =
      ({ cpu with h := cpu.b }, m, 5) := rfl

/-- Evaluation of the execute_instruction dispatch at opcode 0x61. -/
theorem exe61 (cpu : Cpu) (b1 b2 : Nat) (m : Mem) :
    Cpu.execute_instruction cpu ⟨0x61, b1, b2⟩ m =
      ({ cpu with h := cpu.c }, m, 5) := rfl

/-- Evaluation of the execute_instruction dispatch at opcode 0x62. -/
theorem exe62 (cpu : Cpu) (b1 b2 : Nat) (m : Mem) :
    Cpu.execute_instruction cpu ⟨0x62, b1, b2⟩ m =
      ({ cpu with h := cpu.d }, m, 5) := rfl

/-- Evaluation of the execute_instruction dispatch at opcode 0x63. -/
theorem exe63 (cpu : Cpu) (b1 b2 : Nat) (m : Mem) :
    Cpu.execute_instruction cpu ⟨0x63, b1, b2⟩ m =
      ({ cpu with h := cpu.e }, m, 5) := rfl

/-- Evaluation of the execute_instruction dispatch at opcode 0x64. -/
theorem exe64 (cpu : Cpu) (b1 b2 : Nat) (m : Mem) :
    Cpu.execute_instruction cpu ⟨0x64, b1, b2⟩ m =
      (cpu, m, 5) := rfl

/-- Evaluation of the execute_instruction dispatch at opcode 0x65. -/
theorem exe65 (cpu : Cpu) (b1 b2 : Nat) (m : Mem) :
    Cpu.execute_instruction cpu ⟨0x65, b1, b2⟩ m =
      ({ cpu with h := cpu.l }, m, 5) := rfl

/-- Evaluation of the execute_instruction dispatch at opcode 0x66. -/
theorem exe66 (cpu : Cpu) (b1 b2 : Nat) (m : Mem) :
    Cpu.execute_instruction cpu ⟨0x66, b1, b2⟩ m =
      ({ cpu with h := mread m (fromLeBytes cpu.l cpu.h) }, m, 7) := rfl

/-- Evaluation of the execute_instruction dispatch at opcode 0x67. -/
theorem exe67 (cpu : Cpu) (b1 b2 : Nat) (m : Mem) :
    Cpu.execute_instruction cpu ⟨0x67, b1, b2⟩ m =
      ({ cpu with h := cpu.a }, m, 5) := rfl

/-- Evaluation of the execute_instruction dispatch at opcode 0x68. -/
theorem exe68 (cpu : Cpu) (b1 b2 : Nat) (m : Mem) :
    Cpu.execute_instruction cpu ⟨0x68, b1, b2⟩ m =
      ({ cpu with l := cpu.b }, m, 5) := rfl

/-- Evaluation of the execute_instruction dispatch at opcode 0x69. -/
theorem exe69 (cpu : Cpu) (b1 b2 : Nat) (m : Mem) :
    Cpu.execute_instruction cpu ⟨0x69, b1, b2⟩ m =
      ({ cpu with l := cpu.c }, m, 5) := rfl

/-- Evaluation of the execute_instruction dispatch at opcode 0x6A. -/
theorem exe6A (cpu : Cpu) (b1 b2 : Nat) (m : Mem) :
    Cpu.execute_instruction cpu ⟨0x6A, b1, b2⟩ m =
      ({ cpu with l := cpu.d }, m, 5) := rfl

/-- Evaluation of the execute_instruction dispatch at opcode 0x6B. -/
theorem exe6B (cpu : Cpu) (b1 b2 : Nat) (m : Mem) :
    Cpu.execute_instruction cpu ⟨0x6B, b1, b2⟩ m =
      ({ cpu with l := cpu.e }, m, 5) := rfl

/-- Evaluation of the execute_instruction dispatch at opcode 0x6C. -/
theorem exe6C (cpu : Cpu) (b1 b2 : Nat) (m : Mem) :
    Cpu.execute_instruction cpu ⟨0x6C, b1, b2⟩ m =
      ({ cpu with l := cpu.h }, m, 5) := rfl

/-- Evaluation of the execute_instruction dispatch at opcode 0x6D. -/
theorem exe6D (cpu : Cpu) (b1 b2 : Nat) (m : Mem) :
    Cpu.execute_instruction cpu ⟨0x6D, b1, b2⟩ m =
      (cpu, m, 5) := rfl

/-- Evaluation of the execute_instruction dispatch at opcode 0x6E. -/
theorem exe6E (cpu : Cpu) (b1 b2 : Nat) (m : Mem) :
    Cpu.execute_instruction cpu ⟨0x6E, b1, b2⟩ m =
      ({ cpu with l := mread m (fromLeBytes cpu.l cpu.h) }, m, 7) := rfl

/-- Evaluation of the execute_instruction dispatch at opcode 0x6F. -/
theorem exe6F (cpu : Cpu) (b1 b2 : Nat) (m : Mem) :
    Cpu.execute_instruction cpu ⟨0x6F, b1, b2⟩ m =
      ({ cpu with l := cpu.a }, m, 5) := rfl

/-- Evaluation of the execute_instruction dispatch at opcode 0x70. -/
theorem exe70 (cpu : Cpu) (b1 b2 : Nat) (m : Mem) :
    Cpu.execute_instruction cpu ⟨0x70, b1, b2⟩ m =
      (cpu, mwrite m (fromLeBytes cpu.l cpu.h) cpu.b, 7) := rfl

/-- Evaluation of the execute_instruction dispatch at opcode 0x71. -/
theorem exe71 (cpu : Cpu) (b1 b2 : Nat) (m : Mem) :
    Cpu.execute_instruction cpu ⟨0x71, b1, b2⟩ m =
      (cpu, mwrite m (fromLeBytes cpu.l cpu.h) cpu.c, 7) := rfl

/-- Evaluation of the execute_instruction dispatch at opcode 0x72. -/
theorem exe72 (cpu : Cpu) (b1 b2 : Nat) (m : Mem) :
    Cpu.execute_instruction cpu ⟨0x72, b1, b2⟩ m =
      (cpu, mwrite m (fromLeBytes cpu.l cpu.h) cpu.d, 7) := rfl

/-- Evaluation of the execute_instruction dispatch at opcode 0x73. -/
theorem exe73 (cpu : Cpu) (b1 b2 : Nat) (m : Mem) :
    Cpu.execute_instruction cpu ⟨0x73, b1, b2⟩ m =
      (cpu, mwrite m (fromLeBytes cpu.l cpu.h) cpu.e, 7) := rfl

/-- Evaluation of the execute_instruction dispatch at opcode 0x74. -/
theorem exe74 (cpu : Cpu) (b1 b2 : Nat) (m : Mem) :
    Cpu.execute_instruction cpu ⟨0x74, b1, b2⟩ m =
      (cpu, mwrite m (fromLeBytes cpu.l cpu.h) cpu.h, 7) := rfl

/-- Evaluation of the execute_instruction dispatch at opcode 0x75. -/
theorem exe75 (cpu : Cpu) (b1 b2 : Nat) (m : Mem) :
    Cpu.execute_instruction cpu ⟨0x75, b1, b2⟩ m =
      (cpu, mwrite m (fromLeBytes cpu.l cpu.h) cpu.l, 7) := rfl

/-- Evaluation of the execute_instruction dispatch at opcode 0x76. -/
theorem exe76 (cpu : Cpu) (b1 b2 : Nat) (m : Mem) :
    Cpu.execute_instruction cpu ⟨0x76, b1, b2⟩ m =
      ({ cpu with isHalted := true }, m, 7) := rfl

/-- Evaluation of the execute_instruction dispatch at opcode 0x77. -/
theorem exe77 (cpu : Cpu) (b1 b2 : Nat) (m : Mem) :
    Cpu.execute_instruction cpu ⟨0x77, b1, b2⟩ m =
      (cpu, mwrite m (fromLeBytes cpu.l cpu.h) cpu.a, 7) := rfl

/-- Evaluation of the execute_instruction dispatch at opcode 0x78. -/
theorem exe78 (cpu : Cpu) (b1 b2 : Nat) (m : Mem) :
    Cpu.execute_instruction cpu ⟨0x78, b1, b2⟩ m =
      ({ cpu with a := cpu.b }, m, 5) := rfl

/-- Evaluation of the execute_instruction dispatch at opcode 0x79. -/
theorem exe79 (cpu : Cpu) (b1 b2 : Nat) (m : Mem) :
    Cpu.execute_instruction cpu ⟨0x79, b1, b2⟩ m =
      ({ cpu with a := cpu.c }, m, 5) := rfl

/-- Evaluation of the execute_instruction dispatch at opcode 0x7A. -/
theorem exe7A (cpu : Cpu) (b1 b2 : Nat) (m : Mem) :
    Cpu.execute_instruction cpu ⟨0x7A, b1, b2⟩ m =
      ({ cpu with a := cpu.d }, m, 5) := rfl

/-- Evaluation of the execute_instruction dispatch at opcode 0x7B. -/
theorem exe7B (cpu : Cpu) (b1 b2 : Nat) (m : Mem) :
    Cpu.execute_instruction cpu ⟨0x7B, b1, b2⟩ m =
      ({ cpu with a := cpu.e }, m, 5) := rfl

/-- Evaluation of the execute_instruction dispatch at opcode 0x7C. -/
theorem exe7C (cpu : Cpu) (b1 b2 : Nat) (m : Mem) :
    Cpu.execute_instruction cpu ⟨0x7C, b1, b2⟩ m =
      ({ cpu with a := cpu.h }, m, 5) := rfl

/-- Evaluation of the execute_instruction dispatch at opcode 0x7D. -/
theorem exe7D (cpu : Cpu) (b1 b2 : Nat) (m : Mem) :
    Cpu.execute_instruction cpu ⟨0x7D, b1, b2⟩ m =
      ({ cpu with a := cpu.l }, m, 5) := rfl

/-- Evaluation of the execute_instruction dispatch at opcode 0x7E. -/
theorem exe7E (cpu : Cpu) (b1 b2 : Nat) (m : Mem) :
    Cpu.execute_instruction cpu ⟨0x7E, b1, b2⟩ m =
      ({ cpu with a := mread m (fromLeBytes cpu.l cpu.h) }, m, 7) := rfl

/-- Evaluation of the execute_instruction dispatch at opcode 0x7F. -/
theorem exe7F (cpu : Cpu) (b1 b2 : Nat) (m : Mem) :
    Cpu.execute_instruction cpu ⟨0x7F, b1, b2⟩ m =
      (cpu, m, 5) := rfl

/-- Evaluation of the execute_instruction dispatch at opcode 0x80. -/
theorem exe80 (cpu : Cpu) (b1 b2 : Nat) (m : Mem) :
    Cpu.execute_instruction cpu ⟨0x80, b1, b2⟩ m =
      (let t := cpu.add cpu.a cpu.b false
       ({ t.1 with f := setF t.1.f CARRY t.2.2, a := t.2.1 }, m, 4)) := rfl

/-- Evaluation of the execute_instruction dispatch at opcode 0x81. -/
theorem exe81 (cpu : Cpu) (b1 b2 : Nat) (m : Mem) :
    Cpu.execute_instruction cpu ⟨0x81, b1, b2⟩ m =
      (let t := cpu.add cpu.a cpu.c false
       ({ t.1 with f := setF t.1.f CARRY t.2.2, a := t.2.1 }, m, 4)) := rfl

/-- Evaluation of the execute_instruction dispatch at opcode 0x82. -/
theorem exe82 (cpu : Cpu) (b1 b2 : Nat) (m : Mem) :
    Cpu.execute_instruction cpu ⟨0x82, b1, b2⟩ m =
      (let t := cpu.add cpu.a cpu.d false
       ({ t.1 with f := setF t.1.f CARRY t.2.2, a := t.2.1 }, m, 4)) := rfl

/-- Evaluation of the execute_instruction dispatch at opcode 0x83. -/
theorem exe83 (cpu : Cpu) (b1 b2 : Nat) (m : Mem) :
    Cpu.execute_instruction cpu ⟨0x83, b1, b2⟩ m =
      (let t := cpu.add cpu.a cpu.e false
       ({ t.1 with f := setF t.1.f CARRY t.2.2, a := t.2.1 }, m, 4)) := rfl

/-- Evaluation of the execute_instruction dispatch at opcode 0x84. -/
theorem exe84 (cpu : Cpu) (b1 b2 : Nat) (m : Mem) :
    Cpu.execute_instruction cpu ⟨0x84, b1, b2⟩ m =
      (let t := cpu.add cpu.a cpu.h false
       ({ t.1 with f := setF t.1.f CARRY t.2.2, a := t.2.1 }, m, 4)) := rfl

/-- Evaluation of the execute_instruction dispatch at opcode 0x85. -/
theorem exe85 (cpu : Cpu) (b1 b2 : Nat) (m : Mem) :
    Cpu.execute_instruction cpu ⟨0x85, b1, b2⟩ m =
      (let t := cpu.add cpu.a cpu.l false
       ({ t.1 with f := setF t.1.f CARRY t.2.2, a := t.2.1 }, m, 4)) := rfl

/-- Evaluation of the execute_instruction dispatch at opcode 0x86. -/
theorem exe86 (cpu : Cpu) (b1 b2 : Nat) (m : Mem) :
    Cpu.execute_instruction cpu ⟨0x86, b1, b2⟩ m =
      (let address := fromLeBytes cpu.l cpu.h
       let t := cpu.add cpu.a (mread m address) false
       ({ t.1 with f := setF t.1.f CARRY t.2.2, a := t.2.1 }, m, 7)) := rfl

/-- Evaluation of the execute_instruction dispatch at opcode 0x87. -/
theorem exe87 (cpu : Cpu) (b1 b2 : Nat) (m : Mem) :
    Cpu.execute_instruction cpu ⟨0x87, b1, b2⟩ m =
      (let t := cpu.add cpu.a cpu.a false
       ({ t.1 with f := setF t.1.f CARRY t.2.2, a := t.2.1 }, m, 4)) := rfl

/-- Evaluation of the execute_instruction dispatch at opcode 0x88. -/
theorem exe88 (cpu : Cpu) (b1 b2 : Nat) (m : Mem) :
    Cpu.execute_instruction cpu ⟨0x88, b1, b2⟩ m =
      (let carry_in := containsF cpu.f CARRY
       let t := cpu.add cpu.a cpu.b carry_in
       ({ t.1 with f := setF t.1.f CARRY t.2.2, a := t.2.1 }, m, 4)) := rfl

/-- Evaluation of the execute_instruction dispatch at opcode 0x89. -/
theorem exe89 (cpu : Cpu) (b1 b2 : Nat) (m : Mem) :
    Cpu.execute_instruction cpu ⟨0x89, b1, b2⟩ m =
      (let carry_in := containsF cpu.f CARRY
       let t := cpu.add cpu.a cpu.c carry_in
       ({ t.1 with f := setF t.1.f CARRY t.2.2, a := t.2.1 }, m, 4)) := rfl

/-- Evaluation of the execute_instruction dispatch at opcode 0x8A. -/
theorem exe8A (cpu : Cpu) (b1 b2 : Nat) (m : Mem) :
    Cpu.execute_instruction cpu ⟨0x8A, b1, b2⟩ m =
      (let carry_in := containsF cpu.f CARRY
       let t := cpu.add cpu.a cpu.d carry_in
       ({ t.1 with f := setF t.1.f CARRY t.2.2, a := t.2.1 }, m, 4)) := rfl

/-- Evaluation of the execute_instruction dispatch at opcode 0x8B. -/
theorem exe8B (cpu : Cpu) (b1 b2 : Nat) (m : Mem) :
    Cpu.execute_instruction cpu ⟨0x8B, b1, b2⟩ m =
      (let carry_in := containsF cpu.f CARRY
       let t := cpu.add cpu.a cpu.e carry_in
       ({ t.1 with f := setF t.1.f CARRY t.2.2, a := t.2.1 }, m, 4)) := rfl

/-- Evaluation of the execute_instruction dispatch at opcode 0x8C. -/
theorem exe8C (cpu : Cpu) (b1 b2 : Nat) (m : Mem) :
    Cpu.execute_instruction cpu ⟨0x8C, b1, b2⟩ m =
      (let carry_in := containsF cpu.f CARRY
       let t := cpu.add cpu.a cpu.h carry_in
       ({ t.1 with f := setF t.1.f CARRY t.2.2, a := t.2.1 }, m, 4)) := rfl

/-- Evaluation of the execute_instruction dispatch at opcode 0x8D. -/
theorem exe8D (cpu : Cpu) (b1 b2 : Nat) (m : Mem) :
    Cpu.execute_instruction cpu ⟨0x8D, b1, b2⟩ m =
      (let carry_in := containsF cpu.f CARRY
       let t := cpu.add cpu.a cpu.l carry_in
       ({ t.1 with f := setF t.1.f CARRY t.2.2, a := t.2.1 }, m, 4)) := rfl

/-- Evaluation of the execute_instruction dispatch at opcode 0x8E. -/
theorem exe8E (cpu : Cpu) (b1 b2 : Nat) (m : Mem) :
    Cpu.execute_instruction cpu ⟨0x8E, b1, b2⟩ m =
      (let address := fromLeBytes cpu.l cpu.h
       let carry_in := containsF cpu.f CARRY
       let t := cpu.add cpu.a (mread m address) carry_in
       ({ t.1 with f := setF t.1.f CARRY t.2.2, a := t.2.1 }, m, 7)) := rfl

/-- Evaluation of the execute_instruction dispatch at opcode 0x8F. -/
theorem exe8F (cpu : Cpu) (b1 b2 : Nat) (m : Mem) :
    Cpu.execute_instruction cpu ⟨0x8F, b1, b2⟩ m =
      (let carry_in := containsF cpu.f CARRY
       let t := cpu.add cpu.a cpu.a carry_in
       ({ t.1 with f := setF t.1.f CARRY t.2.2, a := t.2.1 }, m, 4)) := rfl

/-- Evaluation of the execute_instruction dispatch at opcode 0x90. -/
theorem exe90 (cpu : Cpu) (b1 b2 : Nat) (m : Mem) :
    Cpu.execute_instruction cpu ⟨0x90, b1, b2⟩ m =
      (let t := cpu.subtract cpu.a cpu.b false
       ({ t.1 with f := setF t.1.f CARRY t.2.2, a := t.2.1 }, m, 4)) := rfl

/-- Evaluation of the execute_instruction dispatch at opcode 0x91. -/
theorem exe91 (cpu : Cpu) (b1 b2 : Nat) (m : Mem) :
    Cpu.execute_instruction cpu ⟨0x91, b1, b2⟩ m =
      (let t := cpu.subtract cpu.a cpu.c false
       ({ t.1 with f := setF t.1.f CARRY t.2.2, a := t.2.1 }, m, 4)) := rfl

/-- Evaluation of the execute_instruction dispatch at opcode 0x92. -/
theorem exe92 (cpu : Cpu) (b1 b2 : Nat) (m : Mem) :
    Cpu.execute_instruction cpu ⟨0x92, b1, b2⟩ m =
      (let t := cpu.subtract cpu.a cpu.d false
       ({ t.1 with f := setF t.1.f CARRY t.2.2, a := t.2.1 }, m, 4)) := rfl

/-- Evaluation of the execute_instruction dispatch at opcode 0x93. -/
theorem exe93 (cpu : Cpu) (b1 b2 : Nat) (m : Mem) :
    Cpu.execute_instruction cpu ⟨0x93, b1, b2⟩ m =
      (let t := cpu.subtract cpu.a cpu.e false
       ({ t.1 with f := setF t.1.f CARRY t.2.2, a := t.2.1 }, m, 4)) := rfl

/-- Evaluation of the execute_instruction dispatch at opcode 0x94. -/
theorem exe94 (cpu : Cpu) (b1 b2 : Nat) (m : Mem) :
    Cpu.execute_instruction cpu ⟨0x94, b1, b2⟩ m =
      (let t := cpu.subtract cpu.a cpu.h false
       ({ t.1 with f := setF t.1.f CARRY t.2.2, a := t.2.1 }, m, 4)) := rfl

/-- Evaluation of the execute_instruction dispatch at opcode 0x95. -/
theorem exe95 (cpu : Cpu) (b1 b2 : Nat) (m : Mem) :
    Cpu.execute_instruction cpu ⟨0x95, b1, b2⟩ m =
      (let t := cpu.subtract cpu.a cpu.l false
       ({ t.1 with f := setF t.1.f CARRY t.2.2, a := t.2.1 }, m, 4)) := rfl

/-- Evaluation of the execute_instruction dispatch at opcode 0x96. -/
theorem exe96 (cpu : Cpu) (b1 b2 : Nat) (m : Mem) :
    Cpu.execute_instruction cpu ⟨0x96, b1, b2⟩ m =
      (let address := fromLeBytes cpu.l cpu.h
       let t := cpu.subtract cpu.a (mread m address) false
       ({ t.1 with f := setF t.1.f CARRY t.2.2, a := t.2.1 }, m, 7)) := rfl

/-- Evaluation of the execute_instruction dispatch at opcode 0x97. -/
theorem exe97 (cpu : Cpu) (b1 b2 : Nat) (m : Mem) :
    Cpu.execute_instruction cpu ⟨0x97, b1, b2⟩ m =
      (let t := cpu.subtract cpu.a cpu.a false
       ({ t.1 with f := setF t.1.f CARRY t.2.2, a := t.2.1 }, m, 4)) := rfl

/-- Evaluation of the execute_instruction dispatch at opcode 0x98. -/
theorem exe98 (cpu : Cpu) (b1 b2 : Nat) (m : Mem) :
    Cpu.execute_instruction cpu ⟨0x98, b1, b2⟩ m =
      (let borrow_in := containsF cpu.f CARRY
       let t := cpu.subtract cpu.a cpu.b borrow_in
       ({ t.1 with f := setF t.1.f CARRY t.2.2, a := t.2.1 }, m, 4)) := rfl

/-- Evaluation of the execute_instruction dispatch at opcode 0x99. -/
theorem exe99 (cpu : Cpu) (b1 b2 : Nat) (m : Mem) :
    Cpu.execute_instruction cpu ⟨0x99, b1, b2⟩ m =
      (let borrow_in := containsF cpu.f CARRY
       let t := cpu.subtract cpu.a cpu.c borrow_in
       ({ t.1 with f := setF t.1.f CARRY t.2.2, a := t.2.1 }, m, 4)) := rfl

/-- Evaluation of the execute_instruction dispatch at opcode 0x9A. -/
theorem exe9A (cpu : Cpu) (b1 b2 : Nat) (m : Mem) :
    Cpu.execute_instruction cpu ⟨0x9A, b1, b2⟩ m =
      (let borrow_in := containsF cpu.f CARRY
       let t := cpu.subtract cpu.a cpu.d borrow_in
       ({ t.1 with f := setF t.1.f CARRY t.2.2, a := t.2.1 }, m, 4)) := rfl

/-- Evaluation of the execute_instruction dispatch at opcode 0x9B. -/
theorem exe9B (cpu : Cpu) (b1 b2 : Nat) (m : Mem) :
    Cpu.execute_instruction cpu ⟨0x9B, b1, b2⟩ m =
      (let borrow_in := containsF cpu.f CARRY
       let t := cpu.subtract cpu.a cpu.e borrow_in
       ({ t.1 with f := setF t.1.f CARRY t.2.2, a := t.2.1 }, m, 4)) := rfl

/-- Evaluation of the execute_instruction dispatch at opcode 0x9C. -/
theorem exe9C (cpu : Cpu) (b1 b2 : Nat) (m : Mem) :
    Cpu.execute_instruction cpu ⟨0x9C, b1, b2⟩ m =
      (let borrow_in := containsF cpu.f CARRY
       let t := cpu.subtract cpu.a cpu.h borrow_in
       ({ t.1 with f := setF t.1.f CARRY t.2.2, a := t.2.1 }, m, 4)) := rfl

/-- Evaluation of the execute_instruction dispatch at opcode 0x9D. -/
theorem exe9D (cpu : Cpu) (b1 b2 : Nat) (m : Mem) :
    Cpu.execute_instruction cpu ⟨0x9D, b1, b2⟩ m =
      (let borrow_in := containsF cpu.f CARRY
       let t := cpu.subtract cpu.a cpu.l borrow_in
       ({ t.1 with f := setF t.1.f CARRY t.2.2, a := t.2.1 }, m, 4)) := rfl

/-- Evaluation of the execute_instruction dispatch at opcode 0x9E. -/
theorem exe9E (cpu : Cpu) (b1 b2 : Nat) (m : Mem) :
    Cpu.execute_instruction cpu ⟨0x9E, b1, b2⟩ m =
      (let address := fromLeBytes cpu.l cpu.h
       let borrow_in := containsF cpu.f CARRY
       let t := cpu.subtract cpu.a (mread m address) borrow_in
       ({ t.1 with f := setF t.1.f CARRY t.2.2, a := t.2.1 }, m, 7)) := rfl

/-- Evaluation of the execute_instruction dispatch at opcode 0x9F. -/
theorem exe9F (cpu : Cpu) (b1 b2 : Nat) (m : Mem) :
    Cpu.execute_instruction cpu ⟨0x9F, b1, b2⟩ m =
      (let borrow_in := containsF cpu.f CARRY
       let t := cpu.subtract cpu.a cpu.a borrow_in
       ({ t.1 with f := setF t.1.f CARRY t.2.2, a := t.2.1 }, m, 4)) := rfl

/-- Evaluation of the execute_instruction dispatch at opcode 0xA0. -/
theorem exeA0 (cpu : Cpu) (b1 b2 : Nat) (m : Mem) :
    Cpu.execute_instruction cpu ⟨0xA0, b1, b2⟩ m =
      (cpu.logical_and cpu.b, m, 4) := rfl

/-- Evaluation of the execute_instruction dispatch at opcode 0xA1. -/
theorem exeA1 (cpu : Cpu) (b1 b2 : Nat) (m : Mem) :
    Cpu.execute_instruction cpu ⟨0xA1, b1, b2⟩ m =
      (cpu.logical_and cpu.c, m, 4) := rfl

/-- Evaluation of the execute_instruction dispatch at opcode 0xA2. -/
theorem exeA2 (cpu : Cpu) (b1 b2 : Nat) (m : Mem) :
    Cpu.execute_instruction cpu ⟨0xA2, b1, b2⟩ m =
      (cpu.logical_and cpu.d, m, 4) := rfl

/-- Evaluation of the execute_instruction dispatch at opcode 0xA3. -/
theorem exeA3 (cpu : Cpu) (b1 b2 : Nat) (m : Mem) :
    Cpu.execute_instruction cpu ⟨0xA3, b1, b2⟩ m =
      (cpu.logical_and cpu.e, m, 4) := rfl

/-- Evaluation of the execute_instruction dispatch at opcode 0xA4. -/
theorem exeA4 (cpu : Cpu) (b1 b2 : Nat) (m : Mem) :
    Cpu.execute_instruction cpu ⟨0xA4, b1, b2⟩ m =
      (cpu.logical_and cpu.h, m, 4) := rfl

/-- Evaluation of the execute_instruction dispatch at opcode 0xA5. -/
theorem exeA5 (cpu : Cpu) (b1 b2 : Nat) (m : Mem) :
    Cpu.execute_instruction cpu ⟨0xA5, b1, b2⟩ m =
      (cpu.logical_and cpu.l, m, 4) := rfl

/-- Evaluation of the execute_instruction dispatch at opcode 0xA6. -/
theorem exeA6 (cpu : Cpu) (b1 b2 : Nat) (m : Mem) :
    Cpu.execute_instruction cpu ⟨0xA6, b1, b2⟩ m =
      (let address := fromLeBytes cpu.l cpu.h
       (cpu.logical_and (mread m address), m, 7)) := rfl

/-- Evaluation of the execute_instruction dispatch at opcode 0xA7. -/
theorem exeA7 (cpu : Cpu) (b1 b2 : Nat) (m : Mem) :
    Cpu.execute_instruction cpu ⟨0xA7, b1, b2⟩ m =
      (cpu.logical_and cpu.a, m, 4) := rfl

/-- Evaluation of the execute_instruction dispatch at opcode 0xA8. -/
theorem exeA8 (cpu : Cpu) (b1 b2 : Nat) (m : Mem) :
    Cpu.execute_instruction cpu ⟨0xA8, b1, b2⟩ m =
      (cpu.logical_xor cpu.b, m, 4) := rfl

/-- Evaluation of the execute_instruction dispatch at opcode 0xA9. -/
theorem exeA9 (cpu : Cpu) (b1 b2 : Nat) (m : Mem) :
    Cpu.execute_instruction cpu ⟨0xA9, b1, b2⟩ m =
      (cpu.logical_xor cpu.c, m, 4) := rfl

/-- Evaluation of the execute_instruction dispatch at opcode 0xAA. -/
theorem exeAA (cpu : Cpu) (b1 b2 : Nat) (m : Mem) :
    Cpu.execute_instruction cpu ⟨0xAA, b1, b2⟩ m =
      (cpu.logical_xor cpu.d, m, 4) := rfl

/-- Evaluation of the execute_instruction dispatch at opcode 0xAB. -/
theorem exeAB (cpu : Cpu) (b1 b2 : Nat) (m : Mem) :
    Cpu.execute_instruction cpu ⟨0xAB, b1, b2⟩ m =
      (cpu.logical_xor cpu.e, m, 4) := rfl

/-- Evaluation of the execute_instruction dispatch at opcode 0xAC. -/
theorem exeAC (cpu : Cpu) (b1 b2 : Nat) (m : Mem) :
    Cpu.execute_instruction cpu ⟨0xAC, b1, b2⟩ m =
      (cpu.logical_xor cpu.h, m, 4) := rfl

/-- Evaluation of the execute_instruction dispatch at opcode 0xAD. -/
theorem exeAD (cpu : Cpu) (b1 b2 : Nat) (m : Mem) :
    Cpu.execute_instruction cpu ⟨0xAD, b1, b2⟩ m =
      (cpu.logical_xor cpu.l, m, 4) := rfl

/-- Evaluation of the execute_instruction dispatch at opcode 0xAE. -/
theorem exeAE (cpu : Cpu) (b1 b2 : Nat) (m : Mem) :
    Cpu.execute_instruction cpu ⟨0xAE, b1, b2⟩ m =
      (let address := fromLeBytes cpu.l cpu.h
       (cpu.logical_xor (mread m address), m, 7)) := rfl

/-- Evaluation of the execute_instruction dispatch at opcode 0xAF. -/
theorem exeAF (cpu : Cpu) (b1 b2 : Nat) (m : Mem) :
    Cpu.execute_instruction cpu ⟨0xAF, b1, b2⟩ m =
      (cpu.logical_xor cpu.a, m, 4) := rfl

/-- Evaluation of the execute_instruction dispatch at opcode 0xB0. -/
theorem exeB0 (cpu : Cpu) (b1 b2 : Nat) (m : Mem) :
    Cpu.execute_instruction cpu ⟨0xB0, b1, b2⟩ m =
      (cpu.logical_or cpu.b, m, 4) := rfl

/-- Evaluation of the execute_instruction dispatch at opcode 0xB1. -/
theorem exeB1 (cpu : Cpu) (b1 b2 : Nat) (m : Mem) :
    Cpu.execute_instruction cpu ⟨0xB1, b1, b2⟩ m =
      (cpu.logical_or cpu.c, m, 4) := rfl

/-- Evaluation of the execute_instruction dispatch at opcode 0xB2. -/
theorem exeB2 (cpu : Cpu) (b1 b2 : Nat) (m : Mem) :
    Cpu.execute_instruction cpu ⟨0xB2, b1, b2⟩ m =
      (cpu.logical_or cpu.d, m, 4) := rfl

/-- Evaluation of the execute_instruction dispatch at opcode 0xB3. -/
theorem exeB3 (cpu : Cpu) (b1 b2 : Nat) (m : Mem) :
    Cpu.execute_instruction cpu ⟨0xB3, b1, b2⟩ m =
      (cpu.logical_or cpu.e, m, 4) := rfl

/-- Evaluation of the execute_instruction dispatch at opcode 0xB4. -/
theorem exeB4 (cpu : Cpu) (b1 b2 : Nat) (m : Mem) :
    Cpu.execute_instruction cpu ⟨0xB4, b1, b2⟩ m =
      (cpu.logical_or cpu.h, m, 4) := rfl

/-- Evaluation of the execute_instruction dispatch at opcode 0xB5. -/
theorem exeB5 (cpu : Cpu) (b1 b2 : Nat) (m : Mem) :
    Cpu.execute_instruction cpu ⟨0xB5, b1, b2⟩ m =
      (cpu.logical_or cpu.l, m, 4) := rfl

/-- Evaluation of the execute_instruction dispatch at opcode 0xB6. -/
theorem exeB6 (cpu : Cpu) (b1 b2 : Nat) (m : Mem) :
    Cpu.execute_instruction cpu ⟨0xB6, b1, b2⟩ m =
      (let address := fromLeBytes cpu.l cpu.h
       (cpu.logical_or (mread m address), m, 7)) := rfl

/-- Evaluation of the execute_instruction dispatch at opcode 0xB7. -/
theorem exeB7 (cpu : Cpu) (b1 b2 : Nat) (m : Mem) :
    Cpu.execute_instruction cpu ⟨0xB7, b1, b2⟩ m =
      (cpu.logical_or cpu.a, m, 4) := rfl

/-- Evaluation of the execute_instruction dispatch at opcode 0xB8. -/
theorem exeB8 (cpu : Cpu) (b1 b2 : Nat) (m : Mem) :
    Cpu.execute_instruction cpu ⟨0xB8, b1, b2⟩ m =
      (let t := cpu.subtract cpu.a cpu.b false
       ({ t.1 with f := setF t.1.f CARRY t.2.2 }, m, 4)) := rfl

/-- Evaluation of the execute_instruction dispatch at opcode 0xB9. -/
theorem exeB9 (cpu : Cpu) (b1 b2 : Nat) (m : Mem) :
    Cpu.execute_instruction cpu ⟨0xB9, b1, b2⟩ m =
      (let t := cpu.subtract cpu.a cpu.c false
       ({ t.1 with f := setF t.1.f CARRY t.2.2 }, m, 4)) := rfl

/-- Evaluation of the execute_instruction dispatch at opcode 0xBA. -/
theorem exeBA (cpu : Cpu) (b1 b2 : Nat) (m : Mem) :
    Cpu.execute_instruction cpu ⟨0xBA, b1, b2⟩ m =
      (let t := cpu.subtract cpu.a cpu.d false
       ({ t.1 with f := setF t.1.f CARRY t.2.2 }, m, 4)) := rfl

/-- Evaluation of the execute_instruction dispatch at opcode 0xBB. -/
theorem exeBB (cpu : Cpu) (b1 b2 : Nat) (m : Mem) :
    Cpu.execute_instruction cpu ⟨0xBB, b1, b2⟩ m =
      (let t := cpu.subtract cpu.a cpu.e false
       ({ t.1 with f := setF t.1.f CARRY t.2.2 }, m, 4)) := rfl

/-- Evaluation of the execute_instruction dispatch at opcode 0xBC. -/
theorem exeBC (cpu : Cpu) (b1 b2 : Nat) (m : Mem) :
    Cpu.execute_instruction cpu ⟨0xBC, b1, b2⟩ m =
      (let t := cpu.subtract cpu.a cpu.h false
       ({ t.1 with f := setF t.1.f CARRY t.2.2 }, m, 4)) := rfl

/-- Evaluation of the execute_instruction dispatch at opcode 0xBD. -/
theorem exeBD (cpu : Cpu) (b1 b2 : Nat) (m : Mem) :
    Cpu.execute_instruction cpu ⟨0xBD, b1, b2⟩ m =
      (let t := cpu.subtract cpu.a cpu.l false
       ({ t.1 with f := setF t.1.f CARRY t.2.2 }, m, 4)) := rfl

/-- Evaluation of the execute_instruction dispatch at opcode 0xBE. -/
theorem exeBE (cpu : Cpu) (b1 b2 : Nat) (m : Mem) :
    Cpu.execute_instruction cpu ⟨0xBE, b1, b2⟩ m =
      (let address := fromLeBytes cpu.l cpu.h
       let t := cpu.subtract cpu.a (mread m address) false
       ({ t.1 with f := setF t.1.f CARRY t.2.2 }, m, 7)) := rfl

/-- Evaluation of the execute_instruction dispatch at opcode 0xBF. -/
theorem exeBF (cpu : Cpu) (b1 b2 : Nat) (m : Mem) :
    Cpu.execute_instruction cpu ⟨0xBF, b1, b2⟩ m =
      (let t := cpu.subtract cpu.a cpu.a false
       ({ t.1 with f := setF t.1.f CARRY t.2.2 }, m, 4)) := rfl

/-- Evaluation of the execute_instruction dispatch at opcode 0xC0. -/
theorem exeC0 (cpu : Cpu) (b1 b2 : Nat) (m : Mem) :
    Cpu.execute_instruction cpu ⟨0xC0, b1, b2⟩ m =
      if !(containsF cpu.f ZERO) then (cpu.ret m, m, 11) else (cpu, m, 5) := rfl

/-- Evaluation of the execute_instruction dispatch at opcode 0xC1. -/
theorem exeC1 (cpu : Cpu) (b1 b2 : Nat) (m : Mem) :
    Cpu.execute_instruction cpu ⟨0xC1, b1, b2⟩ m =
      (let c1 := mread m cpu.sp
       let b1 := mread m (wrap16 (cpu.sp + 1))
       ({ cpu with c := c1, b := b1, sp := wrap16 (cpu.sp + 2) }, m, 10)) := rfl

/-- Evaluation of the execute_instruction dispatch at opcode 0xC2. -/
theorem exeC2 (cpu : Cpu) (b1 b2 : Nat) (m : Mem) :
    Cpu.execute_instruction cpu ⟨0xC2, b1, b2⟩ m =
      (if !(containsF cpu.f ZERO) then ({ cpu with pc := fromLeBytes b1 b2 }, m, 10)
       else (cpu, m, 10)) := rfl

/-- Evaluation of the execute_instruction dispatch at opcode 0xC3. -/
theorem exeC3 (cpu : Cpu) (b1 b2 : Nat) (m : Mem) :
    Cpu.execute_instruction cpu ⟨0xC3, b1, b2⟩ m =
      ({ cpu with pc := fromLeBytes b1 b2 }, m, 10) := rfl

/-- Evaluation of the execute_instruction dispatch at opcode 0xC4. -/
theorem exeC4 (cpu : Cpu) (b1 b2 : Nat) (m : Mem) :
    Cpu.execute_instruction cpu ⟨0xC4, b1, b2⟩ m =
      (if !(containsF cpu.f ZERO) then
         let t := cpu.call (Instruction.mk 0xC4 b1 b2) m
         (t.1, t.2, 17)
       else (cpu, m, 11)) := rfl

/-- Evaluation of the execute_instruction dispatch at opcode 0xC5. -/
theorem exeC5 (cpu : Cpu) (b1 b2 : Nat) (m : Mem) :
    Cpu.execute_instruction cpu ⟨0xC5, b1, b2⟩ m =
      (let m1 := mwrite m (wrap16 (cpu.sp + 65535)) cpu.b
       let m2 := mwrite m1 (wrap16 (cpu.sp + 65534)) cpu.c
       ({ cpu with sp := wrap16 (cpu.sp + 65534) }, m2, 11)) := rfl

/-- Evaluation of the execute_instruction dispatch at opcode 0xC6. -/
theorem exeC6 (cpu : Cpu) (b1 b2 : Nat) (m : Mem) :
    Cpu.execute_instruction cpu ⟨0xC6, b1, b2⟩ m =
      (let t := cpu.add cpu.a b1 false
       ({ t.1 with f := setF t.1.f CARRY t.2.2, a := t.2.1 }, m, 7)) := rfl

/-- Evaluation of the execute_instruction dispatch at opcode 0xC7. -/
theorem exeC7 (cpu : Cpu) (b1 b2 : Nat) (m : Mem) :
    Cpu.execute_instruction cpu ⟨0xC7, b1, b2⟩ m =
      (let t := cpu.restart 0xC7 m
       (t.1, t.2, 11)) := rfl

/-- Evaluation of the execute_instruction dispatch at opcode 0xC8. -/
theorem exeC8 (cpu : Cpu) (b1 b2 : Nat) (m : Mem) :
    Cpu.execute_instruction cpu ⟨0xC8, b1, b2⟩ m =
      if containsF cpu.f ZERO then (cpu.ret m, m, 11) else (cpu, m, 5) := rfl

/-- Evaluation of the execute_instruction dispatch at opcode 0xC9. -/
theorem exeC9 (cpu : Cpu) (b1 b2 : Nat) (m : Mem) :
    Cpu.execute_instruction cpu ⟨0xC9, b1, b2⟩ m =
      (cpu.ret m, m, 10) := rfl

/-- Evaluation of the execute_instruction dispatch at opcode 0xCA. -/
theorem exeCA (cpu : Cpu) (b1 b2 : Nat) (m : Mem) :
    Cpu.execute_instruction cpu ⟨0xCA, b1, b2⟩ m =
      (if containsF cpu.f ZERO then ({ cpu with pc := fromLeBytes b1 b2 }, m, 10)
       else (cpu, m, 10)) := rfl

/-- Evaluation of the execute_instruction dispatch at opcode 0xCB. -/
theorem exeCB (cpu : Cpu) (b1 b2 : Nat) (m : Mem) :
    Cpu.execute_instruction cpu ⟨0xCB, b1, b2⟩ m =
      ({ cpu with pc := fromLeBytes b1 b2 }, m, 10) := rfl

/-- Evaluation of the execute_instruction dispatch at opcode 0xCC. -/
theorem exeCC (cpu : Cpu) (b1 b2 : Nat) (m : Mem) :
    Cpu.execute_instruction cpu ⟨0xCC, b1, b2⟩ m =
      (if containsF cpu.f ZERO then
         let t := cpu.call (Instruction.mk 0xCC b1 b2) m
         (t.1, t.2, 17)
       else (cpu, m, 11)) := rfl

/-- Evaluation of the execute_instruction dispatch at opcode 0xCD. -/
theorem exeCD (cpu : Cpu) (b1 b2 : Nat) (m : Mem) :
    Cpu.execute_instruction cpu ⟨0xCD, b1, b2⟩ m =
      (let t := cpu.call (Instruction.mk 0xCD b1 b2) m
       (t.1, t.2, 17)) := rfl

/-- Evaluation of the execute_instruction dispatch at opcode 0xCE. -/
theorem exeCE (cpu : Cpu) (b1 b2 : Nat) (m : Mem) :
    Cpu.execute_instruction cpu ⟨0xCE, b1, b2⟩ m =
      (let carry_in := containsF cpu.f CARRY
       let t := cpu.add cpu.a b1 carry_in
       ({ t.1 with f := setF t.1.f CARRY t.2.2, a := t.2.1 }, m, 7)) := rfl

/-- Evaluation of the execute_instruction dispatch at opcode 0xCF. -/
theorem exeCF (cpu : Cpu) (b1 b2 : Nat) (m : Mem) :
    Cpu.execute_instruction cpu ⟨0xCF, b1, b2⟩ m =
      (let t := cpu.restart 0xCF m
       (t.1, t.2, 11)) := rfl

/-- Evaluation of the execute_instruction dispatch at opcode 0xD0. -/
theorem exeD0 (cpu : Cpu) (b1 b2 : Nat) (m : Mem) :
    Cpu.execute_instruction cpu ⟨0xD0, b1, b2⟩ m =
      if !(containsF cpu.f CARRY) then (cpu.ret m, m, 11) else (cpu, m, 5) := rfl

/-- Evaluation of the execute_instruction dispatch at opcode 0xD1. -/
theorem exeD1 (cpu : Cpu) (b1 b2 : Nat) (m : Mem) :
    Cpu.execute_instruction cpu ⟨0xD1, b1, b2⟩ m =
      (let e1 := mread m cpu.sp
       let d1 := mread m (wrap16 (cpu.sp + 1))
       ({ cpu with e := e1, d := d1, sp := wrap16 (cpu.sp + 2) }, m, 10)) := rfl

/-- Evaluation of the execute_instruction dispatch at opcode 0xD2. -/
theorem exeD2 (cpu : Cpu) (b1 b2 : Nat) (m : Mem) :
    Cpu.execute_instruction cpu ⟨0xD2, b1, b2⟩ m =
      (if !(containsF cpu.f CARRY) then ({ cpu with pc := fromLeBytes b1 b2 }, m, 10)
       else (cpu, m, 10)) := rfl

/-- Evaluation of the execute_instruction dispatch at opcode 0xD3. -/
theorem exeD3 (cpu : Cpu) (b1 b2 : Nat) (m : Mem) :
    Cpu.execute_instruction cpu ⟨0xD3, b1, b2⟩ m =
      (cpu, m, 10) := rfl

/-- Evaluation of the execute_instruction dispatch at opcode 0xD4. -/
theorem exeD4 (cpu : Cpu) (b1 b2 : Nat) (m : Mem) :
    Cpu.execute_instruction cpu ⟨0xD4, b1, b2⟩ m =
      (if !(containsF cpu.f CARRY) then
         let t := cpu.call (Instruction.mk 0xD4 b1 b2) m
         (t.1, t.2, 17)
       else (cpu, m, 11)) := rfl

/-- Evaluation of the execute_instruction dispatch at opcode 0xD5. -/
theorem exeD5 (cpu : Cpu) (b1 b2 : Nat) (m : Mem) :
    Cpu.execute_instruction cpu ⟨0xD5, b1, b2⟩ m =
      (let m1 := mwrite m (wrap16 (cpu.sp + 65535)) cpu.d
       let m2 := mwrite m1 (wrap16 (cpu.sp + 65534)) cpu.e
       ({ cpu with sp := wrap16 (cpu.sp + 65534) }, m2, 11)) := rfl

/-- Evaluation of the execute_instruction dispatch at opcode 0xD6. -/
theorem exeD6 (cpu : Cpu) (b1 b2 : Nat) (m : Mem) :
    Cpu.execute_instruction cpu ⟨0xD6, b1, b2⟩ m =
      (let t := cpu.subtract cpu.a b1 false
       ({ t.1 with f := setF t.1.f CARRY t.2.2, a := t.2.1 }, m, 7)) := rfl

/-- Evaluation of the execute_instruction dispatch at opcode 0xD7. -/
theorem exeD7 (cpu : Cpu) (b1 b2 : Nat) (m : Mem) :
    Cpu.execute_instruction cpu ⟨0xD7, b1, b2⟩ m =
      (let t := cpu.restart 0xD7 m
       (t.1, t.2, 11)) := rfl

/-- Evaluation of the execute_instruction dispatch at opcode 0xD8. -/
theorem exeD8 (cpu : Cpu) (b1 b2 : Nat) (m : Mem) :
    Cpu.execute_instruction cpu ⟨0xD8, b1, b2⟩ m =
      if containsF cpu.f CARRY then (cpu.ret m, m, 11) else (cpu, m, 5) := rfl

/-- Evaluation of the execute_instruction dispatch at opcode 0xD9. -/
theorem exeD9 (cpu : Cpu) (b1 b2 : Nat) (m : Mem) :
    Cpu.execute_instruction cpu ⟨0xD9, b1, b2⟩ m =
      (cpu.ret m, m, 10) := rfl

/-- Evaluation of the execute_instruction dispatch at opcode 0xDA. -/
theorem exeDA (cpu : Cpu) (b1 b2 : Nat) (m : Mem) :
    Cpu.execute_instruction cpu ⟨0xDA, b1, b2⟩ m =
      (if containsF cpu.f CARRY then ({ cpu with pc := fromLeBytes b1 b2 }, m, 10)
       else (cpu, m, 10)) := rfl

/-- Evaluation of the execute_instruction dispatch at opcode 0xDB. -/
theorem exeDB (cpu : Cpu) (b1 b2 : Nat) (m : Mem) :
    Cpu.execute_instruction cpu ⟨0xDB, b1, b2⟩ m =
      (cpu, m, 10) := rfl

/-- Evaluation of the execute_instruction dispatch at opcode 0xDC. -/
theorem exeDC (cpu : Cpu) (b1 b2 : Nat) (m : Mem) :
    Cpu.execute_instruction cpu ⟨0xDC, b1, b2⟩ m =
      (if containsF cpu.f CARRY then
         let t := cpu.call (Instruction.mk 0xDC b1 b2) m
         (t.1, t.2, 17)
       else (cpu, m, 11)) := rfl

/-- Evaluation of the execute_instruction dispatch at opcode 0xDD. -/
theorem exeDD (cpu : Cpu) (b1 b2 : Nat) (m : Mem) :
    Cpu.execute_instruction cpu ⟨0xDD, b1, b2⟩ m =
      (let t := cpu.call (Instruction.mk 0xDD b1 b2) m
       (t.1, t.2, 17)) := rfl

/-- Evaluation of the execute_instruction dispatch at opcode 0xDE. -/
theorem exeDE (cpu : Cpu) (b1 b2 : Nat) (m : Mem) :
    Cpu.execute_instruction cpu ⟨0xDE, b1, b2⟩ m =
      (let borrow_in := containsF cpu.f CARRY
       let t := cpu.subtract cpu.a b1 borrow_in
       ({ t.1 with f := setF t.1.f CARRY t.2.2, a := t.2.1 }, m, 7)) := rfl

/-- Evaluation of the execute_instruction dispatch at opcode 0xDF. -/
theorem exeDF (cpu : Cpu) (b1 b2 : Nat) (m : Mem) :
    Cpu.execute_instruction cpu ⟨0xDF, b1, b2⟩ m =
      (let t := cpu.restart 0xDF m
       (t.1, t.2, 11)) := rfl

/-- Evaluation of the execute_instruction dispatch at opcode 0xE0. -/
theorem exeE0 (cpu : Cpu) (b1 b2 : Nat) (m : Mem) :
    Cpu.execute_instruction cpu ⟨0xE0, b1, b2⟩ m =
      if !(containsF cpu.f PARITY) then (cpu.ret m, m, 11) else (cpu, m, 5) := rfl

/-- Evaluation of the execute_instruction dispatch at opcode 0xE1. -/
theorem exeE1 (cpu : Cpu) (b1 b2 : Nat) (m : Mem) :
    Cpu.execute_instruction cpu ⟨0xE1, b1, b2⟩ m =
      (let l1 := mread m cpu.sp
       let h1 := mread m (wrap16 (cpu.sp + 1))
       ({ cpu with l := l1, h := h1, sp := wrap16 (cpu.sp + 2) }, m, 10)) := rfl

/-- Evaluation of the execute_instruction dispatch at opcode 0xE2. -/
theorem exeE2 (cpu : Cpu) (b1 b2 : Nat) (m : Mem) :
    Cpu.execute_instruction cpu ⟨0xE2, b1, b2⟩ m =
      (if !(containsF cpu.f PARITY) then ({ cpu with pc := fromLeBytes b1 b2 }, m, 10)
       else (cpu, m, 10)) := rfl

/-- Evaluation of the execute_instruction dispatch at opcode 0xE3. -/
theorem exeE3 (cpu : Cpu) (b1 b2 : Nat) (m : Mem) :
    Cpu.execute_instruction cpu ⟨0xE3, b1, b2⟩ m =
      (let l0 := cpu.l
       let ml := mread m cpu.sp
       let m1 := mwrite m cpu.sp l0
       let cpu1 := { cpu with l := ml }
       let addr2 := wrap16 (cpu.sp + 1)
       let mh := mread m1 addr2
       let m2 := mwrite m1 addr2 cpu1.h
       ({ cpu1 with h := mh }, m2, 18)) := rfl

/-- Evaluation of the execute_instruction dispatch at opcode 0xE4. -/
theorem exeE4 (cpu : Cpu) (b1 b2 : Nat) (m : Mem) :
    Cpu.execute_instruction cpu ⟨0xE4, b1, b2⟩ m =
      (if !(containsF cpu.f PARITY) then
         let t := cpu.call (Instruction.mk 0xE4 b1 b2) m
         (t.1, t.2, 17)
       else (cpu, m, 11)) := rfl

/-- Evaluation of the execute_instruction dispatch at opcode 0xE5. -/
theorem exeE5 (cpu : Cpu) (b1 b2 : Nat) (m : Mem) :
    Cpu.execute_instruction cpu ⟨0xE5, b1, b2⟩ m =
      (let m1 := mwrite m (wrap16 (cpu.sp + 65535)) cpu.h
       let m2 := mwrite m1 (wrap16 (cpu.sp + 65534)) cpu.l
       ({ cpu with sp := wrap16 (cpu.sp + 65534) }, m2, 11)) := rfl

/-- Evaluation of the execute_instruction dispatch at opcode 0xE6. -/
theorem exeE6 (cpu : Cpu) (b1 b2 : Nat) (m : Mem) :
    Cpu.execute_instruction cpu ⟨0xE6, b1, b2⟩ m =
      (cpu.logical_and b1, m, 7) := rfl

/-- Evaluation of the execute_instruction dispatch at opcode 0xE7. -/
theorem exeE7 (cpu : Cpu) (b1 b2 : Nat) (m : Mem) :
    Cpu.execute_instruction cpu ⟨0xE7, b1, b2⟩ m =
      (let t := cpu.restart 0xE7 m
       (t.1, t.2, 11)) := rfl

/-- Evaluation of the execute_instruction dispatch at opcode 0xE8. -/
theorem exeE8 (cpu : Cpu) (b1 b2 : Nat) (m : Mem) :
    Cpu.execute_instruction cpu ⟨0xE8, b1, b2⟩ m =
      if containsF cpu.f PARITY then (cpu.ret m, m, 11) else (cpu, m, 5) := rfl

/-- Evaluation of the execute_instruction dispatch at opcode 0xE9. -/
theorem exeE9 (cpu : Cpu) (b1 b2 : Nat) (m : Mem) :
    Cpu.execute_instruction cpu ⟨0xE9, b1, b2⟩ m =
      ({ cpu with pc := fromLeBytes cpu.l cpu.h }, m, 5) := rfl

/-- Evaluation of the execute_instruction dispatch at opcode 0xEA. -/
theorem exeEA (cpu : Cpu) (b1 b2 : Nat) (m : Mem) :
    Cpu.execute_instruction cpu ⟨0xEA, b1, b2⟩ m =
      (if containsF cpu.f PARITY then ({ cpu with pc := fromLeBytes b1 b2 }, m, 10)
       else (cpu, m, 10)) := rfl

/-- Evaluation of the execute_instruction dispatch at opcode 0xEB. -/
theorem exeEB (cpu : Cpu) (b1 b2 : Nat) (m : Mem) :
    Cpu.execute_instruction cpu ⟨0xEB, b1, b2⟩ m =
      ({ cpu with h := cpu.d, d := cpu.h, l := cpu.e, e := cpu.l }, m, 4) := rfl

/-- Evaluation of the execute_instruction dispatch at opcode 0xEC. -/
theorem exeEC (cpu : Cpu) (b1 b2 : Nat) (m : Mem) :
    Cpu.execute_instruction cpu ⟨0xEC, b1, b2⟩ m =
      (if containsF cpu.f PARITY then
         let t := cpu.call (Instruction.mk 0xEC b1 b2) m
         (t.1, t.2, 17)
       else (cpu, m, 11)) := rfl

/-- Evaluation of the execute_instruction dispatch at opcode 0xED. -/
theorem exeED (cpu : Cpu) (b1 b2 : Nat) (m : Mem) :
    Cpu.execute_instruction cpu ⟨0xED, b1, b2⟩ m =
      (let t := cpu.call (Instruction.mk 0xED b1 b2) m
       (t.1, t.2, 17)) := rfl

/-- Evaluation of the execute_instruction dispatch at opcode 0xEE. -/
theorem exeEE (cpu : Cpu) (b1 b2 : Nat) (m : Mem) :
    Cpu.execute_instruction cpu ⟨0xEE, b1, b2⟩ m =
      (cpu.logical_xor b1, m, 7) := rfl

/-- Evaluation of the execute_instruction dispatch at opcode 0xEF. -/
theorem exeEF (cpu : Cpu) (b1 b2 : Nat) (m : Mem) :
    Cpu.execute_instruction cpu ⟨0xEF, b1, b2⟩ m =
      (let t := cpu.restart 0xEF m
       (t.1, t.2, 11)) := rfl

/-- Evaluation of the execute_instruction dispatch at opcode 0xF0. -/
theorem exeF0 (cpu : Cpu) (b1 b2 : Nat) (m : Mem) :
    Cpu.execute_instruction cpu ⟨0xF0, b1, b2⟩ m =
      if !(containsF cpu.f SIGN) then (cpu.ret m, m, 11) else (cpu, m, 5) := rfl

/-- Evaluation of the execute_instruction dispatch at opcode 0xF1. -/
theorem exeF1 (cpu : Cpu) (b1 b2 : Nat) (m : Mem) :
    Cpu.execute_instruction cpu ⟨0xF1, b1, b2⟩ m =
      (let f1 := fromBitsTruncate (mread m cpu.sp ||| ALWAYS_ONE)
       let a1 := mread m (wrap16 (cpu.sp + 1))
       ({ cpu with f := f1, a := a1, sp := wrap16 (cpu.sp + 2) }, m, 10)) := rfl

/-- Evaluation of the execute_instruction dispatch at opcode 0xF2. -/
theorem exeF2 (cpu : Cpu) (b1 b2 : Nat) (m : Mem) :
    Cpu.execute_instruction cpu ⟨0xF2, b1, b2⟩ m =
      (if !(containsF cpu.f SIGN) then ({ cpu with pc := fromLeBytes b1 b2 }, m, 10)
       else (cpu, m, 10)) := rfl

/-- Evaluation of the execute_instruction dispatch at opcode 0xF3. -/
theorem exeF3 (cpu : Cpu) (b1 b2 : Nat) (m : Mem) :
    Cpu.execute_instruction cpu ⟨0xF3, b1, b2⟩ m =
      ({ cpu with interruptable := .disabled }, m, 4) := rfl

/-- Evaluation of the execute_instruction dispatch at opcode 0xF4. -/
theorem exeF4 (cpu : Cpu) (b1 b2 : Nat) (m : Mem) :
    Cpu.execute_instruction cpu ⟨0xF4, b1, b2⟩ m =
      (if !(containsF cpu.f SIGN) then
         let t := cpu.call (Instruction.mk 0xF4 b1 b2) m
         (t.1, t.2, 17)
       else (cpu, m, 11)) := rfl

/-- Evaluation of the execute_instruction dispatch at opcode 0xF5. -/
theorem exeF5 (cpu : Cpu) (b1 b2 : Nat) (m : Mem) :
    Cpu.execute_instruction cpu ⟨0xF5, b1, b2⟩ m =
      (let m1 := mwrite m (wrap16 (cpu.sp + 65535)) cpu.a
       let m2 := mwrite m1 (wrap16 (cpu.sp + 65534)) cpu.f
       ({ cpu with sp := wrap16 (cpu.sp + 65534) }, m2, 11)) := rfl

/-- Evaluation of the execute_instruction dispatch at opcode 0xF6. -/
theorem exeF6 (cpu : Cpu) (b1 b2 : Nat) (m : Mem) :
    Cpu.execute_instruction cpu ⟨0xF6, b1, b2⟩ m =
      (cpu.logical_or b1, m, 7) := rfl

/-- Evaluation of the execute_instruction dispatch at opcode 0xF7. -/
theorem exeF7 (cpu : Cpu) (b1 b2 : Nat) (m : Mem) :
    Cpu.execute_instruction cpu ⟨0xF7, b1, b2⟩ m =
      (let t := cpu.restart 0xF7 m
       (t.1, t.2, 11)) := rfl

/-- Evaluation of the execute_instruction dispatch at opcode 0xF8. -/
theorem exeF8 (cpu : Cpu) (b1 b2 : Nat) (m : Mem) :
    Cpu.execute_instruction cpu ⟨0xF8, b1, b2⟩ m =
      if containsF cpu.f SIGN then (cpu.ret m, m, 11) else (cpu, m, 5) := rfl

/-- Evaluation of the execute_instruction dispatch at opcode 0xF9. -/
theorem exeF9 (cpu : Cpu) (b1 b2 : Nat) (m : Mem) :
    Cpu.execute_instruction cpu ⟨0xF9, b1, b2⟩ m =
      ({ cpu with sp := fromLeBytes cpu.l cpu.h }, m, 5) := rfl

/-- Evaluation of the execute_instruction dispatch at opcode 0xFA. -/
theorem exeFA (cpu : Cpu) (b1 b2 : Nat) (m : Mem) :
    Cpu.execute_instruction cpu ⟨0xFA, b1, b2⟩ m =
      (if containsF cpu.f SIGN then ({ cpu with pc := fromLeBytes b1 b2 }, m, 10)
       else (cpu, m, 10)) := rfl

/-- Evaluation of the execute_instruction dispatch at opcode 0xFB. -/
theorem exeFB (cpu : Cpu) (b1 b2 : Nat) (m : Mem) :
    Cpu.execute_instruction cpu ⟨0xFB, b1, b2⟩ m =
      (let cpu1 := match cpu.interruptable with
         | .disabled => { cpu with interruptable := .enabling }
         | _ => cpu
       (cpu1, m, 4)) := rfl

/-- Evaluation of the execute_instruction dispatch at opcode 0xFC. -/
theorem exeFC (cpu : Cpu) (b1 b2 : Nat) (m : Mem) :
    Cpu.execute_instruction cpu ⟨0xFC, b1, b2⟩ m =
      (if containsF cpu.f SIGN then
         let t := cpu.call (Instruction.mk 0xFC b1 b2) m
         (t.1, t.2, 17)
       else (cpu, m, 11)) := rfl

/-- Evaluation of the execute_instruction dispatch at opcode 0xFD. -/
theorem exeFD (cpu : Cpu) (b1 b2 : Nat) (m : Mem) :
    Cpu.execute_instruction cpu ⟨0xFD, b1, b2⟩ m =
      (let t := cpu.call (Instruction.mk 0xFD b1 b2) m
       (t.1, t.2, 17)) := rfl

/-- Evaluation of the execute_instruction dispatch at opcode 0xFE. -/
theorem exeFE (cpu : Cpu) (b1 b2 : Nat) (m : Mem) :
    Cpu.execute_instruction cpu ⟨0xFE, b1, b2⟩ m =
      (let t := cpu.subtract cpu.a b1 false
       ({ t.1 with f := setF t.1.f CARRY t.2.2 }, m, 7)) := rfl

/-- Evaluation of the execute_instruction dispatch at opcode 0xFF. -/
theorem exeFF (cpu : Cpu) (b1 b2 : Nat) (m : Mem) :
    Cpu.execute_instruction cpu ⟨0xFF, b1, b2⟩ m =
      (let t := cpu.restart 0xFF m
       (t.1, t.2, 11)) := rfl

set_option maxRecDepth 8000

theorem flagsInv_setF (f : Nat) (b : Bool) (flag : Nat)
    (hflag : flag = 0x01 ∨ flag = 0x04 ∨ flag = 0x10 ∨ flag = 0x40 ∨ flag = 0x80)
    (hf : FlagsInv f) : FlagsInv (setF f flag b) := by
  obtain ⟨h1, h2⟩ := hf
  rcases hflag with rfl | rfl | rfl | rfl | rfl <;> cases b <;>
    revert h2 <;> revert h1 <;> revert f <;> decide

theorem flagsInv_update_pzs (cpu : Cpu) (r : Nat) (hf : FlagsInv cpu.f) :
    FlagsInv (cpu.update_parity_zero_sign_flags r).f := by
  unfold Cpu.update_parity_zero_sign_flags
  exact flagsInv_setF _ _ _ (by decide) (flagsInv_setF _ _ _ (by decide)
    (flagsInv_setF _ _ _ (by decide) hf))

theorem flagsInv_add (cpu : Cpu) (x y : Nat) (ci : Bool) (hf : FlagsInv cpu.f) :
    FlagsInv (cpu.add x y ci).1.f := by
  unfold Cpu.add
  exact flagsInv_update_pzs _ _ (flagsInv_setF _ _ _ (by decide) hf)

theorem flagsInv_subtract (cpu : Cpu) (x y : Nat) (bi : Bool) (hf : FlagsInv cpu.f) :
    FlagsInv (cpu.subtract x y bi).1.f := by
  unfold Cpu.subtract
  exact flagsInv_add _ _ _ _ hf

theorem flagsInv_removeF (f : Nat) (flag : Nat)
    (hflag : flag = 0x01 ∨ flag = 0x04 ∨ flag = 0x10 ∨ flag = 0x40 ∨ flag = 0x80)
    (hf : FlagsInv f) : FlagsInv (removeF f flag) := by
  obtain ⟨h1, h2⟩ := hf
  rcases hflag with rfl | rfl | rfl | rfl | rfl <;>
    revert h2 <;> revert h1 <;> revert f <;> decide

theorem flagsInv_insertF (f : Nat) (flag : Nat)
    (hflag : flag = 0x01 ∨ flag = 0x04 ∨ flag = 0x10 ∨ flag = 0x40 ∨ flag = 0x80)
    (hf : FlagsInv f) : FlagsInv (insertF f flag) := by
  obtain ⟨h1, h2⟩ := hf
  rcases hflag with rfl | rfl | rfl | rfl | rfl <;>
    revert h2 <;> revert h1 <;> revert f <;> decide

theorem flagsInv_toggleF (f : Nat) (hf : FlagsInv f) : FlagsInv (toggleF f 0x01) := by
  obtain ⟨h1, h2⟩ := hf
  revert h2; revert h1; revert f; decide

theorem flagsInv_and (cpu : Cpu) (y : Nat) (hf : FlagsInv cpu.f) :
    FlagsInv (cpu.logical_and y).f := by
  unfold Cpu.logical_and
  exact flagsInv_update_pzs _ _ (flagsInv_setF _ _ _ (by decide)
    (flagsInv_removeF _ _ (by decide) hf))

theorem flagsInv_or (cpu : Cpu) (y : Nat) (hf : FlagsInv cpu.f) :
    FlagsInv (cpu.logical_or y).f := by
  unfold Cpu.logical_or
  exact flagsInv_update_pzs _ _ (flagsInv_removeF _ _ (by decide)
    (flagsInv_removeF _ _ (by decide) hf))

theorem flagsInv_xor (cpu : Cpu) (y : Nat) (hf : FlagsInv cpu.f) :
    FlagsInv (cpu.logical_xor y).f := by
  unfold Cpu.logical_xor
  exact flagsInv_update_pzs _ _ (flagsInv_removeF _ _ (by decide)
    (flagsInv_removeF _ _ (by decide) hf))

theorem flagsInv_popPsw (x : Nat) (hx : x < 256) :
    FlagsInv (fromBitsTruncate (x ||| ALWAYS_ONE)) := by
  revert hx; revert x; decide

set_option maxHeartbeats 1000000 in
/-- Opcodes 0x00..0x10 of the execute dispatch preserve the flags-byte
invariant, given that the byte read by POP PSW is a byte. -/
theorem execute_flagsInv_row0 (cpu : Cpu) (b1 b2 : Nat) (m : Mem) (b0 : Nat)
    (hhi : b0 < 0x10) (hsp : mread m cpu.sp < 256) (hf : FlagsInv cpu.f) :
    FlagsInv (cpu.execute_instruction ⟨b0, b1, b2⟩ m).1.f := by
  interval_cases b0
  · rw [exe00]; exact hf
  · rw [exe01]; exact hf
  · rw [exe02]; exact hf
  · rw [exe03]; exact hf
  · rw [exe04]; exact flagsInv_add _ _ _ _ hf
  · rw [exe05]; exact flagsInv_subtract _ _ _ _ hf
  · rw [exe06]; exact hf
  · rw [exe07]; exact flagsInv_setF _ _ 0x01 (by decide) hf
  · rw [exe08]; exact hf
  · rw [exe09]; exact flagsInv_setF _ _ 0x01 (by decide) hf
  · rw [exe0A]; exact hf
  · rw [exe0B]; exact hf
  · rw [exe0C]; exact flagsInv_add _ _ _ _ hf
  · rw [exe0D]; exact flagsInv_subtract _ _ _ _ hf
  · rw [exe0E]; exact hf
  · rw [exe0F]; exact flagsInv_setF _ _ 0x01 (by decide) hf

set_option maxHeartbeats 1000000 in
/-- Opcodes 0x10..0x20 of the execute dispatch preserve the flags-byte
invariant, given that the byte read by POP PSW is a byte. -/
theorem execute_flagsInv_row1 (cpu : Cpu) (b1 b2 : Nat) (m : Mem) (b0 : Nat)
    (hlo : 0x10 ≤ b0) (hhi : b0 < 0x20) (hsp : mread m cpu.sp < 256) (hf : FlagsInv cpu.f) :
    FlagsInv (cpu.execute_instruction ⟨b0, b1, b2⟩ m).1.f := by
  interval_cases b0
  · rw [exe10]; exact hf
  · rw [exe11]; exact hf
  · rw [exe12]; exact hf
  · rw [exe13]; exact hf
  · rw [exe14]; exact flagsInv_add _ _ _ _ hf
  · rw [exe15]; exact flagsInv_subtract _ _ _ _ hf
  · rw [exe16]; exact hf
  · rw [exe17]; exact flagsInv_setF _ _ 0x01 (by decide) hf
  · rw [exe18]; exact hf
  · rw [exe19]; exact flagsInv_setF _ _ 0x01 (by decide) hf
  · rw [exe1A]; exact hf
  · rw [exe1B]; exact hf
  · rw [exe1C]; exact flagsInv_add _ _ _ _ hf
  · rw [exe1D]; exact flagsInv_subtract _ _ _ _ hf
  · rw [exe1E]; exact hf
  · rw [exe1F]; exact flagsInv_setF _ _ 0x01 (by decide) hf

set_option maxHeartbeats 1000000 in
/-- Opcodes 0x20..0x30 of the execute dispatch preserve the flags-byte
invariant, given that the byte read by POP PSW is a byte. -/
theorem execute_flagsInv_row2 (cpu : Cpu) (b1 b2 : Nat) (m : Mem) (b0 : Nat)
    (hlo : 0x20 ≤ b0) (hhi : b0 < 0x30) (hsp : mread m cpu.sp < 256) (hf : FlagsInv cpu.f) :
    FlagsInv (cpu.execute_instruction ⟨b0, b1, b2⟩ m).1.f := by
  interval_cases b0
  · rw [exe20]; exact hf
  · rw [exe21]; exact hf
  · rw [exe22]; exact hf
  · rw [exe23]; exact hf
  · rw [exe24]; exact flagsInv_add _ _ _ _ hf
  · rw [exe25]; exact flagsInv_subtract _ _ _ _ hf
  · rw [exe26]; exact hf
  · rw [exe27]
    apply flagsInv_update_pzs
    repeat' (first | split | (dsimp only; split))
    all_goals
      first
        | exact hf
        | exact flagsInv_insertF _ 0x01 (by decide) hf
        | exact flagsInv_setF _ _ 0x10 (by decide) hf
        | exact flagsInv_setF _ _ 0x10 (by decide) (flagsInv_insertF _ 0x01 (by decide) hf)
        | exact flagsInv_insertF _ 0x01 (by decide) (flagsInv_setF _ _ 0x10 (by decide) hf)
        | exact flagsInv_insertF _ 0x01 (by decide)
            (flagsInv_setF _ _ 0x10 (by decide) (flagsInv_insertF _ 0x01 (by decide) hf))
  · rw [exe28]; exact hf
  · rw [exe29]; exact flagsInv_setF _ _ 0x01 (by decide) hf
  · rw [exe2A]; exact hf
  · rw [exe2B]; exact hf
  · rw [exe2C]; exact flagsInv_add _ _ _ _ hf
  · rw [exe2D]; exact flagsInv_subtract _ _ _ _ hf
  · rw [exe2E]; exact hf
  · rw [exe2F]; exact hf

set_option maxHeartbeats 1000000 in
/-- Opcodes 0x30..0x40 of the execute dispatch preserve the flags-byte
invariant, given that the byte read by POP PSW is a byte. -/
theorem execute_flagsInv_row3 (cpu : Cpu) (b1 b2 : Nat) (m : Mem) (b0 : Nat)
    (hlo : 0x30 ≤ b0) (hhi : b0 < 0x40) (hsp : mread m cpu.sp < 256) (hf : FlagsInv cpu.f) :
    FlagsInv (cpu.execute_instruction ⟨b0, b1, b2⟩ m).1.f := by
  interval_cases b0
  · rw [exe30]; exact hf
  · rw [exe31]; exact hf
  · rw [exe32]; exact hf
  · rw [exe33]; exact hf
  · rw [exe34]; exact flagsInv_add _ _ _ _ hf
  · rw [exe35]; exact flagsInv_subtract _ _ _ _ hf
  · rw [exe36]; exact hf
  · rw [exe37]; exact flagsInv_insertF _ 0x01 (by decide) hf
  · rw [exe38]; exact hf
  · rw [exe39]; exact flagsInv_setF _ _ 0x01 (by decide) hf
  · rw [exe3A]; exact hf
  · rw [exe3B]; exact hf
  · rw [exe3C]; exact flagsInv_add _ _ _ _ hf
  · rw [exe3D]; exact flagsInv_setF _ _ 0x80 (by decide) (flagsInv_subtract _ _ _ _ hf)
  · rw [exe3E]; exact hf
  · rw [exe3F]; exact flagsInv_toggleF _ hf

set_option maxHeartbeats 1000000 in
/-- Opcodes 0x40..0x50 of the execute dispatch preserve the flags-byte
invariant, given that the byte read by POP PSW is a byte. -/
theorem execute_flagsInv_row4 (cpu : Cpu) (b1 b2 : Nat) (m : Mem) (b0 : Nat)
    (hlo : 0x40 ≤ b0) (hhi : b0 < 0x50) (hsp : mread m cpu.sp < 256) (hf : FlagsInv cpu.f) :
    FlagsInv (cpu.execute_instruction ⟨b0, b1, b2⟩ m).1.f := by
  interval_cases b0
  · rw [exe40]; exact hf
  · rw [exe41]; exact hf
  · rw [exe42]; exact hf
  · rw [exe43]; exact hf
  · rw [exe44]; exact hf
  · rw [exe45]; exact hf
  · rw [exe46]; exact hf
  · rw [exe47]; exact hf
  · rw [exe48]; exact hf
  · rw [exe49]; exact hf
  · rw [exe4A]; exact hf
  · rw [exe4B]; exact hf
  · rw [exe4C]; exact hf
  · rw [exe4D]; exact hf
  · rw [exe4E]; exact hf
  · rw [exe4F]; exact hf

set_option maxHeartbeats 1000000 in
/-- Opcodes 0x50..0x60 of the execute dispatch preserve the flags-byte
invariant, given that the byte read by POP PSW is a byte. -/
theorem execute_flagsInv_row5 (cpu : Cpu) (b1 b2 : Nat) (m : Mem) (b0 : Nat)
    (hlo : 0x50 ≤ b0) (hhi : b0 < 0x60) (hsp : mread m cpu.sp < 256) (hf : FlagsInv cpu.f) :
    FlagsInv (cpu.execute_instruction ⟨b0, b1, b2⟩ m).1.f := by
  interval_cases b0
  · rw [exe50]; exact hf
  · rw [exe51]; exact hf
  · rw [exe52]; exact hf
  · rw [exe53]; exact hf
  · rw [exe54]; exact hf
  · rw [exe55]; exact hf
  · rw [exe56]; exact hf
  · rw [exe57]; exact hf
  · rw [exe58]; exact hf
  · rw [exe59]; exact hf
  · rw [exe5A]; exact hf
  · rw [exe5B]; exact hf
  · rw [exe5C]; exact hf
  · rw [exe5D]; exact hf
  · rw [exe5E]; exact hf
  · rw [exe5F]; exact hf

set_option maxHeartbeats 1000000 in
/-- Opcodes 0x60..0x70 of the execute dispatch preserve the flags-byte
invariant, given that the byte read by POP PSW is a byte. -/
theorem execute_flagsInv_row6 (cpu : Cpu) (b1 b2 : Nat) (m : Mem) (b0 : Nat)
    (hlo : 0x60 ≤ b0) (hhi : b0 < 0x70) (hsp : mread m cpu.sp < 256) (hf : FlagsInv cpu.f) :
    FlagsInv (cpu.execute_instruction ⟨b0, b1, b2⟩ m).1.f := by
  interval_cases b0
  · rw [exe60]; exact hf
  · rw [exe61]; exact hf
  · rw [exe62]; exact hf
  · rw [exe63]; exact hf
  · rw [exe64]; exact hf
  · rw [exe65]; exact hf
  · rw [exe66]; exact hf
  · rw [exe67]; exact hf
  · rw [exe68]; exact hf
  · rw [exe69]; exact hf
  · rw [exe6A]; exact hf
  · rw [exe6B]; exact hf
  · rw [exe6C]; exact hf
  · rw [exe6D]; exact hf
  · rw [exe6E]; exact hf
  · rw [exe6F]; exact hf

set_option maxHeartbeats 1000000 in
/-- Opcodes 0x70..0x80 of the execute dispatch preserve the flags-byte
invariant, given that the byte read by POP PSW is a byte. -/
theorem execute_flagsInv_row7 (cpu : Cpu) (b1 b2 : Nat) (m : Mem) (b0 : Nat)
    (hlo : 0x70 ≤ b0) (hhi : b0 < 0x80) (hsp : mread m cpu.sp < 256) (hf : FlagsInv cpu.f) :
    FlagsInv (cpu.execute_instruction ⟨b0, b1, b2⟩ m).1.f := by
  interval_cases b0
  · rw [exe70]; exact hf
  · rw [exe71]; exact hf
  · rw [exe72]; exact hf
  · rw [exe73]; exact hf
  · rw [exe74]; exact hf
  · rw [exe75]; exact hf
  · rw [exe76]; exact hf
  · rw [exe77]; exact hf
  · rw [exe78]; exact hf
  · rw [exe79]; exact hf
  · rw [exe7A]; exact hf
  · rw [exe7B]; exact hf
  · rw [exe7C]; exact hf
  · rw [exe7D]; exact hf
  · rw [exe7E]; exact hf
  · rw [exe7F]; exact hf

set_option maxHeartbeats 1000000 in
/-- Opcodes 0x80..0x90 of the execute dispatch preserve the flags-byte
invariant, given that the byte read by POP PSW is a byte. -/
theorem execute_flagsInv_row8 (cpu : Cpu) (b1 b2 : Nat) (m : Mem) (b0 : Nat)
    (hlo : 0x80 ≤ b0) (hhi : b0 < 0x90) (hsp : mread m cpu.sp < 256) (hf : FlagsInv cpu.f) :
    FlagsInv (cpu.execute_instruction ⟨b0, b1, b2⟩ m).1.f := by
  interval_cases b0
  · rw [exe80]; exact flagsInv_setF _ _ 0x01 (by decide) (flagsInv_add _ _ _ _ hf)
  · rw [exe81]; exact flagsInv_setF _ _ 0x01 (by decide) (flagsInv_add _ _ _ _ hf)
  · rw [exe82]; exact flagsInv_setF _ _ 0x01 (by decide) (flagsInv_add _ _ _ _ hf)
  · rw [exe83]; exact flagsInv_setF _ _ 0x01 (by decide) (flagsInv_add _ _ _ _ hf)
  · rw [exe84]; exact flagsInv_setF _ _ 0x01 (by decide) (flagsInv_add _ _ _ _ hf)
  · rw [exe85]; exact flagsInv_setF _ _ 0x01 (by decide) (flagsInv_add _ _ _ _ hf)
  · rw [exe86]; exact flagsInv_setF _ _ 0x01 (by decide) (flagsInv_add _ _ _ _ hf)
  · rw [exe87]; exact flagsInv_setF _ _ 0x01 (by decide) (flagsInv_add _ _ _ _ hf)
  · rw [exe88]; exact flagsInv_setF _ _ 0x01 (by decide) (flagsInv_add _ _ _ _ hf)
  · rw [exe89]; exact flagsInv_setF _ _ 0x01 (by decide) (flagsInv_add _ _ _ _ hf)
  · rw [exe8A]; exact flagsInv_setF _ _ 0x01 (by decide) (flagsInv_add _ _ _ _ hf)
  · rw [exe8B]; exact flagsInv_setF _ _ 0x01 (by decide) (flagsInv_add _ _ _ _ hf)
  · rw [exe8C]; exact flagsInv_setF _ _ 0x01 (by decide) (flagsInv_add _ _ _ _ hf)
  · rw [exe8D]; exact flagsInv_setF _ _ 0x01 (by decide) (flagsInv_add _ _ _ _ hf)
  · rw [exe8E]; exact flagsInv_setF _ _ 0x01 (by decide) (flagsInv_add _ _ _ _ hf)
  · rw [exe8F]; exact flagsInv_setF _ _ 0x01 (by decide) (flagsInv_add _ _ _ _ hf)

set_option maxHeartbeats 1000000 in
/-- Opcodes 0x90..0xA0 of the execute dispatch preserve the flags-byte
invariant, given that the byte read by POP PSW is a byte. -/
theorem execute_flagsInv_row9 (cpu : Cpu) (b1 b2 : Nat) (m : Mem) (b0 : Nat)
    (hlo : 0x90 ≤ b0) (hhi : b0 < 0xA0) (hsp : mread m cpu.sp < 256) (hf : FlagsInv cpu.f) :
    FlagsInv (cpu.execute_instruction ⟨b0, b1, b2⟩ m).1.f := by
  interval_cases b0
  · rw [exe90]; exact flagsInv_setF _ _ 0x01 (by decide) (flagsInv_subtract _ _ _ _ hf)
  · rw [exe91]; exact flagsInv_setF _ _ 0x01 (by decide) (flagsInv_subtract _ _ _ _ hf)
  · rw [exe92]; exact flagsInv_setF _ _ 0x01 (by decide) (flagsInv_subtract _ _ _ _ hf)
  · rw [exe93]; exact flagsInv_setF _ _ 0x01 (by decide) (flagsInv_subtract _ _ _ _ hf)
  · rw [exe94]; exact flagsInv_setF _ _ 0x01 (by decide) (flagsInv_subtract _ _ _ _ hf)
  · rw [exe95]; exact flagsInv_setF _ _ 0x01 (by decide) (flagsInv_subtract _ _ _ _ hf)
  · rw [exe96]; exact flagsInv_setF _ _ 0x01 (by decide) (flagsInv_subtract _ _ _ _ hf)
  · rw [exe97]; exact flagsInv_setF _ _ 0x01 (by decide) (flagsInv_subtract _ _ _ _ hf)
  · rw [exe98]; exact flagsInv_setF _ _ 0x01 (by decide) (flagsInv_subtract _ _ _ _ hf)
  · rw [exe99]; exact flagsInv_setF _ _ 0x01 (by decide) (flagsInv_subtract _ _ _ _ hf)
  · rw [exe9A]; exact flagsInv_setF _ _ 0x01 (by decide) (flagsInv_subtract _ _ _ _ hf)
  · rw [exe9B]; exact flagsInv_setF _ _ 0x01 (by decide) (flagsInv_subtract _ _ _ _ hf)
  · rw [exe9C]; exact flagsInv_setF _ _ 0x01 (by decide) (flagsInv_subtract _ _ _ _ hf)
  · rw [exe9D]; exact flagsInv_setF _ _ 0x01 (by decide) (flagsInv_subtract _ _ _ _ hf)
  · rw [exe9E]; exact flagsInv_setF _ _ 0x01 (by decide) (flagsInv_subtract _ _ _ _ hf)
  · rw [exe9F]; exact flagsInv_setF _ _ 0x01 (by decide) (flagsInv_subtract _ _ _ _ hf)

set_option maxHeartbeats 1000000 in
/-- Opcodes 0xA0..0xB0 of the execute dispatch preserve the flags-byte
invariant, given that the byte read by POP PSW is a byte. -/
theorem execute_flagsInv_rowA (cpu : Cpu) (b1 b2 : Nat) (m : Mem) (b0 : Nat)
    (hlo : 0xA0 ≤ b0) (hhi : b0 < 0xB0) (hsp : mread m cpu.sp < 256) (hf : FlagsInv cpu.f) :
    FlagsInv (cpu.execute_instruction ⟨b0, b1, b2⟩ m).1.f := by
  interval_cases b0
  · rw [exeA0]; exact flagsInv_and _ _ hf
  · rw [exeA1]; exact flagsInv_and _ _ hf
  · rw [exeA2]; exact flagsInv_and _ _ hf
  · rw [exeA3]; exact flagsInv_and _ _ hf
  · rw [exeA4]; exact flagsInv_and _ _ hf
  · rw [exeA5]; exact flagsInv_and _ _ hf
  · rw [exeA6]; exact flagsInv_and _ _ hf
  · rw [exeA7]; exact flagsInv_and _ _ hf
  · rw [exeA8]; exact flagsInv_xor _ _ hf
  · rw [exeA9]; exact flagsInv_xor _ _ hf
  · rw [exeAA]; exact flagsInv_xor _ _ hf
  · rw [exeAB]; exact flagsInv_xor _ _ hf
  · rw [exeAC]; exact flagsInv_xor _ _ hf
  · rw [exeAD]; exact flagsInv_xor _ _ hf
  · rw [exeAE]; exact flagsInv_xor _ _ hf
  · rw [exeAF]; exact flagsInv_xor _ _ hf

set_option maxHeartbeats 1000000 in
/-- Opcodes 0xB0..0xC0 of the execute dispatch preserve the flags-byte
invariant, given that the byte read by POP PSW is a byte. -/
theorem execute_flagsInv_rowB (cpu : Cpu) (b1 b2 : Nat) (m : Mem) (b0 : Nat)
    (hlo : 0xB0 ≤ b0) (hhi : b0 < 0xC0) (hsp : mread m cpu.sp < 256) (hf : FlagsInv cpu.f) :
    FlagsInv (cpu.execute_instruction ⟨b0, b1, b2⟩ m).1.f := by
  interval_cases b0
  · rw [exeB0]; exact flagsInv_or _ _ hf
  · rw [exeB1]; exact flagsInv_or _ _ hf
  · rw [exeB2]; exact flagsInv_or _ _ hf
  · rw [exeB3]; exact flagsInv_or _ _ hf
  · rw [exeB4]; exact flagsInv_or _ _ hf
  · rw [exeB5]; exact flagsInv_or _ _ hf
  · rw [exeB6]; exact flagsInv_or _ _ hf
  · rw [exeB7]; exact flagsInv_or _ _ hf
  · rw [exeB8]; exact flagsInv_setF _ _ 0x01 (by decide) (flagsInv_subtract _ _ _ _ hf)
  · rw [exeB9]; exact flagsInv_setF _ _ 0x01 (by decide) (flagsInv_subtract _ _ _ _ hf)
  · rw [exeBA]; exact flagsInv_setF _ _ 0x01 (by decide) (flagsInv_subtract _ _ _ _ hf)
  · rw [exeBB]; exact flagsInv_setF _ _ 0x01 (by decide) (flagsInv_subtract _ _ _ _ hf)
  · rw [exeBC]; exact flagsInv_setF _ _ 0x01 (by decide) (flagsInv_subtract _ _ _ _ hf)
  · rw [exeBD]; exact flagsInv_setF _ _ 0x01 (by decide) (flagsInv_subtract _ _ _ _ hf)
  · rw [exeBE]; exact flagsInv_setF _ _ 0x01 (by decide) (flagsInv_subtract _ _ _ _ hf)
  · rw [exeBF]; exact flagsInv_setF _ _ 0x01 (by decide) (flagsInv_subtract _ _ _ _ hf)

set_option maxHeartbeats 1000000 in
/-- Opcodes 0xC0..0xD0 of the execute dispatch preserve the flags-byte
invariant, given that the byte read by POP PSW is a byte. -/
theorem execute_flagsInv_rowC (cpu : Cpu) (b1 b2 : Nat) (m : Mem) (b0 : Nat)
    (hlo : 0xC0 ≤ b0) (hhi : b0 < 0xD0) (hsp : mread m cpu.sp < 256) (hf : FlagsInv cpu.f) :
    FlagsInv (cpu.execute_instruction ⟨b0, b1, b2⟩ m).1.f := by
  interval_cases b0
  · rw [exeC0]; split <;> exact hf
  · rw [exeC1]; exact hf
  · rw [exeC2]; split <;> exact hf
  · rw [exeC3]; exact hf
  · rw [exeC4]; split <;> exact hf
  · rw [exeC5]; exact hf
  · rw [exeC6]; exact flagsInv_setF _ _ 0x01 (by decide) (flagsInv_add _ _ _ _ hf)
  · rw [exeC7]; exact hf
  · rw [exeC8]; split <;> exact hf
  · rw [exeC9]; exact hf
  · rw [exeCA]; split <;> exact hf
  · rw [exeCB]; exact hf
  · rw [exeCC]; split <;> exact hf
  · rw [exeCD]; exact hf
  · rw [exeCE]; exact flagsInv_setF _ _ 0x01 (by decide) (flagsInv_add _ _ _ _ hf)
  · rw [exeCF]; exact hf

set_option maxHeartbeats 1000000 in
/-- Opcodes 0xD0..0xE0 of the execute dispatch preserve the flags-byte
invariant, given that the byte read by POP PSW is a byte. -/
theorem execute_flagsInv_rowD (cpu : Cpu) (b1 b2 : Nat) (m : Mem) (b0 : Nat)
    (hlo : 0xD0 ≤ b0) (hhi : b0 < 0xE0) (hsp : mread m cpu.sp < 256) (hf : FlagsInv cpu.f) :
    FlagsInv (cpu.execute_instruction ⟨b0, b1, b2⟩ m).1.f := by
  interval_cases b0
  · rw [exeD0]; split <;> exact hf
  · rw [exeD1]; exact hf
  · rw [exeD2]; split <;> exact hf
  · rw [exeD3]; exact hf
  · rw [exeD4]; split <;> exact hf
  · rw [exeD5]; exact hf
  · rw [exeD6]; exact flagsInv_setF _ _ 0x01 (by decide) (flagsInv_subtract _ _ _ _ hf)
  · rw [exeD7]; exact hf
  · rw [exeD8]; split <;> exact hf
  · rw [exeD9]; exact hf
  · rw [exeDA]; split <;> exact hf
  · rw [exeDB]; exact hf
  · rw [exeDC]; split <;> exact hf
  · rw [exeDD]; exact hf
  · rw [exeDE]; exact flagsInv_setF _ _ 0x01 (by decide) (flagsInv_subtract _ _ _ _ hf)
  · rw [exeDF]; exact hf

set_option maxHeartbeats 1000000 in
/-- Opcodes 0xE0..0xF0 of the execute dispatch preserve the flags-byte
invariant, given that the byte read by POP PSW is a byte. -/
theorem execute_flagsInv_rowE (cpu : Cpu) (b1 b2 : Nat) (m : Mem) (b0 : Nat)
    (hlo : 0xE0 ≤ b0) (hhi : b0 < 0xF0) (hsp : mread m cpu.sp < 256) (hf : FlagsInv cpu.f) :
    FlagsInv (cpu.execute_instruction ⟨b0, b1, b2⟩ m).1.f := by
  interval_cases b0
  · rw [exeE0]; split <;> exact hf
  · rw [exeE1]; exact hf
  · rw [exeE2]; split <;> exact hf
  · rw [exeE3]; exact hf
  · rw [exeE4]; split <;> exact hf
  · rw [exeE5]; exact hf
  · rw [exeE6]; exact flagsInv_and _ _ hf
  · rw [exeE7]; exact hf
  · rw [exeE8]; split <;> exact hf
  · rw [exeE9]; exact hf
  · rw [exeEA]; split <;> exact hf
  · rw [exeEB]; exact hf
  · rw [exeEC]; split <;> exact hf
  · rw [exeED]; exact hf
  · rw [exeEE]; exact flagsInv_xor _ _ hf
  · rw [exeEF]; exact hf

set_option maxHeartbeats 1000000 in
/-- Opcodes 0xF0..0x100 of the execute dispatch preserve the flags-byte
invariant, given that the byte read by POP PSW is a byte. -/
theorem execute_flagsInv_rowF (cpu : Cpu) (b1 b2 : Nat) (m : Mem) (b0 : Nat)
    (hlo : 0xF0 ≤ b0) (hhi : b0 < 0x100) (hsp : mread m cpu.sp < 256) (hf : FlagsInv cpu.f) :
    FlagsInv (cpu.execute_instruction ⟨b0, b1, b2⟩ m).1.f := by
  interval_cases b0
  · rw [exeF0]; split <;> exact hf
  · rw [exeF1]; exact flagsInv_popPsw _ hsp
  · rw [exeF2]; split <;> exact hf
  · rw [exeF3]; exact hf
  · rw [exeF4]; split <;> exact hf
  · rw [exeF5]; exact hf
  · rw [exeF6]; exact flagsInv_or _ _ hf
  · rw [exeF7]; exact hf
  · rw [exeF8]; split <;> exact hf
  · rw [exeF9]; exact hf
  · rw [exeFA]; split <;> exact hf
  · rw [exeFB]; cases cpu.interruptable <;> exact hf
  · rw [exeFC]; split <;> exact hf
  · rw [exeFD]; exact hf
  · rw [exeFE]; exact flagsInv_setF _ _ 0x01 (by decide) (flagsInv_subtract _ _ _ _ hf)
  · rw [exeFF]; exact hf

/-- Every arm of the execute dispatch preserves the flags-byte invariant,
given that the byte read by POP PSW is a byte. -/
theorem execute_flagsInv (cpu : Cpu) (ins : Instruction) (m : Mem)
    (hb : ins.b0 < 256) (hsp : mread m cpu.sp < 256) (hf : FlagsInv cpu.f) :
    FlagsInv (cpu.execute_instruction ins m).1.f := by
  obtain ⟨b0, b1, b2⟩ := ins
  simp only [] at hb
  by_cases h0 : b0 < 0x10
  · exact execute_flagsInv_row0 cpu b1 b2 m b0 h0 hsp hf
  by_cases h1 : b0 < 0x20
  · exact execute_flagsInv_row1 cpu b1 b2 m b0 (Nat.le_of_not_lt h0) h1 hsp hf
  by_cases h2 : b0 < 0x30
  · exact execute_flagsInv_row2 cpu b1 b2 m b0 (Nat.le_of_not_lt h1) h2 hsp hf
  by_cases h3 : b0 < 0x40
  · exact execute_flagsInv_row3 cpu b1 b2 m b0 (Nat.le_of_not_lt h2) h3 hsp hf
  by_cases h4 : b0 < 0x50
  · exact execute_flagsInv_row4 cpu b1 b2 m b0 (Nat.le_of_not_lt h3) h4 hsp hf
  by_cases h5 : b0 < 0x60
  · exact execute_flagsInv_row5 cpu b1 b2 m b0 (Nat.le_of_not_lt h4) h5 hsp hf
  by_cases h6 : b0 < 0x70
  · exact execute_flagsInv_row6 cpu b1 b2 m b0 (Nat.le_of_not_lt h5) h6 hsp hf
  by_cases h7 : b0 < 0x80
  · exact execute_flagsInv_row7 cpu b1 b2 m b0 (Nat.le_of_not_lt h6) h7 hsp hf
  by_cases h8 : b0 < 0x90
  · exact execute_flagsInv_row8 cpu b1 b2 m b0 (Nat.le_of_not_lt h7) h8 hsp hf
  by_cases h9 : b0 < 0xA0
  · exact execute_flagsInv_row9 cpu b1 b2 m b0 (Nat.le_of_not_lt h8) h9 hsp hf
  by_cases hA : b0 < 0xB0
  · exact execute_flagsInv_rowA cpu b1 b2 m b0 (Nat.le_of_not_lt h9) hA hsp hf
  by_cases hB : b0 < 0xC0
  · exact execute_flagsInv_rowB cpu b1 b2 m b0 (Nat.le_of_not_lt hA) hB hsp hf
  by_cases hC : b0 < 0xD0
  · exact execute_flagsInv_rowC cpu b1 b2 m b0 (Nat.le_of_not_lt hB) hC hsp hf
  by_cases hD : b0 < 0xE0
  · exact execute_flagsInv_rowD cpu b1 b2 m b0 (Nat.le_of_not_lt hC) hD hsp hf
  by_cases hE : b0 < 0xF0
  · exact execute_flagsInv_rowE cpu b1 b2 m b0 (Nat.le_of_not_lt hD) hE hsp hf
  exact execute_flagsInv_rowF cpu b1 b2 m b0 (Nat.le_of_not_lt hE) hb hsp hf


set_option maxHeartbeats 1000000 in
/-- Opcodes 0x00..0x10 of the execute dispatch, DI excepted, keep an
Enabling interrupt latch Enabling. -/
theorem execute_latch_row0 (cpu : Cpu) (b1 b2 : Nat) (m : Mem) (b0 : Nat)
    (hhi : b0 < 0x10) (hne : b0 ≠ 0xF3)
    (hl : cpu.interruptable = .enabling) :
    (cpu.execute_instruction ⟨b0, b1, b2⟩ m).1.interruptable = .enabling := by
  interval_cases b0
  · rw [exe00]; exact hl
  · rw [exe01]; exact hl
  · rw [exe02]; exact hl
  · rw [exe03]; exact hl
  · rw [exe04]; exact hl
  · rw [exe05]; exact hl
  · rw [exe06]; exact hl
  · rw [exe07]; exact hl
  · rw [exe08]; exact hl
  · rw [exe09]; exact hl
  · rw [exe0A]; exact hl
  · rw [exe0B]; exact hl
  · rw [exe0C]; exact hl
  · rw [exe0D]; exact hl
  · rw [exe0E]; exact hl
  · rw [exe0F]; exact hl

set_option maxHeartbeats 1000000 in
/-- Opcodes 0x10..0x20 of the execute dispatch, DI excepted, keep an
Enabling interrupt latch Enabling. -/
theorem execute_latch_row1 (cpu : Cpu) (b1 b2 : Nat) (m : Mem) (b0 : Nat)
    (hlo : 0x10 ≤ b0) (hhi : b0 < 0x20) (hne : b0 ≠ 0xF3)
    (hl : cpu.interruptable = .enabling) :
    (cpu.execute_instruction ⟨b0, b1, b2⟩ m).1.interruptable = .enabling := by
  interval_cases b0
  · rw [exe10]; exact hl
  · rw [exe11]; exact hl
  · rw [exe12]; exact hl
  · rw [exe13]; exact hl
  · rw [exe14]; exact hl
  · rw [exe15]; exact hl
  · rw [exe16]; exact hl
  · rw [exe17]; exact hl
  · rw [exe18]; exact hl
  · rw [exe19]; exact hl
  · rw [exe1A]; exact hl
  · rw [exe1B]; exact hl
  · rw [exe1C]; exact hl
  · rw [exe1D]; exact hl
  · rw [exe1E]; exact hl
  · rw [exe1F]; exact hl

set_option maxHeartbeats 1000000 in
/-- Opcodes 0x20..0x30 of the execute dispatch, DI excepted, keep an
Enabling interrupt latch Enabling. -/
theorem execute_latch_row2 (cpu : Cpu) (b1 b2 : Nat) (m : Mem) (b0 : Nat)
    (hlo : 0x20 ≤ b0) (hhi : b0 < 0x30) (hne : b0 ≠ 0xF3)
    (hl : cpu.interruptable = .enabling) :
    (cpu.execute_instruction ⟨b0, b1, b2⟩ m).1.interruptable = .enabling := by
  interval_cases b0
  · rw [exe20]; exact hl
  · rw [exe21]; exact hl
  · rw [exe22]; exact hl
  · rw [exe23]; exact hl
  · rw [exe24]; exact hl
  · rw [exe25]; exact hl
  · rw [exe26]; exact hl
  · rw [exe27]
    repeat' (first | split | (dsimp only; split))
    all_goals exact hl
  · rw [exe28]; exact hl
  · rw [exe29]; exact hl
  · rw [exe2A]; exact hl
  · rw [exe2B]; exact hl
  · rw [exe2C]; exact hl
  · rw [exe2D]; exact hl
  · rw [exe2E]; exact hl
  · rw [exe2F]; exact hl

set_option maxHeartbeats 1000000 in
/-- Opcodes 0x30..0x40 of the execute dispatch, DI excepted, keep an
Enabling interrupt latch Enabling. -/
theorem execute_latch_row3 (cpu : Cpu) (b1 b2 : Nat) (m : Mem) (b0 : Nat)
    (hlo : 0x30 ≤ b0) (hhi : b0 < 0x40) (hne : b0 ≠ 0xF3)
    (hl : cpu.interruptable = .enabling) :
    (cpu.execute_instruction ⟨b0, b1, b2⟩ m).1.interruptable = .enabling := by
  interval_cases b0
  · rw [exe30]; exact hl
  · rw [exe31]; exact hl
  · rw [exe32]; exact hl
  · rw [exe33]; exact hl
  · rw [exe34]; exact hl
  · rw [exe35]; exact hl
  · rw [exe36]; exact hl
  · rw [exe37]; exact hl
  · rw [exe38]; exact hl
  · rw [exe39]; exact hl
  · rw [exe3A]; exact hl
  · rw [exe3B]; exact hl
  · rw [exe3C]; exact hl
  · rw [exe3D]; exact hl
  · rw [exe3E]; exact hl
  · rw [exe3F]; exact hl

set_option maxHeartbeats 1000000 in
/-- Opcodes 0x40..0x50 of the execute dispatch, DI excepted, keep an
Enabling interrupt latch Enabling. -/
theorem execute_latch_row4 (cpu : Cpu) (b1 b2 : Nat) (m : Mem) (b0 : Nat)
    (hlo : 0x40 ≤ b0) (hhi : b0 < 0x50) (hne : b0 ≠ 0xF3)
    (hl : cpu.interruptable = .enabling) :
    (cpu.execute_instruction ⟨b0, b1, b2⟩ m).1.interruptable = .enabling := by
  interval_cases b0
  · rw [exe40]; exact hl
  · rw [exe41]; exact hl
  · rw [exe42]; exact hl
  · rw [exe43]; exact hl
  · rw [exe44]; exact hl
  · rw [exe45]; exact hl
  · rw [exe46]; exact hl
  · rw [exe47]; exact hl
  · rw [exe48]; exact hl
  · rw [exe49]; exact hl
  · rw [exe4A]; exact hl
  · rw [exe4B]; exact hl
  · rw [exe4C]; exact hl
  · rw [exe4D]; exact hl
  · rw [exe4E]; exact hl
  · rw [exe4F]; exact hl

set_option maxHeartbeats 1000000 in
/-- Opcodes 0x50..0x60 of the execute dispatch, DI excepted, keep an
Enabling interrupt latch Enabling. -/
theorem execute_latch_row5 (cpu : Cpu) (b1 b2 : Nat) (m : Mem) (b0 : Nat)
    (hlo : 0x50 ≤ b0) (hhi : b0 < 0x60) (hne : b0 ≠ 0xF3)
    (hl : cpu.interruptable = .enabling) :
    (cpu.execute_instruction ⟨b0, b1, b2⟩ m).1.interruptable = .enabling := by
  interval_cases b0
  · rw [exe50]; exact hl
  · rw [exe51]; exact hl
  · rw [exe52]; exact hl
  · rw [exe53]; exact hl
  · rw [exe54]; exact hl
  · rw [exe55]; exact hl
  · rw [exe56]; exact hl
  · rw [exe57]; exact hl
  · rw [exe58]; exact hl
  · rw [exe59]; exact hl
  · rw [exe5A]; exact hl
  · rw [exe5B]; exact hl
  · rw [exe5C]; exact hl
  · rw [exe5D]; exact hl
  · rw [exe5E]; exact hl
  · rw [exe5F]; exact hl

set_option maxHeartbeats 1000000 in
/-- Opcodes 0x60..0x70 of the execute dispatch, DI excepted, keep an
Enabling interrupt latch Enabling. -/
theorem execute_latch_row6 (cpu : Cpu) (b1 b2 : Nat) (m : Mem) (b0 : Nat)
    (hlo : 0x60 ≤ b0) (hhi : b0 < 0x70) (hne : b0 ≠ 0xF3)
    (hl : cpu.interruptable = .enabling) :
    (cpu.execute_instruction ⟨b0, b1, b2⟩ m).1.interruptable = .enabling := by
  interval_cases b0
  · rw [exe60]; exact hl
  · rw [exe61]; exact hl
  · rw [exe62]; exact hl
  · rw [exe63]; exact hl
  · rw [exe64]; exact hl
  · rw [exe65]; exact hl
  · rw [exe66]; exact hl
  · rw [exe67]; exact hl
  · rw [exe68]; exact hl
  · rw [exe69]; exact hl
  · rw [exe6A]; exact hl
  · rw [exe6B]; exact hl
  · rw [exe6C]; exact hl
  · rw [exe6D]; exact hl
  · rw [exe6E]; exact hl
  · rw [exe6F]; exact hl

set_option maxHeartbeats 1000000 in
/-- Opcodes 0x70..0x80 of the execute dispatch, DI excepted, keep an
Enabling interrupt latch Enabling. -/
theorem execute_latch_row7 (cpu : Cpu) (b1 b2 : Nat) (m : Mem) (b0 : Nat)
    (hlo : 0x70 ≤ b0) (hhi : b0 < 0x80) (hne : b0 ≠ 0xF3)
    (hl : cpu.interruptable = .enabling) :
    (cpu.execute_instruction ⟨b0, b1, b2⟩ m).1.interruptable = .enabling := by
  interval_cases b0
  · rw [exe70]; exact hl
  · rw [exe71]; exact hl
  · rw [exe72]; exact hl
  · rw [exe73]; exact hl
  · rw [exe74]; exact hl
  · rw [exe75]; exact hl
  · rw [exe76]; exact hl
  · rw [exe77]; exact hl
  · rw [exe78]; exact hl
  · rw [exe79]; exact hl
  · rw [exe7A]; exact hl
  · rw [exe7B]; exact hl
  · rw [exe7C]; exact hl
  · rw [exe7D]; exact hl
  · rw [exe7E]; exact hl
  · rw [exe7F]; exact hl

set_option maxHeartbeats 1000000 in
/-- Opcodes 0x80..0x90 of the execute dispatch, DI excepted, keep an
Enabling interrupt latch Enabling. -/
theorem execute_latch_row8 (cpu : Cpu) (b1 b2 : Nat) (m : Mem) (b0 : Nat)
    (hlo : 0x80 ≤ b0) (hhi : b0 < 0x90) (hne : b0 ≠ 0xF3)
    (hl : cpu.interruptable = .enabling) :
    (cpu.execute_instruction ⟨b0, b1, b2⟩ m).1.interruptable = .enabling := by
  interval_cases b0
  · rw [exe80]; exact hl
  · rw [exe81]; exact hl
  · rw [exe82]; exact hl
  · rw [exe83]; exact hl
  · rw [exe84]; exact hl
  · rw [exe85]; exact hl
  · rw [exe86]; exact hl
  · rw [exe87]; exact hl
  · rw [exe88]; exact hl
  · rw [exe89]; exact hl
  · rw [exe8A]; exact hl
  · rw [exe8B]; exact hl
  · rw [exe8C]; exact hl
  · rw [exe8D]; exact hl
  · rw [exe8E]; exact hl
  · rw [exe8F]; exact hl

set_option maxHeartbeats 1000000 in
/-- Opcodes 0x90..0xA0 of the execute dispatch, DI excepted, keep an
Enabling interrupt latch Enabling. -/
theorem execute_latch_row9 (cpu : Cpu) (b1 b2 : Nat) (m : Mem) (b0 : Nat)
    (hlo : 0x90 ≤ b0) (hhi : b0 < 0xA0) (hne : b0 ≠ 0xF3)
    (hl : cpu.interruptable = .enabling) :
    (cpu.execute_instruction ⟨b0, b1, b2⟩ m).1.interruptable = .enabling := by
  interval_cases b0
  · rw [exe90]; exact hl
  · rw [exe91]; exact hl
  · rw [exe92]; exact hl
  · rw [exe93]; exact hl
  · rw [exe94]; exact hl
  · rw [exe95]; exact hl
  · rw [exe96]; exact hl
  · rw [exe97]; exact hl
  · rw [exe98]; exact hl
  · rw [exe99]; exact hl
  · rw [exe9A]; exact hl
  · rw [exe9B]; exact hl
  · rw [exe9C]; exact hl
  · rw [exe9D]; exact hl
  · rw [exe9E]; exact hl
  · rw [exe9F]; exact hl

set_option maxHeartbeats 1000000 in
/-- Opcodes 0xA0..0xB0 of the execute dispatch, DI excepted, keep an
Enabling interrupt latch Enabling. -/
theorem execute_latch_rowA (cpu : Cpu) (b1 b2 : Nat) (m : Mem) (b0 : Nat)
    (hlo : 0xA0 ≤ b0) (hhi : b0 < 0xB0) (hne : b0 ≠ 0xF3)
    (hl : cpu.interruptable = .enabling) :
    (cpu.execute_instruction ⟨b0, b1, b2⟩ m).1.interruptable = .enabling := by
  interval_cases b0
  · rw [exeA0]; exact hl
  · rw [exeA1]; exact hl
  · rw [exeA2]; exact hl
  · rw [exeA3]; exact hl
  · rw [exeA4]; exact hl
  · rw [exeA5]; exact hl
  · rw [exeA6]; exact hl
  · rw [exeA7]; exact hl
  · rw [exeA8]; exact hl
  · rw [exeA9]; exact hl
  · rw [exeAA]; exact hl
  · rw [exeAB]; exact hl
  · rw [exeAC]; exact hl
  · rw [exeAD]; exact hl
  · rw [exeAE]; exact hl
  · rw [exeAF]; exact hl

set_option maxHeartbeats 1000000 in
/-- Opcodes 0xB0..0xC0 of the execute dispatch, DI excepted, keep an
Enabling interrupt latch Enabling. -/
theorem execute_latch_rowB (cpu : Cpu) (b1 b2 : Nat) (m : Mem) (b0 : Nat)
    (hlo : 0xB0 ≤ b0) (hhi : b0 < 0xC0) (hne : b0 ≠ 0xF3)
    (hl : cpu.interruptable = .enabling) :
    (cpu.execute_instruction ⟨b0, b1, b2⟩ m).1.interruptable = .enabling := by
  interval_cases b0
  · rw [exeB0]; exact hl
  · rw [exeB1]; exact hl
  · rw [exeB2]; exact hl
  · rw [exeB3]; exact hl
  · rw [exeB4]; exact hl
  · rw [exeB5]; exact hl
  · rw [exeB6]; exact hl
  · rw [exeB7]; exact hl
  · rw [exeB8]; exact hl
  · rw [exeB9]; exact hl
  · rw [exeBA]; exact hl
  · rw [exeBB]; exact hl
  · rw [exeBC]; exact hl
  · rw [exeBD]; exact hl
  · rw [exeBE]; exact hl
  · rw [exeBF]; exact hl

set_option maxHeartbeats 1000000 in
/-- Opcodes 0xC0..0xD0 of the execute dispatch, DI excepted, keep an
Enabling interrupt latch Enabling. -/
theorem execute_latch_rowC (cpu : Cpu) (b1 b2 : Nat) (m : Mem) (b0 : Nat)
    (hlo : 0xC0 ≤ b0) (hhi : b0 < 0xD0) (hne : b0 ≠ 0xF3)
    (hl : cpu.interruptable = .enabling) :
    (cpu.execute_instruction ⟨b0, b1, b2⟩ m).1.interruptable = .enabling := by
  interval_cases b0
  · rw [exeC0]; split <;> exact hl
  · rw [exeC1]; exact hl
  · rw [exeC2]; split <;> exact hl
  · rw [exeC3]; exact hl
  · rw [exeC4]; split <;> exact hl
  · rw [exeC5]; exact hl
  · rw [exeC6]; exact hl
  · rw [exeC7]; exact hl
  · rw [exeC8]; split <;> exact hl
  · rw [exeC9]; exact hl
  · rw [exeCA]; split <;> exact hl
  · rw [exeCB]; exact hl
  · rw [exeCC]; split <;> exact hl
  · rw [exeCD]; exact hl
  · rw [exeCE]; exact hl
  · rw [exeCF]; exact hl

set_option maxHeartbeats 1000000 in
/-- Opcodes 0xD0..0xE0 of the execute dispatch, DI excepted, keep an
Enabling interrupt latch Enabling. -/
theorem execute_latch_rowD (cpu : Cpu) (b1 b2 : Nat) (m : Mem) (b0 : Nat)
    (hlo : 0xD0 ≤ b0) (hhi : b0 < 0xE0) (hne : b0 ≠ 0xF3)
    (hl : cpu.interruptable = .enabling) :
    (cpu.execute_instruction ⟨b0, b1, b2⟩ m).1.interruptable = .enabling := by
  interval_cases b0
  · rw [exeD0]; split <;> exact hl
  · rw [exeD1]; exact hl
  · rw [exeD2]; split <;> exact hl
  · rw [exeD3]; exact hl
  · rw [exeD4]; split <;> exact hl
  · rw [exeD5]; exact hl
  · rw [exeD6]; exact hl
  · rw [exeD7]; exact hl
  · rw [exeD8]; split <;> exact hl
  · rw [exeD9]; exact hl
  · rw [exeDA]; split <;> exact hl
  · rw [exeDB]; exact hl
  · rw [exeDC]; split <;> exact hl
  · rw [exeDD]; exact hl
  · rw [exeDE]; exact hl
  · rw [exeDF]; exact hl

set_option maxHeartbeats 1000000 in
/-- Opcodes 0xE0..0xF0 of the execute dispatch, DI excepted, keep an
Enabling interrupt latch Enabling. -/
theorem execute_latch_rowE (cpu : Cpu) (b1 b2 : Nat) (m : Mem) (b0 : Nat)
    (hlo : 0xE0 ≤ b0) (hhi : b0 < 0xF0) (hne : b0 ≠ 0xF3)
    (hl : cpu.interruptable = .enabling) :
    (cpu.execute_instruction ⟨b0, b1, b2⟩ m).1.interruptable = .enabling := by
  interval_cases b0
  · rw [exeE0]; split <;> exact hl
  · rw [exeE1]; exact hl
  · rw [exeE2]; split <;> exact hl
  · rw [exeE3]; exact hl
  · rw [exeE4]; split <;> exact hl
  · rw [exeE5]; exact hl
  · rw [exeE6]; exact hl
  · rw [exeE7]; exact hl
  · rw [exeE8]; split <;> exact hl
  · rw [exeE9]; exact hl
  · rw [exeEA]; split <;> exact hl
  · rw [exeEB]; exact hl
  · rw [exeEC]; split <;> exact hl
  · rw [exeED]; exact hl
  · rw [exeEE]; exact hl
  · rw [exeEF]; exact hl

set_option maxHeartbeats 1000000 in
/-- Opcodes 0xF0..0x100 of the execute dispatch, DI excepted, keep an
Enabling interrupt latch Enabling. -/
theorem execute_latch_rowF (cpu : Cpu) (b1 b2 : Nat) (m : Mem) (b0 : Nat)
    (hlo : 0xF0 ≤ b0) (hhi : b0 < 0x100) (hne : b0 ≠ 0xF3)
    (hl : cpu.interruptable = .enabling) :
    (cpu.execute_instruction ⟨b0, b1, b2⟩ m).1.interruptable = .enabling := by
  interval_cases b0
  · rw [exeF0]; split <;> exact hl
  · rw [exeF1]; exact hl
  · rw [exeF2]; split <;> exact hl
  · exact absurd rfl hne
  · rw [exeF4]; split <;> exact hl
  · rw [exeF5]; exact hl
  · rw [exeF6]; exact hl
  · rw [exeF7]; exact hl
  · rw [exeF8]; split <;> exact hl
  · rw [exeF9]; exact hl
  · rw [exeFA]; split <;> exact hl
  · rw [exeFB]; simp only [hl]
  · rw [exeFC]; split <;> exact hl
  · rw [exeFD]; exact hl
  · rw [exeFE]; exact hl
  · rw [exeFF]; exact hl

/-- Every arm of the execute dispatch other than DI keeps an Enabling
interrupt latch Enabling. -/
theorem execute_latch_enabling (cpu : Cpu) (ins : Instruction) (m : Mem)
    (hb : ins.b0 < 256) (hne : ins.b0 ≠ 0xF3)
    (hl : cpu.interruptable = .enabling) :
    (cpu.execute_instruction ins m).1.interruptable = .enabling := by
  obtain ⟨b0, b1, b2⟩ := ins
  simp only [] at hb
  simp only [] at hne
  by_cases g0 : b0 < 0x10
  · exact execute_latch_row0 cpu b1 b2 m b0 g0 hne hl
  by_cases g1 : b0 < 0x20
  · exact execute_latch_row1 cpu b1 b2 m b0 (Nat.le_of_not_lt g0) g1 hne hl
  by_cases g2 : b0 < 0x30
  · exact execute_latch_row2 cpu b1 b2 m b0 (Nat.le_of_not_lt g1) g2 hne hl
  by_cases g3 : b0 < 0x40
  · exact execute_latch_row3 cpu b1 b2 m b0 (Nat.le_of_not_lt g2) g3 hne hl
  by_cases g4 : b0 < 0x50
  · exact execute_latch_row4 cpu b1 b2 m b0 (Nat.le_of_not_lt g3) g4 hne hl
  by_cases g5 : b0 < 0x60
  · exact execute_latch_row5 cpu b1 b2 m b0 (Nat.le_of_not_lt g4) g5 hne hl
  by_cases g6 : b0 < 0x70
  · exact execute_latch_row6 cpu b1 b2 m b0 (Nat.le_of_not_lt g5) g6 hne hl
  by_cases g7 : b0 < 0x80
  · exact execute_latch_row7 cpu b1 b2 m b0 (Nat.le_of_not_lt g6) g7 hne hl
  by_cases g8 : b0 < 0x90
  · exact execute_latch_row8 cpu b1 b2 m b0 (Nat.le_of_not_lt g7) g8 hne hl
  by_cases g9 : b0 < 0xA0
  · exact execute_latch_row9 cpu b1 b2 m b0 (Nat.le_of_not_lt g8) g9 hne hl
  by_cases gA : b0 < 0xB0
  · exact execute_latch_rowA cpu b1 b2 m b0 (Nat.le_of_not_lt g9) gA hne hl
  by_cases gB : b0 < 0xC0
  · exact execute_latch_rowB cpu b1 b2 m b0 (Nat.le_of_not_lt gA) gB hne hl
  by_cases gC : b0 < 0xD0
  · exact execute_latch_rowC cpu b1 b2 m b0 (Nat.le_of_not_lt gB) gC hne hl
  by_cases gD : b0 < 0xE0
  · exact execute_latch_rowD cpu b1 b2 m b0 (Nat.le_of_not_lt gC) gD hne hl
  by_cases gE : b0 < 0xF0
  · exact execute_latch_rowE cpu b1 b2 m b0 (Nat.le_of_not_lt gD) gE hne hl
  exact execute_latch_rowF cpu b1 b2 m b0 (Nat.le_of_not_lt gE) hb hne hl


theorem undoc_disjoint :
    ∀ x ∈ undocumentedOpcodes,
      x ∉ len1Opcodes ∧ x ∉ len2Opcodes ∧ x ∉ len3Opcodes := by decide

theorem len2_disjoint_len1 : ∀ x ∈ len2Opcodes, x ∉ len1Opcodes := by decide

theorem len3_disjoint : ∀ x ∈ len3Opcodes, x ∉ len1Opcodes ∧ x ∉ len2Opcodes := by decide

theorem fetch_len1 (cpu : Cpu) (m : Mem) (b : Nat) (hop : mread m cpu.pc = b)
    (h1 : b ∈ len1Opcodes) :
    cpu.fetch_instruction m = some (⟨b, 0, 0⟩, { cpu with pc := wrap16 (cpu.pc + 1) }) := by
  unfold Cpu.fetch_instruction
  rw [hop, if_pos h1]

theorem fetch_len2 (cpu : Cpu) (m : Mem) (b : Nat) (hop : mread m cpu.pc = b)
    (h2 : b ∈ len2Opcodes) :
    cpu.fetch_instruction m =
      some (⟨b, mread m (wrap16 (cpu.pc + 1)), 0⟩, { cpu with pc := wrap16 (cpu.pc + 2) }) := by
  unfold Cpu.fetch_instruction
  rw [hop, if_neg (len2_disjoint_len1 _ h2), if_pos h2]

theorem fetch_len3 (cpu : Cpu) (m : Mem) (b : Nat) (hop : mread m cpu.pc = b)
    (h3 : b ∈ len3Opcodes) :
    cpu.fetch_instruction m =
      some (⟨b, mread m (wrap16 (cpu.pc + 1)), mread m (wrap16 (cpu.pc + 2))⟩,
        { cpu with pc := wrap16 (cpu.pc + 3) }) := by
  unfold Cpu.fetch_instruction
  rw [hop, if_neg (len3_disjoint _ h3).1, if_neg (len3_disjoint _ h3).2, if_pos h3]

theorem fetch_undocumented (cpu : Cpu) (m : Mem)
    (h : mread m cpu.pc ∈ undocumentedOpcodes) : cpu.fetch_instruction m = none := by
  unfold Cpu.fetch_instruction
  rw [if_neg (undoc_disjoint _ h).1, if_neg (undoc_disjoint _ h).2.1,
    if_neg (undoc_disjoint _ h).2.2]

theorem interrupt_refused_unchanged (cpu : Cpu) (ins : Instruction) (m : Mem)
    (h : cpu.interruptable ≠ .enabled) :
    cpu.interrupt ins m = (.error .interruptNotEnabled, cpu, m) := by
  unfold Cpu.interrupt
  cases hI : cpu.interruptable
  · rfl
  · rfl
  · exact absurd hI h

theorem interrupt_ok_of_enabled (cpu : Cpu) (ins : Instruction) (m : Mem)
    (h : cpu.interruptable = .enabled) :
    (cpu.interrupt ins m).1 =
      .ok (({ cpu with isHalted := false, interruptable := .disabled
        }).execute_instruction ins m).2.2 := by
  unfold Cpu.interrupt
  rw [h]

theorem len_opcodes_lt_256 :
    (∀ x ∈ len1Opcodes, x < 256) ∧ (∀ x ∈ len2Opcodes, x < 256) ∧
      (∀ x ∈ len3Opcodes, x < 256) := by decide

theorem setF_setF_same (g : Nat) (flag : Nat) (b : Bool) :
    setF (setF g flag b) flag b = setF g flag b := by
  cases b <;> simp [setF, insertF, removeF, Nat.or_assoc, Nat.and_assoc]

theorem exec3D_eq_dcrA_general (cpu : Cpu) (b1 b2 : Nat) (m : Mem) :
    Cpu.execute_instruction cpu ⟨0x3D, b1, b2⟩ m = cpu.dcrA_general m := by
  rw [exe3D]
  unfold Cpu.dcrA_general Cpu.subtract Cpu.add Cpu.update_parity_zero_sign_flags
  dsimp only
  rw [setF_setF_same]

/-- Claim C9: executing DCR A (0x3D) produces exactly the state of the
general DCR rule applied to register A: the extra Sign assignment after
the subtract helper is a no-op. -/
theorem c9_dcrA_no_deviation (cpu : Cpu) (b1 b2 : Nat) (m : Mem) :
    Cpu.execute_instruction cpu ⟨0x3D, b1, b2⟩ m = cpu.dcrA_general m :=
  exec3D_eq_dcrA_general cpu b1 b2 m

/-- Claim C10: when fetch_execute_instruction fails with Halted or
interrupt fails with InterruptNotEnabled, the CPU and the memory are
returned exactly as they were. -/
theorem c10_error_state_unchanged :
    (∀ (cpu : Cpu) (m : Mem), cpu.isHalted = true →
      cpu.fetch_execute_instruction m = (some (.error .halted), cpu, m)) ∧
    (∀ (cpu : Cpu) (ins : Instruction) (m : Mem), cpu.interruptable ≠ .enabled →
      cpu.interrupt ins m = (.error .interruptNotEnabled, cpu, m)) := by
  constructor
  · intro cpu m h
    unfold Cpu.fetch_execute_instruction
    rw [h]
    rfl
  · exact interrupt_refused_unchanged

/-- Witness for claim C10 at a halted CPU and a disabled latch. -/
theorem c10_witness :
    ({ Cpu.initial with isHalted := true } : Cpu).fetch_execute_instruction memZero =
        (some (.error .halted), { Cpu.initial with isHalted := true }, memZero) ∧
      Cpu.initial.interrupt ⟨0xC9, 0, 0⟩ memZero =
        (.error .interruptNotEnabled, Cpu.initial, memZero) :=
  ⟨c10_error_state_unchanged.1 _ _ rfl,
   c10_error_state_unchanged.2 _ _ _ (by decide)⟩

/-- Claim C7: evaluation of the loader at the exact-fit inputs.  A 65536
byte file loaded at address 0 is accepted but copies nothing and returns
0; a two byte file at 0xFFFE (exact fit with a non-zero start) panics on
the reversed slice; a two byte file at 0xFFFF fails with TooLargeFile. -/
theorem c7_exact_fit :
    load_file memZero (List.replicate 65536 0xAB) 0 = some (.ok (0, memZero)) ∧
    load_file memZero [0x11, 0x22] 0xFFFE = none ∧
    load_file memZero [0x11, 0x22] 0xFFFF = some (.error .tooLargeFile) := by
  refine ⟨?_, ?_, ?_⟩
  · unfold load_file
    simp only [List.length_replicate]
    norm_num [wrap16]
    rfl
  · rfl
  · rfl

theorem containsF_after_pzs (f : Nat) (hf : f < 256) (aux p z s : Bool) :
    containsF (setF (setF (setF (setF f 0x10 aux) 0x04 p) 0x40 z) 0x80 s) 0x01 =
        containsF f 0x01 ∧
      containsF (setF (setF (setF (setF f 0x10 aux) 0x04 p) 0x40 z) 0x80 s) 0x10 = aux ∧
      containsF (setF (setF (setF (setF f 0x10 aux) 0x04 p) 0x40 z) 0x80 s) 0x04 = p ∧
      containsF (setF (setF (setF (setF f 0x10 aux) 0x04 p) 0x40 z) 0x80 s) 0x40 = z ∧
      containsF (setF (setF (setF (setF f 0x10 aux) 0x04 p) 0x40 z) 0x80 s) 0x80 = s ∧
      setF (setF (setF (setF f 0x10 aux) 0x04 p) 0x40 z) 0x80 s < 256 := by
  revert aux p z s; revert hf; revert f; decide

theorem add_flags_spec (cpu : Cpu) (x y : Nat) (ci : Bool) (hf : cpu.f < 256) :
    containsF (cpu.add x y ci).1.f CARRY = containsF cpu.f CARRY ∧
      containsF (cpu.add x y ci).1.f AUX_CARRY =
        (if ci then decide (0x0F ≤ (x &&& 0x0F) + (y &&& 0x0F))
         else decide (0x0F < (x &&& 0x0F) + (y &&& 0x0F))) ∧
      containsF (cpu.add x y ci).1.f SIGN = decide (0 < (cpu.add x y ci).2.1 &&& 0x80) ∧
      containsF (cpu.add x y ci).1.f ZERO = ((cpu.add x y ci).2.1 == 0) ∧
      containsF (cpu.add x y ci).1.f PARITY =
        (countOnes8 (cpu.add x y ci).2.1 % 2 == 0) ∧
      (cpu.add x y ci).1.f < 256 := by
  obtain ⟨h1, h2, h3, h4, h5, h6⟩ := containsF_after_pzs cpu.f hf
    (if ci then decide (0x0F ≤ (x &&& 0x0F) + (y &&& 0x0F))
     else decide (0x0F < (x &&& 0x0F) + (y &&& 0x0F)))
    (countOnes8 (if ci then wrap8 (x + y + 1) else wrap8 (x + y)) % 2 == 0)
    ((if ci then wrap8 (x + y + 1) else wrap8 (x + y)) == 0)
    (decide (0 < (if ci then wrap8 (x + y + 1) else wrap8 (x + y)) &&& 0x80))
  exact ⟨h1, h2, h5, h4, h3, h6⟩

theorem and15_eq_mod16 (x : Nat) (hx : x < 256) : x &&& 0x0F = x % 16 := by
  revert hx; revert x; decide

/-- Claim C3: for all bytes x, y and carry_in, the flag-engine helper add
returns the wrapped sum, reports carry-out exactly when the true sum
reaches 256, sets Auxiliary Carry exactly when the low nibbles with the
carry-in exceed 0x0F (the source comparison with 0x0F under carry-in
being equivalent), and sets Parity, Zero and Sign from the result. -/
theorem c3_add_helper_spec (cpu : Cpu) (x y : Nat) (hx : x < 256) (hy : y < 256)
    (ci : Bool) (hf : cpu.f < 256) :
    (cpu.add x y ci).2.1 = (x + y + cond ci 1 0) % 256 ∧
      ((cpu.add x y ci).2.2 = true ↔ 256 ≤ x + y + cond ci 1 0) ∧
      (containsF (cpu.add x y ci).1.f AUX_CARRY = true ↔
        0x0F < (x &&& 0x0F) + (y &&& 0x0F) + cond ci 1 0) ∧
      containsF (cpu.add x y ci).1.f SIGN = decide (0 < (cpu.add x y ci).2.1 &&& 0x80) ∧
      containsF (cpu.add x y ci).1.f ZERO = ((cpu.add x y ci).2.1 == 0) ∧
      containsF (cpu.add x y ci).1.f PARITY =
        (countOnes8 (cpu.add x y ci).2.1 % 2 == 0) := by
  obtain ⟨g1, g2, g3, g4, g5, g6⟩ := add_flags_spec cpu x y ci hf
  have hx15 := and15_eq_mod16 x hx
  have hy15 := and15_eq_mod16 y hy
  cases ci
  · simp only [Bool.cond_false, Nat.add_zero]
    refine ⟨rfl, ?_, ?_, g3, g4, g5⟩
    · show decide (0xFF - y < x) = true ↔ _
      rw [decide_eq_true_iff]
      omega
    · simp only [Bool.false_eq_true, if_false] at g2
      rw [g2, decide_eq_true_iff]
  · simp only [Bool.cond_true]
    refine ⟨rfl, ?_, ?_, g3, g4, g5⟩
    · show decide (0xFF - y ≤ x) = true ↔ _
      rw [decide_eq_true_iff]
      omega
    · simp only [if_true] at g2
      rw [g2, decide_eq_true_iff]
      omega

theorem c3_witness :
    (Cpu.initial.add 0xAB 0x64 true).2.1 = (0xAB + 0x64 + cond true 1 0) % 256 ∧
      ((Cpu.initial.add 0xAB 0x64 true).2.2 = true ↔ 256 ≤ 0xAB + 0x64 + cond true 1 0) ∧
      (containsF (Cpu.initial.add 0xAB 0x64 true).1.f AUX_CARRY = true ↔
        0x0F < (0xAB &&& 0x0F) + (0x64 &&& 0x0F) + cond true 1 0) ∧
      containsF (Cpu.initial.add 0xAB 0x64 true).1.f SIGN =
        decide (0 < (Cpu.initial.add 0xAB 0x64 true).2.1 &&& 0x80) ∧
      containsF (Cpu.initial.add 0xAB 0x64 true).1.f ZERO =
        ((Cpu.initial.add 0xAB 0x64 true).2.1 == 0) ∧
      containsF (Cpu.initial.add 0xAB 0x64 true).1.f PARITY =
        (countOnes8 (Cpu.initial.add 0xAB 0x64 true).2.1 % 2 == 0) := by
  exact c3_add_helper_spec Cpu.initial 0xAB 0x64 (by decide) (by decide) true (by decide)

theorem containsF_after_and_chain (f : Nat) (hf : f < 256) (aux p z s : Bool) :
    containsF (setF (setF (setF (setF (removeF f 0x01) 0x10 aux) 0x04 p) 0x40 z) 0x80 s)
        0x01 = false ∧
      containsF (setF (setF (setF (setF (removeF f 0x01) 0x10 aux) 0x04 p) 0x40 z) 0x80 s)
        0x10 = aux ∧
      containsF (setF (setF (setF (setF (removeF f 0x01) 0x10 aux) 0x04 p) 0x40 z) 0x80 s)
        0x04 = p ∧
      containsF (setF (setF (setF (setF (removeF f 0x01) 0x10 aux) 0x04 p) 0x40 z) 0x80 s)
        0x40 = z ∧
      containsF (setF (setF (setF (setF (removeF f 0x01) 0x10 aux) 0x04 p) 0x40 z) 0x80 s)
        0x80 = s := by
  revert aux p z s; revert hf; revert f; decide

theorem logical_and_spec (cpu : Cpu) (x : Nat) (hf : cpu.f < 256) :
    (cpu.logical_and x).a = cpu.a &&& x ∧
      containsF (cpu.logical_and x).f CARRY = false ∧
      containsF (cpu.logical_and x).f AUX_CARRY = decide (0 < (cpu.a ||| x) &&& 0x08) ∧
      containsF (cpu.logical_and x).f SIGN = decide (0 < (cpu.a &&& x) &&& 0x80) ∧
      containsF (cpu.logical_and x).f ZERO = (cpu.a &&& x == 0) ∧
      containsF (cpu.logical_and x).f PARITY = (countOnes8 (cpu.a &&& x) % 2 == 0) := by
  obtain ⟨h1, h2, h3, h4, h5⟩ := containsF_after_and_chain cpu.f hf
    (decide (0 < (cpu.a ||| x) &&& 0x08))
    (countOnes8 (cpu.a &&& x) % 2 == 0)
    (cpu.a &&& x == 0)
    (decide (0 < (cpu.a &&& x) &&& 0x80))
  exact ⟨rfl, h1, h2, h5, h4, h3⟩

/-- Claim C6: ANA r, ANA M and ANI set A to the AND of A and the operand,
clear Carry, set Auxiliary Carry to bit 3 of the OR of the operands and
set Parity, Zero and Sign from the result. -/
theorem c6_and_instructions (cpu : Cpu) (ins : Instruction) (m : Mem)
    (hop : ins.b0 ∈ [0xA0, 0xA1, 0xA2, 0xA3, 0xA4, 0xA5, 0xA6, 0xA7, 0xE6])
    (hf : cpu.f < 256) :
    (cpu.execute_instruction ins m).1.a = cpu.a &&& anaOperand cpu ins m ∧
      containsF (cpu.execute_instruction ins m).1.f CARRY = false ∧
      containsF (cpu.execute_instruction ins m).1.f AUX_CARRY =
        decide (0 < (cpu.a ||| anaOperand cpu ins m) &&& 0x08) ∧
      containsF (cpu.execute_instruction ins m).1.f SIGN =
        decide (0 < (cpu.a &&& anaOperand cpu ins m) &&& 0x80) ∧
      containsF (cpu.execute_instruction ins m).1.f ZERO =
        (cpu.a &&& anaOperand cpu ins m == 0) ∧
      containsF (cpu.execute_instruction ins m).1.f PARITY =
        (countOnes8 (cpu.a &&& anaOperand cpu ins m) % 2 == 0) := by
  obtain ⟨b0, b1, b2⟩ := ins
  simp only [List.mem_cons, List.mem_singleton, List.not_mem_nil, or_false] at hop
  rcases hop with rfl | rfl | rfl | rfl | rfl | rfl | rfl | rfl | rfl
  · rw [exeA0]; exact logical_and_spec cpu cpu.b hf
  · rw [exeA1]; exact logical_and_spec cpu cpu.c hf
  · rw [exeA2]; exact logical_and_spec cpu cpu.d hf
  · rw [exeA3]; exact logical_and_spec cpu cpu.e hf
  · rw [exeA4]; exact logical_and_spec cpu cpu.h hf
  · rw [exeA5]; exact logical_and_spec cpu cpu.l hf
  · rw [exeA6]; exact logical_and_spec cpu (mread m (fromLeBytes cpu.l cpu.h)) hf
  · rw [exeA7]; exact logical_and_spec cpu cpu.a hf
  · rw [exeE6]; exact logical_and_spec cpu b1 hf

theorem c6_witness :
    (Cpu.initial.execute_instruction ⟨0xE6, 0x0C, 0⟩ memZero).1.a =
        Cpu.initial.a &&& anaOperand Cpu.initial ⟨0xE6, 0x0C, 0⟩ memZero ∧
      containsF (Cpu.initial.execute_instruction ⟨0xE6, 0x0C, 0⟩ memZero).1.f CARRY = false ∧
      containsF (Cpu.initial.execute_instruction ⟨0xE6, 0x0C, 0⟩ memZero).1.f AUX_CARRY =
        decide (0 < (Cpu.initial.a ||| anaOperand Cpu.initial ⟨0xE6, 0x0C, 0⟩ memZero) &&& 0x08) ∧
      containsF (Cpu.initial.execute_instruction ⟨0xE6, 0x0C, 0⟩ memZero).1.f SIGN =
        decide (0 < (Cpu.initial.a &&& anaOperand Cpu.initial ⟨0xE6, 0x0C, 0⟩ memZero) &&& 0x80) ∧
      containsF (Cpu.initial.execute_instruction ⟨0xE6, 0x0C, 0⟩ memZero).1.f ZERO =
        (Cpu.initial.a &&& anaOperand Cpu.initial ⟨0xE6, 0x0C, 0⟩ memZero == 0) ∧
      containsF (Cpu.initial.execute_instruction ⟨0xE6, 0x0C, 0⟩ memZero).1.f PARITY =
        (countOnes8 (Cpu.initial.a &&& anaOperand Cpu.initial ⟨0xE6, 0x0C, 0⟩ memZero) % 2 == 0) :=
  c6_and_instructions Cpu.initial ⟨0xE6, 0x0C, 0⟩ memZero (by decide) (by decide)


/-- Claim C5: INR r, DCR r, INR M and DCR M write the incremented or
decremented value to their destination and update Sign, Zero, Parity and
Auxiliary Carry from it, while the Carry flag keeps exactly its previous
value. -/
theorem c5_inr_dcr_carry_unchanged :
    (∀ (cpu : Cpu) (m : Mem) (b1 b2 op : Nat),
      op ∈ [0x04, 0x0C, 0x14, 0x1C, 0x24, 0x2C, 0x3C, 0x34] → cpu.f < 256 →
      containsF (cpu.execute_instruction ⟨op, b1, b2⟩ m).1.f CARRY =
          containsF cpu.f CARRY ∧
        incDecDest (cpu.execute_instruction ⟨op, b1, b2⟩ m) cpu op =
          wrap8 (incDecOperand cpu m op + 1) ∧
        containsF (cpu.execute_instruction ⟨op, b1, b2⟩ m).1.f AUX_CARRY =
          decide (0x0F < (incDecOperand cpu m op &&& 0x0F) + 1) ∧
        containsF (cpu.execute_instruction ⟨op, b1, b2⟩ m).1.f SIGN =
          decide (0 < wrap8 (incDecOperand cpu m op + 1) &&& 0x80) ∧
        containsF (cpu.execute_instruction ⟨op, b1, b2⟩ m).1.f ZERO =
          (wrap8 (incDecOperand cpu m op + 1) == 0) ∧
        containsF (cpu.execute_instruction ⟨op, b1, b2⟩ m).1.f PARITY =
          (countOnes8 (wrap8 (incDecOperand cpu m op + 1)) % 2 == 0)) ∧
    (∀ (cpu : Cpu) (m : Mem) (b1 b2 op : Nat),
      op ∈ [0x05, 0x0D, 0x15, 0x1D, 0x25, 0x2D, 0x3D, 0x35] → cpu.f < 256 →
      containsF (cpu.execute_instruction ⟨op, b1, b2⟩ m).1.f CARRY =
          containsF cpu.f CARRY ∧
        incDecDest (cpu.execute_instruction ⟨op, b1, b2⟩ m) cpu op =
          wrap8 (incDecOperand cpu m op + 254 + 1) ∧
        containsF (cpu.execute_instruction ⟨op, b1, b2⟩ m).1.f AUX_CARRY =
          decide (0x0F ≤ (incDecOperand cpu m op &&& 0x0F) + 14) ∧
        containsF (cpu.execute_instruction ⟨op, b1, b2⟩ m).1.f SIGN =
          decide (0 < wrap8 (incDecOperand cpu m op + 254 + 1) &&& 0x80) ∧
        containsF (cpu.execute_instruction ⟨op, b1, b2⟩ m).1.f ZERO =
          (wrap8 (incDecOperand cpu m op + 254 + 1) == 0) ∧
        containsF (cpu.execute_instruction ⟨op, b1, b2⟩ m).1.f PARITY =
          (countOnes8 (wrap8 (incDecOperand cpu m op + 254 + 1)) % 2 == 0)) := by
  constructor
  · intro cpu m b1 b2 op hop hf
    simp only [List.mem_cons, List.mem_singleton, List.not_mem_nil, or_false] at hop
    rcases hop with rfl | rfl | rfl | rfl | rfl | rfl | rfl | rfl
    · rw [exe04]
      obtain ⟨g1, g2, g3, g4, g5, g6⟩ := add_flags_spec cpu cpu.b 1 false hf
      exact ⟨g1, rfl, g2, g3, g4, g5⟩
    · rw [exe0C]
      obtain ⟨g1, g2, g3, g4, g5, g6⟩ := add_flags_spec cpu cpu.c 1 false hf
      exact ⟨g1, rfl, g2, g3, g4, g5⟩
    · rw [exe14]
      obtain ⟨g1, g2, g3, g4, g5, g6⟩ := add_flags_spec cpu cpu.d 1 false hf
      exact ⟨g1, rfl, g2, g3, g4, g5⟩
    · rw [exe1C]
      obtain ⟨g1, g2, g3, g4, g5, g6⟩ := add_flags_spec cpu cpu.e 1 false hf
      exact ⟨g1, rfl, g2, g3, g4, g5⟩
    · rw [exe24]
      obtain ⟨g1, g2, g3, g4, g5, g6⟩ := add_flags_spec cpu cpu.h 1 false hf
      exact ⟨g1, rfl, g2, g3, g4, g5⟩
    · rw [exe2C]
      obtain ⟨g1, g2, g3, g4, g5, g6⟩ := add_flags_spec cpu cpu.l 1 false hf
      exact ⟨g1, rfl, g2, g3, g4, g5⟩
    · rw [exe3C]
      obtain ⟨g1, g2, g3, g4, g5, g6⟩ := add_flags_spec cpu cpu.a 1 false hf
      exact ⟨g1, rfl, g2, g3, g4, g5⟩
    · rw [exe34]
      obtain ⟨g1, g2, g3, g4, g5, g6⟩ :=
        add_flags_spec cpu (mread m (fromLeBytes cpu.l cpu.h)) 1 false hf
      refine ⟨g1, ?_, g2, g3, g4, g5⟩
      simp only [incDecDest, mread, mwrite]
      simp only [if_pos]
      rfl
  · intro cpu m b1 b2 op hop hf
    simp only [List.mem_cons, List.mem_singleton, List.not_mem_nil, or_false] at hop
    rcases hop with rfl | rfl | rfl | rfl | rfl | rfl | rfl | rfl
    · rw [exe05]
      obtain ⟨g1, g2, g3, g4, g5, g6⟩ := add_flags_spec cpu cpu.b 254 true hf
      exact ⟨g1, rfl, g2, g3, g4, g5⟩
    · rw [exe0D]
      obtain ⟨g1, g2, g3, g4, g5, g6⟩ := add_flags_spec cpu cpu.c 254 true hf
      exact ⟨g1, rfl, g2, g3, g4, g5⟩
    · rw [exe15]
      obtain ⟨g1, g2, g3, g4, g5, g6⟩ := add_flags_spec cpu cpu.d 254 true hf
      exact ⟨g1, rfl, g2, g3, g4, g5⟩
    · rw [exe1D]
      obtain ⟨g1, g2, g3, g4, g5, g6⟩ := add_flags_spec cpu cpu.e 254 true hf
      exact ⟨g1, rfl, g2, g3, g4, g5⟩
    · rw [exe25]
      obtain ⟨g1, g2, g3, g4, g5, g6⟩ := add_flags_spec cpu cpu.h 254 true hf
      exact ⟨g1, rfl, g2, g3, g4, g5⟩
    · rw [exe2D]
      obtain ⟨g1, g2, g3, g4, g5, g6⟩ := add_flags_spec cpu cpu.l 254 true hf
      exact ⟨g1, rfl, g2, g3, g4, g5⟩
    · rw [exec3D_eq_dcrA_general]
      obtain ⟨g1, g2, g3, g4, g5, g6⟩ := add_flags_spec cpu cpu.a 254 true hf
      exact ⟨g1, rfl, g2, g3, g4, g5⟩
    · rw [exe35]
      obtain ⟨g1, g2, g3, g4, g5, g6⟩ :=
        add_flags_spec cpu (mread m (fromLeBytes cpu.l cpu.h)) 254 true hf
      refine ⟨g1, ?_, g2, g3, g4, g5⟩
      simp only [incDecDest, mread, mwrite]
      simp only [if_pos]
      rfl

theorem c5_witness :
    (containsF (Cpu.initial.execute_instruction ⟨0x04, 0, 0⟩ memZero).1.f CARRY =
          containsF Cpu.initial.f CARRY ∧
        incDecDest (Cpu.initial.execute_instruction ⟨0x04, 0, 0⟩ memZero) Cpu.initial 0x04 =
          wrap8 (incDecOperand Cpu.initial memZero 0x04 + 1) ∧
        containsF (Cpu.initial.execute_instruction ⟨0x04, 0, 0⟩ memZero).1.f AUX_CARRY =
          decide (0x0F < (incDecOperand Cpu.initial memZero 0x04 &&& 0x0F) + 1) ∧
        containsF (Cpu.initial.execute_instruction ⟨0x04, 0, 0⟩ memZero).1.f SIGN =
          decide (0 < wrap8 (incDecOperand Cpu.initial memZero 0x04 + 1) &&& 0x80) ∧
        containsF (Cpu.initial.execute_instruction ⟨0x04, 0, 0⟩ memZero).1.f ZERO =
          (wrap8 (incDecOperand Cpu.initial memZero 0x04 + 1) == 0) ∧
        containsF (Cpu.initial.execute_instruction ⟨0x04, 0, 0⟩ memZero).1.f PARITY =
          (countOnes8 (wrap8 (incDecOperand Cpu.initial memZero 0x04 + 1)) % 2 == 0)) ∧
      (containsF (Cpu.initial.execute_instruction ⟨0x05, 0, 0⟩ memZero).1.f CARRY =
          containsF Cpu.initial.f CARRY ∧
        incDecDest (Cpu.initial.execute_instruction ⟨0x05, 0, 0⟩ memZero) Cpu.initial 0x05 =
          wrap8 (incDecOperand Cpu.initial memZero 0x05 + 254 + 1) ∧
        containsF (Cpu.initial.execute_instruction ⟨0x05, 0, 0⟩ memZero).1.f AUX_CARRY =
          decide (0x0F ≤ (incDecOperand Cpu.initial memZero 0x05 &&& 0x0F) + 14) ∧
        containsF (Cpu.initial.execute_instruction ⟨0x05, 0, 0⟩ memZero).1.f SIGN =
          decide (0 < wrap8 (incDecOperand Cpu.initial memZero 0x05 + 254 + 1) &&& 0x80) ∧
        containsF (Cpu.initial.execute_instruction ⟨0x05, 0, 0⟩ memZero).1.f ZERO =
          (wrap8 (incDecOperand Cpu.initial memZero 0x05 + 254 + 1) == 0) ∧
        containsF (Cpu.initial.execute_instruction ⟨0x05, 0, 0⟩ memZero).1.f PARITY =
          (countOnes8 (wrap8 (incDecOperand Cpu.initial memZero 0x05 + 254 + 1)) % 2 == 0)) :=
  ⟨c5_inr_dcr_carry_unchanged.1 Cpu.initial memZero 0 0 0x04 (by decide) (by decide),
   c5_inr_dcr_carry_unchanged.2 Cpu.initial memZero 0 0 0x05 (by decide) (by decide)⟩

/-- Claim C4: executing any opcode preserves the flags-byte invariant
(bit 1 one and bits 3 and 5 zero); POP PSW establishes it outright,
forcing bit 1 on and bits 3 and 5 off no matter what byte is on the
stack; the initial flags byte satisfies it. -/
theorem c4_flags_invariant :
    (∀ (cpu : Cpu) (ins : Instruction) (m : Mem),
        ins.b0 < 256 → mread m cpu.sp < 256 → FlagsInv cpu.f →
        FlagsInv (cpu.execute_instruction ins m).1.f) ∧
      (∀ (cpu : Cpu) (b1 b2 : Nat) (m : Mem), mread m cpu.sp < 256 →
        (cpu.execute_instruction ⟨0xF1, b1, b2⟩ m).1.f =
            (mread m cpu.sp ||| ALWAYS_ONE) &&& 0xD7 ∧
          FlagsInv (cpu.execute_instruction ⟨0xF1, b1, b2⟩ m).1.f) ∧
      FlagsInv Cpu.initial.f := by
  refine ⟨execute_flagsInv, ?_, by decide⟩
  intro cpu b1 b2 m hsp
  rw [exeF1]
  exact ⟨rfl, flagsInv_popPsw _ hsp⟩

theorem c4_witness :
    FlagsInv (Cpu.initial.execute_instruction ⟨0xC6, 0xFF, 0⟩ memZero).1.f ∧
      ((({ Cpu.initial with sp := 0x100 } : Cpu).execute_instruction ⟨0xF1, 0, 0⟩
            (fun _ => 0xFF)).1.f =
          ((0xFF : Nat) ||| ALWAYS_ONE) &&& 0xD7 ∧
        FlagsInv ((({ Cpu.initial with sp := 0x100 } : Cpu).execute_instruction ⟨0xF1, 0, 0⟩
            (fun _ => 0xFF)).1.f)) ∧
      FlagsInv Cpu.initial.f :=
  ⟨c4_flags_invariant.1 Cpu.initial ⟨0xC6, 0xFF, 0⟩ memZero (by decide) (by decide) (by decide),
   c4_flags_invariant.2.1 { Cpu.initial with sp := 0x100 } 0 0 (fun _ => 0xFF) (by decide),
   c4_flags_invariant.2.2⟩

/-- Claim C1, counterexample: with the undocumented opcode 0x08 at PC,
fetch_execute_instruction does not decode it as its alias; it hits the
unimplemented arm of fetch_instruction and panics (modelled as none). -/
theorem c1_counterexample :
    (Cpu.initial.fetch_execute_instruction memUndoc).1 = none := by decide

/-- Claim C1, amended: fetch_instruction rejects (panics on) the twelve
undocumented opcodes, so step never decodes them; the alias semantics
live only in execute_instruction, where 0x08 to 0x38 behave exactly as
NOP, 0xCB as JMP, 0xD9 as RET and 0xDD, 0xED, 0xFD as CALL. -/
theorem c1_amended :
    (∀ (cpu : Cpu) (m : Mem), mread m cpu.pc ∈ undocumentedOpcodes →
        cpu.fetch_instruction m = none) ∧
      (∀ (cpu : Cpu) (m : Mem) (b1 b2 op : Nat),
        op ∈ [0x08, 0x10, 0x18, 0x20, 0x28, 0x30, 0x38] →
        cpu.execute_instruction ⟨op, b1, b2⟩ m = cpu.execute_instruction ⟨0x00, b1, b2⟩ m) ∧
      (∀ (cpu : Cpu) (m : Mem) (b1 b2 : Nat),
        cpu.execute_instruction ⟨0xCB, b1, b2⟩ m = cpu.execute_instruction ⟨0xC3, b1, b2⟩ m) ∧
      (∀ (cpu : Cpu) (m : Mem) (b1 b2 : Nat),
        cpu.execute_instruction ⟨0xD9, b1, b2⟩ m = cpu.execute_instruction ⟨0xC9, b1, b2⟩ m) ∧
      (∀ (cpu : Cpu) (m : Mem) (b1 b2 op : Nat), op ∈ [0xDD, 0xED, 0xFD] →
        cpu.execute_instruction ⟨op, b1, b2⟩ m = cpu.execute_instruction ⟨0xCD, b1, b2⟩ m) := by
  refine ⟨fetch_undocumented, ?_, ?_, ?_, ?_⟩
  · intro cpu m b1 b2 op hop
    simp only [List.mem_cons, List.mem_singleton, List.not_mem_nil, or_false] at hop
    rcases hop with rfl | rfl | rfl | rfl | rfl | rfl | rfl
    · rw [exe08, exe00]
    · rw [exe10, exe00]
    · rw [exe18, exe00]
    · rw [exe20, exe00]
    · rw [exe28, exe00]
    · rw [exe30, exe00]
    · rw [exe38, exe00]
  · intro cpu m b1 b2
    rw [exeCB, exeC3]
  · intro cpu m b1 b2
    rw [exeD9, exeC9]
  · intro cpu m b1 b2 op hop
    simp only [List.mem_cons, List.mem_singleton, List.not_mem_nil, or_false] at hop
    rcases hop with rfl | rfl | rfl
    · rw [exeDD, exeCD]; rfl
    · rw [exeED, exeCD]; rfl
    · rw [exeFD, exeCD]; rfl

theorem c1_witness :
    Cpu.initial.fetch_instruction memUndoc = none ∧
      Cpu.initial.execute_instruction ⟨0x08, 0, 0⟩ memZero =
        Cpu.initial.execute_instruction ⟨0x00, 0, 0⟩ memZero ∧
      Cpu.initial.execute_instruction ⟨0xCB, 0x34, 0x12⟩ memZero =
        Cpu.initial.execute_instruction ⟨0xC3, 0x34, 0x12⟩ memZero ∧
      Cpu.initial.execute_instruction ⟨0xDD, 0x34, 0x12⟩ memZero =
        Cpu.initial.execute_instruction ⟨0xCD, 0x34, 0x12⟩ memZero :=
  ⟨c1_amended.1 Cpu.initial memUndoc (by decide),
   c1_amended.2.1 Cpu.initial memZero 0 0 0x08 (by decide),
   c1_amended.2.2.1 Cpu.initial memZero 0x34 0x12,
   c1_amended.2.2.2.2 Cpu.initial memZero 0x34 0x12 0xDD (by decide)⟩

/-- Claim C8, counterexample: fetching is not total; on the undocumented
opcode 0xFD at PC fetch_instruction reaches the unimplemented arm and
panics (modelled as none). -/
theorem c8_counterexample : Cpu.initial.fetch_instruction memUndocFD = none := by decide

/-- Claim C8, amended: on every documented opcode the decoder is total;
it reads the operand bytes at PC+1 and PC+2 modulo two to the sixteen
and advances PC by the instruction length modulo two to the sixteen; on
the twelve undocumented opcodes it panics. -/
theorem c8_amended :
    (∀ (cpu : Cpu) (m : Mem) (b : Nat), mread m cpu.pc = b → b ∈ len1Opcodes →
        cpu.fetch_instruction m =
          some (⟨b, 0, 0⟩, { cpu with pc := wrap16 (cpu.pc + 1) })) ∧
      (∀ (cpu : Cpu) (m : Mem) (b : Nat), mread m cpu.pc = b → b ∈ len2Opcodes →
        cpu.fetch_instruction m =
          some (⟨b, mread m (wrap16 (cpu.pc + 1)), 0⟩,
            { cpu with pc := wrap16 (cpu.pc + 2) })) ∧
      (∀ (cpu : Cpu) (m : Mem) (b : Nat), mread m cpu.pc = b → b ∈ len3Opcodes →
        cpu.fetch_instruction m =
          some (⟨b, mread m (wrap16 (cpu.pc + 1)), mread m (wrap16 (cpu.pc + 2))⟩,
            { cpu with pc := wrap16 (cpu.pc + 3) })) ∧
      (∀ (cpu : Cpu) (m : Mem), mread m cpu.pc ∈ undocumentedOpcodes →
        cpu.fetch_instruction m = none) :=
  ⟨fetch_len1, fetch_len2, fetch_len3, fetch_undocumented⟩

theorem c8_witness :
    (Cpu.initial.fetch_instruction memZero =
        some (⟨0x00, 0, 0⟩, { Cpu.initial with pc := wrap16 (Cpu.initial.pc + 1) })) ∧
      ({ Cpu.initial with pc := 0xFFFF } : Cpu).fetch_instruction (fun _ => 0xC3) =
        some (⟨0xC3, 0xC3, 0xC3⟩, { Cpu.initial with pc := wrap16 (0xFFFF + 3) }) ∧
      Cpu.initial.fetch_instruction memUndocFD = none :=
  ⟨c8_amended.1 Cpu.initial memZero 0x00 rfl (by decide),
   c8_amended.2.2.1 { Cpu.initial with pc := 0xFFFF } (fun _ => 0xC3) 0xC3 rfl (by decide),
   c8_amended.2.2.2 Cpu.initial memUndocFD (by decide)⟩

theorem step_ei_from_disabled (cpu : Cpu) (m : Mem)
    (hd : cpu.interruptable = .disabled) (hh : cpu.isHalted = false)
    (h0 : mread m cpu.pc = 0xFB) :
    cpu.fetch_execute_instruction m =
      (some (.ok (⟨0xFB, 0, 0⟩, 4)),
        { cpu with pc := wrap16 (cpu.pc + 1), interruptable := .enabling }, m) := by
  unfold Cpu.fetch_execute_instruction
  rw [hh]
  simp only [Bool.false_eq_true, if_false]
  rw [fetch_len1 cpu m 0xFB h0 (by decide)]
  dsimp only
  rw [exeFB]
  dsimp only
  rw [hd]
  dsimp only
  rw [hh]

theorem step_enabling_latch (cpu : Cpu) (m : Mem)
    (hl : cpu.interruptable = .enabling) (hh : cpu.isHalted = false)
    (hdoc : mread m cpu.pc ∈ len1Opcodes ∨ mread m cpu.pc ∈ len2Opcodes ∨
      mread m cpu.pc ∈ len3Opcodes)
    (hnd : mread m cpu.pc ≠ 0xF3) :
    (cpu.fetch_execute_instruction m).2.1.interruptable = .enabled := by
  unfold Cpu.fetch_execute_instruction
  rw [hh]
  simp only [Bool.false_eq_true, if_false]
  rcases hdoc with hL | hL | hL
  · rw [fetch_len1 cpu m _ rfl hL]
    dsimp only
    rw [execute_latch_enabling { cpu with pc := wrap16 (cpu.pc + 1) }
      ⟨mread m cpu.pc, 0, 0⟩ m (len_opcodes_lt_256.1 _ hL) hnd hl, hl]
  · rw [fetch_len2 cpu m _ rfl hL]
    dsimp only
    rw [execute_latch_enabling { cpu with pc := wrap16 (cpu.pc + 2) }
      ⟨mread m cpu.pc, mread m (wrap16 (cpu.pc + 1)), 0⟩ m
      (len_opcodes_lt_256.2.1 _ hL) hnd hl, hl]
  · rw [fetch_len3 cpu m _ rfl hL]
    dsimp only
    rw [execute_latch_enabling { cpu with pc := wrap16 (cpu.pc + 3) }
      ⟨mread m cpu.pc, mread m (wrap16 (cpu.pc + 1)), mread m (wrap16 (cpu.pc + 2))⟩ m
      (len_opcodes_lt_256.2.2 _ hL) hnd hl, hl]

/-- Claim C2, counterexample: after a step executing EI and one more
completed step, the latch is not always Enabled; when the following
instruction is DI the latch is Disabled and an interrupt is refused. -/
theorem c2_counterexample :
    (Cpu.initial.fetch_execute_instruction memEIDI).1 = some (.ok (⟨0xFB, 0, 0⟩, 4)) ∧
      (Cpu.initial.fetch_execute_instruction memEIDI).2.1.interruptable = .enabling ∧
      ((Cpu.initial.fetch_execute_instruction memEIDI).2.1.fetch_execute_instruction
          (Cpu.initial.fetch_execute_instruction memEIDI).2.2).1 =
        some (.ok (⟨0xF3, 0, 0⟩, 4)) ∧
      ((Cpu.initial.fetch_execute_instruction memEIDI).2.1.fetch_execute_instruction
          (Cpu.initial.fetch_execute_instruction memEIDI).2.2).2.1.interruptable =
        .disabled ∧
      (((Cpu.initial.fetch_execute_instruction memEIDI).2.1.fetch_execute_instruction
            (Cpu.initial.fetch_execute_instruction memEIDI).2.2).2.1.interrupt ⟨0xC7, 0, 0⟩
          ((Cpu.initial.fetch_execute_instruction memEIDI).2.1.fetch_execute_instruction
            (Cpu.initial.fetch_execute_instruction memEIDI).2.2).2.2).1 =
        .error .interruptNotEnabled := by
  refine ⟨by decide, by decide, by decide, by decide, by decide⟩

/-- Claim C2, amended: from a Disabled latch, a step executing EI leaves
the latch Enabling and interrupt is refused; after exactly one more
completed step whose instruction is documented and is not DI (a second
EI included), the latch is Enabled and interrupt succeeds. -/
theorem c2_amended (cpu : Cpu) (m : Mem)
    (hd : cpu.interruptable = .disabled) (hh : cpu.isHalted = false)
    (h0 : mread m cpu.pc = 0xFB) (op2 : Nat)
    (h1 : mread m (wrap16 (cpu.pc + 1)) = op2)
    (hdoc : op2 ∈ len1Opcodes ∨ op2 ∈ len2Opcodes ∨ op2 ∈ len3Opcodes)
    (hnd : op2 ≠ 0xF3) :
    (cpu.fetch_execute_instruction m).1 = some (.ok (⟨0xFB, 0, 0⟩, 4)) ∧
      (cpu.fetch_execute_instruction m).2.1.interruptable = .enabling ∧
      (∀ ins, ((cpu.fetch_execute_instruction m).2.1.interrupt ins
          (cpu.fetch_execute_instruction m).2.2).1 = .error .interruptNotEnabled) ∧
      ((cpu.fetch_execute_instruction m).2.1.fetch_execute_instruction
          (cpu.fetch_execute_instruction m).2.2).2.1.interruptable = .enabled ∧
      (∀ ins, ∃ k, (((cpu.fetch_execute_instruction m).2.1.fetch_execute_instruction
            (cpu.fetch_execute_instruction m).2.2).2.1.interrupt ins
          ((cpu.fetch_execute_instruction m).2.1.fetch_execute_instruction
            (cpu.fetch_execute_instruction m).2.2).2.2).1 = .ok k) := by
  rw [step_ei_from_disabled cpu m hd hh h0]
  have h1a : mread m
      ({ cpu with pc := wrap16 (cpu.pc + 1), interruptable := Interruptable.enabling } : Cpu).pc =
      op2 := h1
  have hstep2 := step_enabling_latch
    { cpu with pc := wrap16 (cpu.pc + 1), interruptable := .enabling } m rfl hh
    (by rw [h1a]; exact hdoc) (by rw [h1a]; exact hnd)
  refine ⟨rfl, rfl, ?_, hstep2, ?_⟩
  · intro ins
    rw [interrupt_refused_unchanged _ ins m (by simp)]
  · intro ins
    exact ⟨_, interrupt_ok_of_enabled _ ins _ hstep2⟩
theorem c2_witness :
    (Cpu.initial.fetch_execute_instruction memEIEI).1 = some (.ok (⟨0xFB, 0, 0⟩, 4)) ∧
      (Cpu.initial.fetch_execute_instruction memEIEI).2.1.interruptable = .enabling ∧
      (∀ ins, ((Cpu.initial.fetch_execute_instruction memEIEI).2.1.interrupt ins
          (Cpu.initial.fetch_execute_instruction memEIEI).2.2).1 =
        .error .interruptNotEnabled) ∧
      ((Cpu.initial.fetch_execute_instruction memEIEI).2.1.fetch_execute_instruction
          (Cpu.initial.fetch_execute_instruction memEIEI).2.2).2.1.interruptable =
        .enabled ∧
      (∀ ins, ∃ k,
        (((Cpu.initial.fetch_execute_instruction memEIEI).2.1.fetch_execute_instruction
            (Cpu.initial.fetch_execute_instruction memEIEI).2.2).2.1.interrupt ins
          ((Cpu.initial.fetch_execute_instruction memEIEI).2.1.fetch_execute_instruction
            (Cpu.initial.fetch_execute_instruction memEIEI).2.2).2.2).1 = .ok k) :=
  c2_amended Cpu.initial memEIEI rfl rfl rfl 0xFB rfl (by decide) (by decide)


end I8080
